import Mathlib

/-!
Verification development for the citation-verifier repository.

The Python source is shallowly embedded: pure functions become Lean
functions, regexes are interpreted by a small backtracking engine with
Python's leftmost/greedy/lazy match priority, and every interaction with
the outside world (the eyecite tokenizer library, HTTP authorities, the
OpenAI client, environment variables) is an explicit oracle parameter.
-/

namespace CV

/-! ## Python string primitives -/

/-- Python `\s` whitespace class: space, tab, newline, carriage return,
vertical tab, form feed (ASCII interpretation). -/
def pyIsSpace (c : Char) : Bool :=
  c = ' ' || c = '\t' || c = '\n' || c = '\r' || c = Char.ofNat 11 || c = Char.ofNat 12

def isAsciiUpper (c : Char) : Bool := 'A' ≤ c && c ≤ 'Z'
def isAsciiLower (c : Char) : Bool := 'a' ≤ c && c ≤ 'z'
def isAsciiDigit (c : Char) : Bool := '0' ≤ c && c ≤ '9'
def isAsciiAlpha (c : Char) : Bool := isAsciiUpper c || isAsciiLower c
def isAsciiAlnum (c : Char) : Bool := isAsciiAlpha c || isAsciiDigit c
/-- Python regex `\w`: alphanumeric or underscore (ASCII interpretation). -/
def isWordChar (c : Char) : Bool := isAsciiAlnum c || c = '_'

def toLowerCh (c : Char) : Char := if isAsciiUpper c then Char.ofNat (c.toNat + 32) else c

/-- Python `str.lower()` (ASCII). -/
def pyLower (s : List Char) : List Char := s.map toLowerCh

/-- Python slice `s[a:b]` with non-negative bounds (clamping semantics). -/
def pySlice (s : List Char) (a b : Nat) : List Char := (s.take b).drop a

/-- Python `s[a:]`. -/
def pyDrop (s : List Char) (a : Nat) : List Char := s.drop a

def pyLStrip (s : List Char) : List Char := s.dropWhile pyIsSpace
def pyRStrip (s : List Char) : List Char := (pyLStrip s.reverse).reverse
/-- Python `str.strip()` with no argument. -/
def pyStrip (s : List Char) : List Char := pyRStrip (pyLStrip s)

/-- Is `pat` a prefix of `s`? -/
def isPrefixOfCh : List Char → List Char → Bool
  | [], _ => true
  | _ :: _, [] => false
  | p :: ps, c :: cs => p = c && isPrefixOfCh ps cs

/-- Python `s.find(sub, start)`: smallest index `i ≥ start` where `sub`
occurs in `s`, as an `Option` instead of `-1`. -/
def pyFindFrom (s sub : List Char) (start : Nat) : Option Nat :=
  (List.range (s.length + 1)).find? (fun i => start ≤ i && isPrefixOfCh sub (s.drop i))

/-- Python `s.rfind(sub, 0, end?)`: largest index `i` with `i + |sub| ≤ endB`
where `sub` occurs, as an `Option` instead of `-1`. -/
def pyRFindBefore (s sub : List Char) (endB : Nat) : Option Nat :=
  ((List.range (s.length + 1)).filter
    (fun i => i + sub.length ≤ endB && isPrefixOfCh sub (s.drop i))).getLast?

def pyRFind (s sub : List Char) : Option Nat := pyRFindBefore s sub (s.length)

/-- Python `sub in s` (substring containment). -/
def pyContains (s sub : List Char) : Bool := (pyFindFrom s sub 0).isSome

/-- Python `str.startswith`. -/
def pyStartsWith (s sub : List Char) : Bool := isPrefixOfCh sub s

/-- Python `int(str)`: optional surrounding whitespace, optional sign,
at least one digit; anything else raises `ValueError`, modelled as `.error`. -/
def pyInt (s : List Char) : Except Unit Int :=
  let t := pyStrip s
  let (sign, digits) : Int × List Char :=
    match t with
    | '-' :: rest => (-1, rest)
    | '+' :: rest => (1, rest)
    | _ => (1, t)
  if digits ≠ [] && digits.all isAsciiDigit then
    .ok (sign * (digits.foldl (fun acc c => acc * 10 + (c.toNat - '0'.toNat)) 0 : Nat))
  else .error ()

/-- Python `str.isdigit()` (ASCII digits). -/
def pyIsDigitStr (s : List Char) : Bool := s ≠ [] && s.all isAsciiDigit

/-! ## A small regex engine with Python match priority

`REx` is a regular-expression AST.  `matchEnds` lists the candidate match
lengths of a pattern against a prefix of the input, in the order a
backtracking engine such as Python's `re` would try them: alternatives
left to right, greedy repetition longest first, lazy repetition shortest
first.  The head of the list is therefore the length Python's engine
reports.  Groups capture the text they consumed; a later capture of the
same group name overwrites an earlier one, as in Python. -/

inductive REx where
  /-- empty string -/
  | eps : REx
  /-- single character matching the predicate -/
  | cls (p : Char → Bool) : REx
  | cat (a b : REx) : REx
  | alt (a b : REx) : REx
  /-- greedy Kleene star -/
  | star (a : REx) : REx
  /-- lazy Kleene star -/
  | starL (a : REx) : REx
  /-- named capturing group -/
  | grp (name : String) (a : REx) : REx
  /-- zero-width lookahead `(?=a)` -/
  | look (a : REx) : REx
  /-- `$` under `re.MULTILINE`: end of input or just before a newline -/
  | endm : REx
  /-- `$` without `re.MULTILINE`: end of input or before a final newline -/
  | endS : REx

abbrev Binds := List (String × String)

/-- Structural size of a pattern, used to budget matcher fuel. -/
def REx.size : REx → Nat
  | .eps | .cls _ | .endm | .endS => 1
  | .cat a b | .alt a b => a.size + b.size + 1
  | .star a | .starL a | .grp _ a | .look a => a.size + 1

/-- Candidate match lengths (with group bindings), in Python priority
order: alternatives left to right, greedy repetition longest first, lazy
repetition shortest first.  The head of the list is the match a
backtracking engine such as Python's reports.  Fuel is spent on every
recursive step; along any path either the pattern shrinks or a star
iteration consumes input, so `(|s| + 1) * (size + 1)` fuel (supplied by
`matchEnds`) is always sufficient. -/
def matchEndsF : Nat → REx → List Char → List (Nat × Binds)
  | 0, _, _ => []
  | f + 1, re, s =>
    match re with
    | .eps => [(0, [])]
    | .cls p =>
      (match s with
       | [] => []
       | c :: _ => if p c then [(1, [])] else [])
    | .cat a b =>
      (matchEndsF f a s).flatMap (fun nb =>
        (matchEndsF f b (s.drop nb.1)).map (fun mb => (nb.1 + mb.1, nb.2 ++ mb.2)))
    | .alt a b => matchEndsF f a s ++ matchEndsF f b s
    | .star a =>
      (((matchEndsF f a s).filter (fun nb => 0 < nb.1)).flatMap (fun nb =>
        (matchEndsF f (.star a) (s.drop nb.1)).map
          (fun mb => (nb.1 + mb.1, nb.2 ++ mb.2)))) ++ [(0, [])]
    | .starL a =>
      (0, []) :: (((matchEndsF f a s).filter (fun nb => 0 < nb.1)).flatMap (fun nb =>
        (matchEndsF f (.starL a) (s.drop nb.1)).map
          (fun mb => (nb.1 + mb.1, nb.2 ++ mb.2))))
    | .grp name a =>
      (matchEndsF f a s).map (fun nb => (nb.1, nb.2 ++ [(name, String.mk (s.take nb.1))]))
    | .look a => if (matchEndsF f a s).isEmpty then [] else [(0, [])]
    | .endm => if s = [] || s.head? = some '\n' then [(0, [])] else []
    | .endS => if s = [] || s = ['\n'] then [(0, [])] else []

/-- All candidate match ends of `re` at the start of `s`. -/
def matchEnds (re : REx) (s : List Char) : List (Nat × Binds) :=
  matchEndsF ((s.length + 1) * (re.size + 1)) re s

/-- The match Python's engine reports at the start of `s`, if any. -/
def reMatchHere (re : REx) (s : List Char) : Option (Nat × Binds) :=
  (matchEnds re s).head?

/-- A contextual matcher: given the whole text and a position, produce the
match end and bindings.  Plain patterns ignore the left context; patterns
with lookbehinds or word boundaries inspect it. -/
abbrev CtxMatcher := List Char → Nat → Option (Nat × Binds)

def plainMatcher (re : REx) : CtxMatcher := fun s i =>
  (reMatchHere re (s.drop i)).map (fun (n, b) => (i + n, b))

/-- `re.finditer`: scan left to right, taking the first match at each
position and resuming at its end (or one past, for empty matches).
Returns `(start, end, bindings)` triples. -/
def finditerAux (m : CtxMatcher) (s : List Char) : Nat → Nat → List (Nat × Nat × Binds)
  | 0, _ => []
  | fuel + 1, pos =>
    if pos ≤ s.length then
      match m s pos with
      | some (e, b) =>
        if pos < e then
          (pos, e, b) :: finditerAux m s fuel e
        else
          (pos, e, b) ::
            (if pos + 1 ≤ s.length then finditerAux m s fuel (pos + 1) else [])
      | none =>
        if pos + 1 ≤ s.length then finditerAux m s fuel (pos + 1) else []
    else []

def finditer (m : CtxMatcher) (s : List Char) : List (Nat × Nat × Binds) :=
  finditerAux m s (s.length + 1) 0

/-- `re.search` as a Boolean. -/
def reSearch (m : CtxMatcher) (s : List Char) : Bool := !(finditer m s).isEmpty

/-- Python `match.groupdict()[k]`: the last capture of group `k`. -/
def bindLookup (bs : Binds) (k : String) : Option String :=
  (bs.reverse.find? (fun p => p.1 = k)).map (·.2)

/-! Convenience constructors mirroring common regex syntax. -/

def chr (c : Char) : REx := .cls (· = c)
/-- case-insensitive literal character -/
def chrCI (c : Char) : REx := .cls (fun x => toLowerCh x = toLowerCh c)
def lit : List Char → REx
  | [] => .eps
  | c :: cs => .cat (chr c) (lit cs)
def litCI : List Char → REx
  | [] => .eps
  | c :: cs => .cat (chrCI c) (litCI cs)
def litS (s : String) : REx := lit s.toList
def litCIS (s : String) : REx := litCI s.toList
def wsCls : REx := .cls pyIsSpace
def digitCls : REx := .cls isAsciiDigit
def wordCls : REx := .cls isWordChar
/-- greedy `+` -/
def plus (r : REx) : REx := .cat r (.star r)
/-- lazy `+?` -/
def plusL (r : REx) : REx := .cat r (.starL r)
/-- greedy `?` -/
def opt (r : REx) : REx := .alt r .eps
/-- lazy `??` -/
def optL (r : REx) : REx := .alt .eps r
/-- exactly `n` copies -/
def repN : Nat → REx → REx
  | 0, _ => .eps
  | n + 1, r => .cat r (repN n r)
/-- greedy `{0,n}` -/
def repUpTo : Nat → REx → REx
  | 0, _ => .eps
  | n + 1, r => .alt (.cat r (repUpTo n r)) .eps
/-- greedy `{m,n}` -/
def repRange (m n : Nat) (r : REx) : REx := .cat (repN m r) (repUpTo (n - m) r)
/-- `\s*` -/
def wsStar : REx := .star wsCls
/-- `\s+` -/
def wsPlus : REx := plus wsCls
def altList : List REx → REx
  | [] => .cls (fun _ => false)
  | [r] => r
  | r :: rs => .alt r (altList rs)

/-- Python word boundary `\b` at position `i` of `s`. -/
def wordBoundary (s : List Char) (i : Nat) : Bool :=
  let isW : Option Char → Bool := fun c => match c with
    | some c => isWordChar c
    | none => false
  let prev := if i = 0 then none else s.get? (i - 1)
  isW prev != isW (s.get? i)

/-! ## svc/string_citation_handler.py -/

def upperCls : REx := .cls isAsciiUpper
def lowerCls : REx := .cls isAsciiLower
/-- `[A-Z]` under `re.IGNORECASE`: any ASCII letter. -/
def letterCls : REx := .cls isAsciiAlpha
/-- `[\w.]` -/
def wordDotCls : REx := .cls (fun c => isWordChar c || c = '.')

/-- `_SEMICOLON_BOUNDARY`: semicolon followed (after optional whitespace) by
a lookahead for the start of the next citation.  Compiled with
`re.MULTILINE | re.IGNORECASE`, so `[A-Z]`/`[a-z]` match any letter. -/
def semicolonBoundaryRE : REx :=
  .cat (chr ';') (.cat wsStar (.look (altList
    [ .cat letterCls (.cat (plus letterCls)
        (.cat (.star (.cat wsPlus (.cat letterCls (plus letterCls))))
          (.cat wsPlus (.cat (chrCI 'v') (chr '.')))))
    , .cat (litCIS "In") (.cat wsPlus (.cat (litCIS "re") (.cat wsPlus letterCls)))
    , .cat (plus digitCls) (.cat wsPlus
        (.cat letterCls (.cat (plus wordDotCls) (.cat wsPlus letterCls))))
    , .cat letterCls (.cat (plus wordDotCls) (.cat wsStar (chr '§')))
    , litCIS "id."
    , litCIS "supra"
    , litCIS "cf."
    , litCIS "see"
    , litCIS "compare"
    , litCIS "accord"
    , litCIS "contra"
    , litCIS "but" ])))

def nonSemiCls : REx := .cls (· ≠ ';')
def digitDotCls : REx := .cls (fun c => isAsciiDigit c || c = '.')

/-- `_STRING_CITATION_INDICATORS` (case-sensitive). -/
def stringCitationIndicatorsRE : REx :=
  altList
    [ .cat upperCls (.cat (plus lowerCls)
        (.cat (.star (.cat wsPlus (.cat upperCls (plus lowerCls))))
          (.cat wsPlus (.cat (chr 'v') (.cat (chr '.')
            (.cat (repRange 10 80 nonSemiCls) (chr ';')))))))
    , .cat (plus digitCls) (.cat wsPlus
        (.cat upperCls (.cat (plus wordDotCls)
          (.cat wsPlus (.cat (plus digitCls)
            (.cat (repRange 0 80 nonSemiCls) (chr ';')))))))
    , .cat upperCls (.cat (plus wordDotCls)
        (.cat wsStar (.cat (chr '§')
          (.cat wsStar (.cat (plus digitDotCls)
            (.cat (repRange 0 60 nonSemiCls) (chr ';')))))))]

/-- `_SIGNAL_WORDS` -/
def signalWords : List String :=
  ["see", "see also", "see, e.g.", "see generally",
   "cf.", "compare", "but see", "but cf.",
   "accord", "contra", "e.g."]

/-- `_PROTECTED_CONTEXTS`: `\([^)]{0,150}\)`. -/
def protectedContextsRE : REx :=
  .cat (chr '(') (.cat (repRange 0 150 (.cls (· ≠ ')'))) (chr ')'))

/-- Sentence boundary pattern of `_split_into_sentences`:
`[.;]\s*(?=[A-Z]|\s*$)` with `re.MULTILINE`. -/
def sentenceSplitRE : REx :=
  .cat (.cls (fun c => c = '.' || c = ';'))
    (.cat wsStar (.look (.alt upperCls (.cat wsStar .endm))))

structure CitationSegment where
  text : List Char
  originalSpan : Nat × Nat
  stringGroupId : Option String
  positionInString : Option Nat
  hasSemicolonBoundary : Bool
deriving DecidableEq, Repr

/-- `StringCitationDetector._split_into_sentences`. -/
def splitIntoSentences (text : List Char) : List (Nat × Nat) :=
  let ms := finditer (plainMatcher sentenceSplitRE) text
  let step := ms.foldl (fun (acc : List (Nat × Nat) × Nat) m =>
    let (sentences, start) := acc
    let e := m.2.1
    if start < e then (sentences ++ [(start, e)], e) else (sentences, e)) ([], 0)
  if step.2 < text.length then step.1 ++ [(step.2, text.length)] else step.1

/-- `StringCitationDetector._get_protected_ranges` (regex version). -/
def detectorProtectedRanges (text : List Char) : List (Nat × Nat) :=
  (finditer (plainMatcher protectedContextsRE) text).map (fun m => (m.1, m.2.1))

/-- `StringCitationDetector._count_boundary_semicolons`. -/
def countBoundarySemicolons (text : List Char) (protected_ : List (Nat × Nat)) : Nat :=
  ((finditer (plainMatcher semicolonBoundaryRE) text).filter (fun m =>
    !(protected_.any (fun r => r.1 ≤ m.1 && m.1 < r.2)))).length

/-- `StringCitationDetector.is_likely_string_citation`. -/
def isLikelyStringCitation (minSemicolons : Nat) (seg : List Char) : Bool :=
  if (pyStrip seg).length < 20 then false
  else
    let protected_ := detectorProtectedRanges seg
    let semicolons := countBoundarySemicolons seg protected_
    if semicolons < minSemicolons then false
    else if 2 ≤ (finditer (plainMatcher stringCitationIndicatorsRE) seg).length then true
    else
      let lower := pyLower seg
      signalWords.any (fun sig => pyContains lower sig.toList && 1 ≤ semicolons)

/-- `StringCitationDetector.detect_string_citations` (default
`min_semicolons = 1`). -/
def detectStringCitations (text : List Char) : List (Nat × Nat × Bool) :=
  if text = [] || (pyStrip text).length = 0 then []
  else
    ((splitIntoSentences text).filter (fun se =>
      isLikelyStringCitation 1 (pySlice text se.1 se.2))).map
      (fun se => (se.1, se.2, true))

/-- `StringCitationSplitter._get_protected_ranges` (parenthesis-depth
version; depth may go negative on unbalanced input, hence `Int`). -/
def splitterProtectedRanges (text : List Char) : List (Nat × Nat) :=
  let step := (text.enum.foldl
    (fun (acc : List (Nat × Nat) × Int × Int) ci =>
      let (ranges, depth, parenStart) := acc
      let (i, c) := ci
      if c = '(' then
        if depth = 0 then (ranges, depth + 1, (i : Int))
        else (ranges, depth + 1, parenStart)
      else if c = ')' then
        if depth - 1 = 0 && 0 ≤ parenStart then
          (ranges ++ [(parenStart.toNat, i + 1)], depth - 1, -1)
        else (ranges, depth - 1, parenStart)
      else (ranges, depth, parenStart))
    ([], 0, -1))
  step.1

/-- `StringCitationSplitter._smart_split_on_semicolons`. -/
def smartSplitOnSemicolons (text : List Char) (protected_ : List (Nat × Nat)) :
    List (List Char) :=
  let ms := finditer (plainMatcher semicolonBoundaryRE) text
  let step := ms.foldl (fun (acc : List (List Char) × Nat) m =>
    let (parts, currentStart) := acc
    let (semicolonPos, matchEnd, _) := m
    if protected_.any (fun r => r.1 ≤ semicolonPos && semicolonPos < r.2) then acc
    else (parts ++ [pySlice text currentStart semicolonPos], matchEnd)) ([], 0)
  let (parts, currentStart) := step
  if currentStart < text.length then
    let finalSeg := pyDrop text currentStart
    if pyStrip finalSeg ≠ [] then parts ++ [finalSeg] else parts
  else parts

/-- The body of the segment loop in
`StringCitationSplitter.split_string_citation`: carries
`(segments, current_offset)` over the enumerated parts. -/
def splitSegmentsLoop (text : List Char) (offset : Nat) (gid : String) :
    List (Nat × List Char) → List CitationSegment × Nat → List CitationSegment × Nat
  | [], acc => acc
  | (i, part) :: rest, (segments, currentOffset) =>
    let partStripped := pyStrip part
    if partStripped = [] then
      splitSegmentsLoop text offset gid rest (segments, currentOffset + part.length)
    else
      let partStart := (pyFindFrom text partStripped currentOffset).getD currentOffset
      let partEnd := partStart + partStripped.length
      let seg : CitationSegment :=
        { text := partStripped
          originalSpan := (offset + partStart, offset + partEnd)
          stringGroupId := some gid
          positionInString := some i
          hasSemicolonBoundary := true }
      splitSegmentsLoop text offset gid rest (segments ++ [seg], partEnd)

/-- `StringCitationSplitter.split_string_citation`; raises `ValueError`
(modelled as `.error`) on empty/whitespace-only input. -/
def splitStringCitation (text : List Char) (offset : Nat) (gid : String) :
    Except Unit (List CitationSegment) :=
  if text = [] || (pyStrip text).length = 0 then .error ()
  else
    let protected_ := splitterProtectedRanges text
    let parts := smartSplitOnSemicolons text protected_
    if parts = [] then .ok []
    else .ok (splitSegmentsLoop text offset gid parts.enum ([], 0)).1

/-! ## utils/cleaner.py -/

/-- `re.sub(pattern, repl, s)` for patterns that never match empty. -/
def reSub (m : CtxMatcher) (repl : List Char) (s : List Char) : List Char :=
  let step := (finditer m s).foldl
    (fun (acc : List Char × Nat) mt =>
      (acc.1 ++ pySlice s acc.2 mt.1 ++ repl, mt.2.1)) ([], 0)
  step.1 ++ pyDrop s step.2

/-- `_citation_marker_re`: `\[\d+:`. -/
def citationMarkerRE : REx := .cat (chr '[') (.cat (plus digitCls) (chr ':'))

/-- `clean_str` on an optional string (Python falsy `None`/`""` → `None`). -/
def cleanStr (v : Option String) : Option String :=
  match v with
  | none => none
  | some t =>
    if t.toList = [] then none
    else
      let t1 := reSub (plainMatcher citationMarkerRE) [] t.toList
      let t2 := pyStrip (reSub (plainMatcher wsPlus) [' '] t1)
      if t2 = [] then none else some (String.mk t2)

/-- `normalize_case_name_for_compare`. -/
def normalizeCaseNameForCompare (v : Option String) : Option String :=
  match v with
  | none => none
  | some t =>
    if t.toList = [] then none
    else
      let n := (pyLower t.toList).filter isAsciiAlnum
      if n = [] then none else some (String.mk n)

/-! ## Python `dict` with insertion order -/

/-- Association list with Python-dict semantics: updating an existing key
keeps its position, new keys append. -/
abbrev PyDict (K V : Type) := List (K × V)

def dGet [BEq K] (d : PyDict K V) (k : K) : Option V :=
  (d.find? (fun p => p.1 == k)).map (·.2)

def dMem [BEq K] (d : PyDict K V) (k : K) : Bool :=
  d.any (fun p => p.1 == k)

def dSet [BEq K] (d : PyDict K V) (k : K) (v : V) : PyDict K V :=
  if dMem d k then d.map (fun p => if p.1 == k then (k, v) else p)
  else d ++ [(k, v)]

def dKeys (d : PyDict K V) : List K := d.map (·.1)
def dValues (d : PyDict K V) : List V := d.map (·.2)

/-- Stable insertion of `x` after every element `y` with `le y x`. -/
def stableInsert (le : α → α → Bool) (x : α) : List α → List α
  | [] => [x]
  | y :: ys => if le y x then y :: stableInsert le x ys else x :: y :: ys

/-- Python's stable `list.sort(key=...)`, as a stable insertion sort:
elements comparing equal keep their original relative order. -/
def pySort (le : α → α → Bool) (l : List α) : List α :=
  l.foldl (fun acc x => stableInsert le x acc) []

/-! ## The eyecite citation object, modelled at its interface

Only the attributes the repository reads are represented.  Values that
eyecite computes internally (`span()`, `corrected_citation()`,
`matched_text()`, metadata fields, the `groups` dict, the owning
document's text) are data of the external tokenizer object and appear
here as plain fields. -/

inductive CKind where
  | fullCase | fullLaw | fullJournal | fullOther
  | shortCase | supra | idCite | reference | unknownCite
deriving DecidableEq, Repr

structure Citation where
  kind : CKind
  /-- `type(obj).__name__` for kinds outside the eyecite hierarchy -/
  typeName : String := "Citation"
  /-- `obj.index`, the tokenizer token index -/
  index : Option Nat := none
  /-- the value `utils.span_finder.get_span(obj)` yields for this object -/
  spanVal : Option (Nat × Nat) := none
  /-- the `groups` dict of the token's regex match -/
  groups : PyDict String (Option String) := []
  /-- `str(obj.year)` when present -/
  year : Option String := none
  metaYear : Option String := none
  plaintiff : Option String := none
  defendant : Option String := none
  petitioner : Option String := none
  respondent : Option String := none
  antecedentGuess : Option String := none
  resolvedCaseName : Option String := none
  resolvedCaseNameShort : Option String := none
  /-- `obj.metadata.pin_cite` -/
  pinCiteF : Option String := none
  /-- `obj.metadata` is `None` when false -/
  hasMetadata : Bool := true
  /-- `obj.corrected_citation()` -/
  correctedCitation : String := ""
  /-- `obj.matched_text()` -/
  matchedTextF : String := ""
  /-- `obj.token.data` -/
  tokenData : Option String := none
  /-- `obj.data` -/
  dataAttr : Option String := none
  /-- `obj.full_cite` -/
  fullCiteAttr : Option String := none
  /-- direct `getattr(obj, name, None)` fallbacks for field names -/
  attrs : PyDict String (Option String) := []
  /-- `str(obj)` -/
  strRepr : String := ""
  /-- `obj.document.plain_text` -/
  docText : Option String := none
  /-- `obj.all_editions[0].reporter`: `none` when `all_editions` is missing
  or empty; `some none` when the first edition's `reporter` attribute is
  falsy; `some (some n)` when that reporter's `name` attribute is `n`. -/
  allEditionsReporter : Option (Option (Option String)) := none
  /-- `obj.edition_guess.name` when `edition_guess` is truthy. -/
  editionGuessName : Option String := none
deriving DecidableEq, Repr

/-- `type(obj).__name__`. -/
def ctypeOf (c : Citation) : String :=
  match c.kind with
  | .fullCase => "FullCaseCitation"
  | .fullLaw => "FullLawCitation"
  | .fullJournal => "FullJournalCitation"
  | .shortCase => "ShortCaseCitation"
  | .supra => "SupraCitation"
  | .idCite => "IdCitation"
  | .reference => "ReferenceCitation"
  | .fullOther => c.typeName
  | .unknownCite => c.typeName

/-- `isinstance(obj, FullCitation)` -/
def isFullCitation (c : Citation) : Bool :=
  match c.kind with
  | .fullCase | .fullLaw | .fullJournal | .fullOther => true
  | _ => false

/-- `utils.span_finder.get_span(obj)`: the validated span of the citation
(the field already carries the result of the span()/token-table logic,
which runs entirely on tokenizer-object state). -/
def getSpan (c : Citation) : Option (Nat × Nat) := c.spanVal

/-! ## svc/citations_compiler.py — helper functions -/

/-- Minimal JSON-ish value for verification details and HTTP payloads. -/
inductive JVal where
  | null
  | jstr (s : String)
  | jnum (n : Int)
  /-- a non-integral number (the secondary verifier's confidence scores) -/
  | jrat (q : Rat)
  | jbool (b : Bool)
  | arr (xs : List JVal)
  | obj (fields : List (String × JVal))
deriving Repr

/-- `(status, substatus, details)` triple of the shared verifier contract. -/
abbrev VResult := String × Option String × Option JVal

/-- Python `x or y` on an optional string (`None` and `""` are falsy). -/
def pyOr (a : Option String) (b : String) : String :=
  match a with
  | some v => if v ≠ "" then v else b
  | none => b

/-- Python `x or y` keeping the option. -/
def pyOrO (a b : Option String) : Option String :=
  match a with
  | some v => if v ≠ "" then some v else b
  | none => b

/-- Format a possibly-`None` value inside an f-string. -/
def optFmt (v : Option String) : String := v.getD "None"

/-- Python truthiness of an optional string (`None` and `""` are falsy). -/
def pyTruthy (v : Option String) : Bool :=
  match v with
  | some s => s ≠ ""
  | none => false

/-- `if v: [f v]` — conditional append under Python truthiness. -/
def optPart (v : Option String) (f : String → String) : List String :=
  match v with
  | some s => if s ≠ "" then [f s] else []
  | none => []

/-- `citation_obj.groups.get(k, "")` as rendered by an f-string. -/
def groupsGetFmt (c : Citation) (k : String) : String :=
  match dGet c.groups k with
  | none => ""
  | some none => "None"
  | some (some v) => v

/-- `citation_obj.groups.get(k, None)` (absent and stored-`None` agree). -/
def groupsGet (c : Citation) (k : String) : Option String :=
  match dGet c.groups k with
  | none => none
  | some v => v

/-- `_normalized_key`. -/
def normalizedKeyOf (c : Citation) : String :=
  match c.kind with
  | .fullCase | .fullLaw => c.correctedCitation
  | .fullJournal =>
    let volume := groupsGetFmt c "volume"
    let reporter := groupsGetFmt c "reporter"
    let page := groupsGetFmt c "page"
    match c.year with
    | some y => s!"{volume} {reporter} {page} ({y})"
    | none => s!"{volume} {reporter} {page}"
  | _ => c.matchedTextF

/-- `_get_citation_type`. -/
def getCitationType (c : Citation) : String :=
  match c.kind with
  | .fullCase | .shortCase => "case"
  | .fullLaw => "law"
  | .fullJournal => "journal"
  | _ => "unknown"

/-- `_get_pin_cite`. -/
def getPinCite (c : Citation) : Option String :=
  if c.hasMetadata then cleanStr c.pinCiteF else none

/-- `_citation_category`. -/
def citationCategoryOf (c : Citation) : String :=
  if isFullCitation c then "full"
  else match c.kind with
    | .shortCase => "short"
    | .supra => "supra"
    | .reference => "reference"
    | .idCite => "id"
    | _ => ctypeOf c

/-- `_get_index` (the `int()` conversion is the identity on the model). -/
def getIndex (c : Citation) : Option Nat := c.index

/-- `_get_citation`. -/
def getCitationText (c : Citation) : Option String :=
  match c.tokenData with
  | some t => cleanStr (some t)
  | none =>
    match c.dataAttr with
    | some d => cleanStr (some d)
    | none => none

/-- `_get_citation(primary_full)` where `primary_full` may be `None`. -/
def getCitationTextOpt (o : Option Citation) : Option String :=
  o.bind getCitationText

/-- The `ResourceKey` dataclass. -/
structure ResourceKey where
  kind : String
  idTuple : List String
deriving DecidableEq, Repr

/-- A key of the eyecite resolution map: either the repository's
`ResourceKey` or a plain string (the `raw:<idx>` fallback buckets). -/
inductive Resource where
  | rkey (k : ResourceKey)
  | rstr (s : String)
deriving DecidableEq, Repr

instance : BEq Resource := ⟨fun a b => decide (a = b)⟩

/-- `_ctype` on a resolution-map key. -/
def resourceCtype : Resource → String
  | .rkey _ => "ResourceKey"
  | .rstr _ => "str"

/-- `_resource_identifier`. -/
def resourceIdentifier : Resource → String
  | .rkey k => String.intercalate "::" ((k.kind :: k.idTuple).filter (· ≠ ""))
  | .rstr s => (cleanStr (some s)).getD (resourceCtype (.rstr s))

/-- The `resource` dict stored on a citation entry (an optional key is
modelled as `none` when absent from the Python dict). -/
structure ResourceDict where
  kind : String
  sourceType : Option String := none
  idTuple : List String
  /-- `resource_dict.get("author")` (journal verifiers) -/
  author : Option String := none
  /-- `resource_dict.get("title")` (journal verifiers) -/
  title : Option String := none
  /-- `resource_dict.get("year")` (journal verifiers) -/
  year : Option String := none
deriving DecidableEq, Repr

/-! ## svc/secondary_citation_handler.py — data model -/

structure SecondaryCitation where
  sourceType : String
  citationCategory : String
  matchedText : String
  span : Nat × Nat
  volume : Option String := none
  title : Option String := none
  /-- the `section` field (renamed: Lean keyword) -/
  sectionF : Option String := none
  page : Option String := none
  pinCite : Option String := none
  year : Option String := none
  edition : Option String := none
  series : Option String := none
  author : Option String := none
  antecedentKey : Option String := none
deriving DecidableEq, Repr

/-- `SecondaryCitation.to_normalized_citation`. -/
def secToNormalizedCitation (c : SecondaryCitation) : String :=
  let parts : List String :=
    if c.sourceType = "cjs" then
      [s!"{optFmt c.volume} C.J.S."]
        ++ optPart c.title (fun t => t)
        ++ optPart c.sectionF (fun s => s!"§ {s}")
        ++ optPart c.year (fun y => s!"({y})")
    else if c.sourceType = "amjur" then
      [s!"{optFmt c.volume} Am. Jur."]
        ++ optPart c.edition (fun e => e)
        ++ optPart c.title (fun t => t)
        ++ optPart c.sectionF (fun s => s!"§ {s}")
        ++ optPart c.year (fun y => s!"({y})")
    else if c.sourceType = "alr" then
      [s!"{optFmt c.volume} A.L.R."]
        ++ optPart c.series (fun s => s)
        ++ optPart c.page (fun p => p)
        ++ optPart c.year (fun y => s!"({y})")
    else if c.sourceType = "restatement" then
      ["Restatement"]
        ++ optPart c.edition (fun e => s!"({e})")
        ++ optPart c.title (fun t => s!"of {t}")
        ++ optPart c.sectionF (fun s => s!"§ {s}")
        ++ optPart c.year (fun y => s!"({y})")
    else if c.sourceType = "treatise" then
      optPart c.author (fun a => s!"{a},")
        ++ optPart c.title (fun t => t)
        ++ optPart c.sectionF (fun s => s!"§ {s}")
        ++ (let editionParts :=
              optPart c.edition (fun e => e) ++ optPart c.year (fun y => y);
            let editionStr := String.intercalate " " editionParts;
            if editionParts ≠ [] then [s!"({editionStr})"] else [])
    else []
  let parts :=
    if pyTruthy c.pinCite && c.citationCategory ≠ "full" then
      parts ++ [s!"at {optFmt c.pinCite}"]
    else parts
  String.intercalate " " parts

/-- `SecondaryCitation.to_resource_key`. -/
def secToResourceKey (c : SecondaryCitation) : String :=
  let keyParts : List String :=
    ["secondary", c.sourceType, pyOr c.volume "",
     pyOr c.title (pyOr c.author ""), pyOr c.sectionF (pyOr c.page "")]
  String.intercalate "::" (keyParts.map (fun p => (cleanStr (some p)).getD "unknown"))

/-! ### Secondary-source regex tables (all compiled with `re.IGNORECASE`) -/

/-- `[A-Za-z\s&]` -/
def titleAmpCls : REx := .cls (fun c => isAsciiAlpha c || pyIsSpace c || c = '&')
/-- `[A-Za-z\s.,'&]` -/
def authorCls : REx :=
  .cls (fun c => isAsciiAlpha c || pyIsSpace c || c = '.' || c = ',' || c = '\'' || c = '&')
/-- `[A-Za-z\s:]` -/
def titleColonCls : REx := .cls (fun c => isAsciiAlpha c || pyIsSpace c || c = ':')
/-- `[\d.:]` -/
def digitDotColonCls : REx := .cls (fun c => isAsciiDigit c || c = '.' || c = ':')
/-- `[^)]` -/
def nonCloseParenCls : REx := .cls (· ≠ ')')

/-- `(?:\s*\((?P<year>\d{4})\))?` -/
def yearTailRE : REx :=
  opt (.cat wsStar (.cat (chr '(') (.cat (.grp "year" (repN 4 digitCls)) (chr ')'))))

/-- `§+\s*` -/
def sectionMarkRE : REx := .cat (plus (chr '§')) wsStar

def cjsFullRE : REx :=
  .cat (.grp "volume" (plus digitCls)) (.cat wsPlus
    (.cat (litCIS "C.J.S.") (.cat wsPlus
      (.cat (.grp "title" (.cat letterCls (plusL titleAmpCls))) (.cat wsPlus
        (.cat sectionMarkRE (.cat (.grp "section" (plus digitDotCls)) yearTailRE)))))))

def amjurFullRE : REx :=
  .cat (.grp "volume" (plus digitCls)) (.cat wsPlus
    (.cat (litCIS "Am.") (.cat wsStar (.cat (litCIS "Jur.") (.cat wsStar
      (.cat (opt (.grp "edition" (.cat (plus digitCls) (chrCI 'd')))) (.cat wsPlus
        (.cat (.grp "title" (.cat letterCls (plusL titleAmpCls))) (.cat wsPlus
          (.cat sectionMarkRE (.cat (.grp "section" (plus digitDotCls)) yearTailRE)))))))))))

def alrFullRE : REx :=
  .cat (.grp "volume" (plus digitCls)) (.cat wsPlus
    (.cat (litCIS "A.L.R.")
      (.cat (opt (.cat wsStar (.grp "series" (.cat (plus digitCls) (repN 2 letterCls)))))
        (.cat wsPlus (.cat (.grp "page" (plus digitCls)) yearTailRE)))))

def restatementEditionRE : REx :=
  altList [litCIS "First", litCIS "Second", litCIS "Third", litCIS "Fourth"]

def restatementFullRE : REx :=
  .cat (litCIS "Restatement") (.cat wsPlus
    (.cat (chr '(') (.cat (.grp "edition" restatementEditionRE) (.cat (chr ')')
      (.cat wsPlus (.cat (opt (.cat (litCIS "of") wsPlus))
        (.cat (.grp "subject" (.cat letterCls (plusL titleAmpCls))) (.cat wsPlus
          (.cat sectionMarkRE (.cat (.grp "section" (plus digitDotCls)) yearTailRE))))))))))

def treatiseFullRE : REx :=
  .cat (.grp "author" (.cat letterCls (plusL authorCls))) (.cat (chr ',')
    (.cat wsPlus (.cat (.grp "title" (.cat letterCls (plusL titleColonCls)))
      (.cat wsPlus (.cat sectionMarkRE
        (.cat (.grp "section" (plus digitDotColonCls))
          (opt (.cat wsStar (.cat (chr '(')
            (.cat (opt (.grp "edition" (.cat (plus digitCls)
              (.cat (altList [litCIS "st", litCIS "nd", litCIS "rd", litCIS "th"])
                (.cat wsPlus (litCIS "ed."))))))
              (.cat wsStar (.cat (.grp "year" (repN 4 digitCls)) (chr ')')))))))))))))

/-- `_SECONDARY_PATTERNS`, in dict insertion order, as contextual matchers. -/
def secondaryPatterns : List (String × CtxMatcher) :=
  [("cjs", plainMatcher cjsFullRE),
   ("amjur", plainMatcher amjurFullRE),
   ("alr", plainMatcher alrFullRE),
   ("restatement", plainMatcher restatementFullRE),
   ("treatise", plainMatcher treatiseFullRE)]

/-- `(?:\s*\((?P<parenthetical>[^)]+)\))?` -/
def parentheticalTailRE : REx :=
  opt (.cat wsStar (.cat (chr '(')
    (.cat (.grp "parenthetical" (plus nonCloseParenCls)) (chr ')'))))

/-- `(?:\s+at\s+(?P<pin_cite>[\d.]+))?` -/
def pinCiteTailRE : REx :=
  opt (.cat wsPlus (.cat (litCIS "at") (.cat wsPlus (.grp "pin_cite" (plus digitDotCls)))))

/-- Matcher for the `(?:^|(?<=\.)\s+|(?<=;)\s+)` sentence-boundary prefix of
the Id./Ibid. short-form patterns: `^` at position 0, otherwise a
lookbehind for `.` or `;` followed by `\s+`. -/
def sentenceBoundaryMatcher (core : REx) : CtxMatcher := fun s i =>
  if i = 0 then plainMatcher core s 0
  else
    match s.get? (i - 1) with
    | some c =>
      if c = '.' || c = ';' then plainMatcher (.cat wsPlus core) s i else none
    | none => none

def idShortCoreRE : REx :=
  .cat (opt (chr '*')) (.cat (litCIS "Id.") (.cat (opt (chr '*'))
    (.cat pinCiteTailRE parentheticalTailRE)))

def ibidShortCoreRE : REx :=
  .cat (litCIS "Ibid.") (.cat pinCiteTailRE parentheticalTailRE)

def supraShortRE : REx :=
  .cat (.grp "title_fragment" (.cat letterCls (.cat (plus letterCls)
    (repUpTo 3 (.cat wsPlus (.cat letterCls (plus letterCls)))))))
    (.cat (chr ',') (.cat wsPlus (.cat (litCIS "supra") (.cat wsPlus
      (.cat (litCIS "note") (.cat wsPlus (.cat (.grp "note_num" (plus digitCls))
        (.cat (opt (.cat (opt (chr ',')) (.cat wsPlus (.cat (litCIS "at")
          (.cat wsPlus (.grp "pin_cite" (plus digitDotCls)))))))
          parentheticalTailRE))))))))

/-- `(?:\s+at\s+(?P<page>[\d.]+))?` -/
def pageTailRE : REx :=
  opt (.cat wsPlus (.cat (litCIS "at") (.cat wsPlus (.grp "page" (plus digitDotCls)))))

def cjsShortRE : REx :=
  .cat (.grp "volume" (plus digitCls)) (.cat wsPlus (.cat (litCIS "C.J.S.")
    (.cat wsPlus (.cat sectionMarkRE
      (.cat (.grp "section" (plus digitDotCls)) pageTailRE)))))

def amjurShortRE : REx :=
  .cat (.grp "volume" (plus digitCls)) (.cat wsPlus
    (.cat (litCIS "Am.") (.cat wsStar (.cat (litCIS "Jur.") (.cat wsStar
      (.cat (opt (.grp "edition" (.cat (plus digitCls) (chrCI 'd'))))
        (.cat wsPlus (.cat sectionMarkRE
          (.cat (.grp "section" (plus digitDotCls)) pageTailRE)))))))))

def alrShortRE : REx :=
  .cat (.grp "volume" (plus digitCls)) (.cat wsPlus (.cat (litCIS "A.L.R.")
    (.cat (opt (.cat wsStar (.grp "series" (.cat (plus digitCls) (repN 2 letterCls)))))
      (.cat wsPlus (.cat (litCIS "at") (.cat wsPlus (.grp "page" (plus digitCls))))))))

def restatementShortRE : REx :=
  .cat (litCIS "Restatement") (.cat wsPlus
    (.cat (opt (.cat (chr '(') (.cat (.grp "edition" restatementEditionRE)
      (.cat (chr ')') wsPlus))))
      (.cat sectionMarkRE (.grp "section" (plus digitDotCls)))))

/-- `_SHORT_FORM_PATTERNS`, in dict insertion order. -/
def shortFormPatterns : List (String × CtxMatcher) :=
  [("id", sentenceBoundaryMatcher idShortCoreRE),
   ("ibid", sentenceBoundaryMatcher ibidShortCoreRE),
   ("supra", plainMatcher supraShortRE),
   ("cjs_short", plainMatcher cjsShortRE),
   ("amjur_short", plainMatcher amjurShortRE),
   ("alr_short", plainMatcher alrShortRE),
   ("restatement_short", plainMatcher restatementShortRE)]

/-- Matcher for a pattern beginning with `\b` (word boundary at the match
start). -/
def bMatcher (re : REx) : CtxMatcher := fun s i =>
  if wordBoundary s i then plainMatcher re s i else none

/-- Matcher for a pattern of the form `\b...\b`. -/
def bbMatcher (re : REx) : CtxMatcher := fun s i =>
  if wordBoundary s i then
    ((matchEnds re (s.drop i)).find? (fun nb => wordBoundary s (i + nb.1))).map
      (fun nb => (i + nb.1, nb.2))
  else none

/-- `_EXCLUSION_PATTERNS`, as contextual matchers. -/
def exclusionPatterns : List CtxMatcher :=
  [ bMatcher (.cat (litCIS "U.S.C.") (.cat wsPlus (chr '§')))
  , bMatcher (.cat letterCls (.cat (plus letterCls) (.cat (chr '.') (.cat wsPlus
      (.cat (altList [litCIS "Civ.", litCIS "Penal", litCIS "Bus.", litCIS "Fam.",
                      litCIS "Health", litCIS "Gov't"])
        (.cat wsPlus (.cat (litCIS "Code") (.cat wsPlus (chr '§')))))))))
  , bMatcher (.cat (litCIS "C.F.R.") (.cat wsPlus (chr '§')))
  , bMatcher (.cat (litCIS "Stat.") (.cat wsPlus (plus digitCls)))
  , bMatcher (.cat (litCIS "Pub.") (.cat wsStar (litCIS "L.")))
  , bMatcher (.cat (litCIS "Comp.") (.cat wsPlus (litCIS "Laws")))
  , bMatcher (.cat (litCIS "Rev.") (.cat wsPlus (litCIS "Stat")))
  , bMatcher (.cat (litCIS "Gen.") (.cat wsPlus (litCIS "Stat")))
  , bMatcher (.cat (litCIS "Ann.") (.cat wsPlus (litCIS "Code"))) ]

/-! ### Secondary detector -/

/-- `SecondaryCitationDetector._matches_exclusion`. -/
def matchesExclusion (text : List Char) : Bool :=
  exclusionPatterns.any (fun m => reSearch m text)

/-- `SecondaryCitationDetector._overlaps_with_eyecite`. -/
def overlapsWithSpans (span : Nat × Nat) (spans : List (Nat × Nat)) : Bool :=
  spans.any (fun es => !(span.2 ≤ es.1 || span.1 ≥ es.2))

/-- `SecondaryCitationDetector._overlaps_with_full`. -/
def overlapsWithFull (span : Nat × Nat) (fulls : List SecondaryCitation) : Bool :=
  fulls.any (fun f => !(span.2 ≤ f.span.1 || span.1 ≥ f.span.2))

/-- `cleaned.get(k)` on a match's `groupdict()`. -/
def cleanedGroup (bs : Binds) (k : String) : Option String :=
  cleanStr (bindLookup bs k)

/-- `SecondaryCitationDetector._create_full_citation`. -/
def createFullSecondary (sourceType : String) (text : List Char)
    (m : Nat × Nat × Binds) : SecondaryCitation :=
  let (s, e, bs) := m
  { sourceType := sourceType
    citationCategory := "full"
    matchedText := String.mk (pySlice text s e)
    span := (s, e)
    volume := cleanedGroup bs "volume"
    title := pyOrO (cleanedGroup bs "title") (cleanedGroup bs "subject")
    sectionF := cleanedGroup bs "section"
    page := cleanedGroup bs "page"
    pinCite := none
    year := cleanedGroup bs "year"
    edition := cleanedGroup bs "edition"
    series := cleanedGroup bs "series"
    author := cleanedGroup bs "author"
    antecedentKey := none }

def shortCategoryMap (shortType : String) : String :=
  if shortType = "id" then "id"
  else if shortType = "ibid" then "ibid"
  else if shortType = "supra" then "supra"
  else "short"

def shortSourceTypeMap (shortType : String) : String :=
  if shortType = "cjs_short" then "cjs"
  else if shortType = "amjur_short" then "amjur"
  else if shortType = "alr_short" then "alr"
  else if shortType = "restatement_short" then "restatement"
  else "unknown"

/-- `SecondaryCitationDetector._create_short_citation`. -/
def createShortSecondary (shortType : String) (text : List Char)
    (m : Nat × Nat × Binds) : SecondaryCitation :=
  let (s, e, bs) := m
  { sourceType := shortSourceTypeMap shortType
    citationCategory := shortCategoryMap shortType
    matchedText := String.mk (pySlice text s e)
    span := (s, e)
    volume := cleanedGroup bs "volume"
    title := cleanedGroup bs "title_fragment"
    sectionF := cleanedGroup bs "section"
    page := cleanedGroup bs "page"
    pinCite := cleanedGroup bs "pin_cite"
    year := none
    edition := cleanedGroup bs "edition"
    series := cleanedGroup bs "series"
    author := cleanedGroup bs "author"
    antecedentKey := none }

/-- `SecondaryCitationDetector.detect_secondary_citations`. -/
def detectSecondaryCitations (text : List Char) (eyeciteSpans : List (Nat × Nat)) :
    List SecondaryCitation × List SecondaryCitation :=
  let fulls := secondaryPatterns.foldl (fun acc (p : String × CtxMatcher) =>
    (finditer p.2 text).foldl (fun acc m =>
      let span := (m.1, m.2.1)
      if overlapsWithSpans span eyeciteSpans then acc
      else if matchesExclusion (pySlice text m.1 m.2.1) then acc
      else acc ++ [createFullSecondary p.1 text m]) acc) []
  let shorts := shortFormPatterns.foldl (fun acc (p : String × CtxMatcher) =>
    (finditer p.2 text).foldl (fun acc m =>
      let span := (m.1, m.2.1)
      if overlapsWithSpans span eyeciteSpans then acc
      else if overlapsWithFull span fulls then acc
      else if matchesExclusion (pySlice text m.1 m.2.1) then acc
      else acc ++ [createShortSecondary p.1 text m]) acc) []
  (pySort (fun a b => a.span.1 ≤ b.span.1) fulls,
   pySort (fun a b => a.span.1 ≤ b.span.1) shorts)

/-! ### Secondary resolver -/

/-- An element of `all_citation_spans`: `(start, end, type, cite_obj)`. -/
structure SpanInfo where
  start : Nat
  stop : Nat
  ctype : String
  obj : Option SecondaryCitation
deriving DecidableEq, Repr

/-- `SecondaryCitationResolver._find_preceding_citation`. -/
def findPrecedingCitation (position : Nat) (allSpans : List SpanInfo) :
    Option SpanInfo :=
  let preceding := allSpans.filter (fun s => s.stop ≤ position)
  if preceding = [] then none
  else (pySort (fun a b => b.stop ≤ a.stop) preceding).head?

/-- `SecondaryCitationResolver._find_supra_antecedent`. -/
def findSupraAntecedent (short : SecondaryCitation)
    (fulls : List SecondaryCitation) : Option SecondaryCitation :=
  if !pyTruthy short.title then none
  else
    let shortNorm := normalizeCaseNameForCompare short.title
    let candidates := pySort (fun a b => b.span.1 ≤ a.span.1)
      (fulls.filter (fun f => f.span.1 < short.span.1))
    candidates.find? (fun cand =>
      pyTruthy cand.title &&
      (match shortNorm, normalizeCaseNameForCompare cand.title with
       | some sn, some cn =>
         pyContains cn.toList sn.toList || pyContains sn.toList cn.toList
       | _, _ => false))

/-- `SecondaryCitationResolver._find_short_antecedent`. -/
def findShortAntecedent (short : SecondaryCitation)
    (fulls : List SecondaryCitation) : Option SecondaryCitation :=
  let candidates := pySort (fun a b => b.span.1 ≤ a.span.1)
    (fulls.filter (fun f =>
      f.span.1 < short.span.1 && f.sourceType = short.sourceType))
  candidates.find? (fun cand =>
    !(pyTruthy short.volume && pyTruthy cand.volume && short.volume ≠ cand.volume))

/-- `SecondaryCitationResolver._resolve_short`. -/
def resolveShortOne (short : SecondaryCitation)
    (fulls : List SecondaryCitation) (allSpans : List SpanInfo) :
    SecondaryCitation :=
  if short.citationCategory = "id" || short.citationCategory = "ibid" then
    match findPrecedingCitation short.span.1 allSpans with
    | some p =>
      if p.ctype = "secondary" then
        match p.obj with
        | some sc =>
          { short with antecedentKey := some (secToResourceKey sc),
                       sourceType := sc.sourceType }
        | none => short
      else { short with sourceType := "non_secondary" }
    | none => { short with sourceType := "non_secondary" }
  else if short.citationCategory = "supra" then
    match findSupraAntecedent short fulls with
    | some a =>
      { short with antecedentKey := some (secToResourceKey a),
                   sourceType := a.sourceType }
    | none => short
  else if short.citationCategory = "short" then
    match findShortAntecedent short fulls with
    | some a =>
      { short with antecedentKey := some (secToResourceKey a),
                   sourceType := a.sourceType,
                   title := pyOrO short.title a.title,
                   year := pyOrO short.year a.year,
                   edition := pyOrO short.edition a.edition }
    | none => short
  else short

/-- `SecondaryCitationResolver.resolve_short_citations`. -/
def resolveShortCitations (fulls shorts : List SecondaryCitation)
    (allSpans : List SpanInfo) : List SecondaryCitation :=
  if shorts = [] then shorts
  else shorts.map (fun s => resolveShortOne s fulls allSpans)

/-! ## verifiers/federal_law_verifier.py — jurisdiction classification -/

def seqR (l : List REx) : REx := l.foldr .cat .eps

/-- `getattr(cite, k, None)` for direct attribute fallbacks. -/
def attrGet (c : Citation) (k : String) : Option String :=
  (dGet c.attrs k).join

/-- `x or None`: keep only truthy values. -/
def truthyOpt (v : Option String) : Option String :=
  if pyTruthy v then v else none

/-- `_sanitize_section`. -/
def sanitizeSection (t : Option String) : Option String :=
  match t with
  | none => none
  | some s =>
    if s = "" then none
    else cleanStr (some (String.mk (s.toList.filter (· ≠ '§'))))

/-- One `for attr in (...)` loop of `_text_from_eyecite`: the first
attribute whose value survives sanitisation. -/
def firstSanitizedAttr (c : Citation) (names : List String) : Option String :=
  names.findSome? (fun a =>
    (truthyOpt (attrGet c a)).bind (fun v => sanitizeSection (some v)))

/-- `_text_from_eyecite`. -/
def textFromEyecite (c : Citation) : String :=
  let val : Option String :=
    match truthyOpt c.fullCiteAttr with
    | some v => some v
    | none => c.tokenData
  let citeStr : Option String :=
    match val with
    | some v => sanitizeSection (some v)
    | none =>
      let parts :=
        (firstSanitizedAttr c ["title", "volume", "chapter"]).toList
          ++ (firstSanitizedAttr c ["code", "reporter"]).toList
          ++ (firstSanitizedAttr c ["section", "page"]).toList
      some (String.intercalate " " parts)
  match citeStr with
  | none => c.strRepr
  | some s => if s = "" then c.strRepr else s

/-- `FEDERAL_PATTERNS` (all `re.I`), as contextual matchers. -/
def federalPatterns : List CtxMatcher :=
  [ bbMatcher (seqR [chrCI 'u', opt (chr '.'), wsStar, chrCI 's', opt (chr '.'),
      wsStar, chrCI 'c', opt (chr '.')])
  , bbMatcher (seqR [chrCI 'c', opt (chr '.'), wsStar, chrCI 'f', opt (chr '.'),
      wsStar, chrCI 'r', opt (chr '.')])
  , bbMatcher (seqR [chrCI 'u', opt (chr '.'), wsStar, chrCI 's', opt (chr '.'),
      wsStar, litCIS "Const", opt (chr '.')])
  , bbMatcher (seqR [litCIS "Pub", opt (chr '.'), wsStar, chrCI 'l', opt (chr '.')])
  , bbMatcher (seqR [litCIS "Public", wsPlus, litCIS "Law"])
  , (fun s i => if i = 0 then
      plainMatcher (seqR [plus digitCls, wsPlus, litCIS "Stat.", wsPlus,
        plus digitCls, .endS]) s 0
      else none)
  , bbMatcher (seqR [litCIS "Stat", opt (chr '.')])
  , bbMatcher (seqR [litCIS "Fed", opt (chr '.'), wsStar, litCIS "Reg", opt (chr '.')]) ]

/-- One abbreviation of the form `x\. ?y\.`. -/
def twoLetterAbbr (a b : Char) : REx :=
  seqR [chrCI a, chr '.', opt (chr ' '), chrCI b, chr '.']

/-- `STATE_MARKERS`, in source order. -/
def stateMarkers : List REx :=
  ([ "alabama", "alaska", "arizona", "arkansas", "california", "colorado",
     "connecticut", "delaware", "florida", "georgia", "hawaii", "idaho",
     "illinois", "indiana", "iowa", "kansas", "kentucky", "louisiana",
     "maine", "maryland", "massachusetts", "michigan", "minnesota",
     "mississippi", "missouri", "montana", "nebraska", "nevada",
     "new hampshire", "new jersey", "new mexico", "new york",
     "north carolina", "north dakota", "ohio", "oklahoma", "oregon",
     "pennsylvania", "rhode island", "south carolina", "south dakota",
     "tennessee", "texas", "utah", "vermont", "virginia", "washington",
     "west virginia", "wisconsin", "wyoming" ].map litCIS)
  ++ [ litCIS "ala.", litCIS "alaska", litCIS "ariz.", litCIS "ark.",
       litCIS "cal.", litCIS "colo.", litCIS "conn.", litCIS "del.",
       litCIS "fla.", litCIS "ga.", litCIS "haw.", litCIS "idaho",
       litCIS "ill.", litCIS "ind.", litCIS "iowa", litCIS "kan.",
       litCIS "ky.", litCIS "la.", litCIS "me.", litCIS "md.",
       litCIS "mass.", litCIS "mich.", litCIS "minn.", litCIS "miss.",
       litCIS "mo.", litCIS "mont.", litCIS "neb.", litCIS "nev.",
       twoLetterAbbr 'n' 'h', twoLetterAbbr 'n' 'j', twoLetterAbbr 'n' 'm',
       twoLetterAbbr 'n' 'y', twoLetterAbbr 'n' 'c', twoLetterAbbr 'n' 'd',
       litCIS "ohio", litCIS "okla.", litCIS "or.", litCIS "pa.",
       twoLetterAbbr 'r' 'i', twoLetterAbbr 's' 'c', twoLetterAbbr 's' 'd',
       litCIS "tenn.", litCIS "tex.", litCIS "utah", litCIS "vt.",
       litCIS "va.", litCIS "wash.",
       seqR [chrCI 'w', chr '.', opt (chr ' '), litCIS "va."],
       litCIS "wis.", litCIS "wyo." ]
  ++ [ seqR [litCIS "rev", opt (chr '.'), opt (chr ' '), litCIS "stat", opt (chr '.')],
       seqR [litCIS "gen", opt (chr '.'), opt (chr ' '), litCIS "stat", opt (chr '.')],
       seqR [litCIS "ann", opt (chr '.')],
       litCIS "code",
       seqR [litCIS "comp", opt (chr '.'), opt (chr ' '), litCIS "laws"],
       seqR [litCIS "stat", opt (chr '.'), chr ' ', litCIS "ann", opt (chr '.')] ]

/-- `STATE_REGEX`: `\b(markers...)\b` with `re.I`. -/
def stateRegexMatcher : CtxMatcher := bbMatcher (altList stateMarkers)

/-- `classify_full_law_jurisdiction`. -/
def classifyFullLawJurisdiction (c : Citation) : String :=
  let text := (textFromEyecite c).toList
  if federalPatterns.any (fun m => reSearch m text) then "federal"
  else if reSearch stateRegexMatcher text then "state"
  else "unknown"

/-! ## utils/resource_resolver.py — case-name resolution -/

/-- Python `s[-n:]`. -/
def lastN (s : List Char) (n : Nat) : List Char := s.drop (s.length - n)

/-- Python `str.split()` (whitespace split, no empty parts). -/
def pySplitWs (s : List Char) : List (List Char) :=
  let step := s.foldr (fun c (acc : List (List Char) × List Char) =>
    if pyIsSpace c then (if acc.2 ≠ [] then (acc.2 :: acc.1, []) else acc)
    else (acc.1, c :: acc.2)) ([], [])
  if step.2 ≠ [] then step.2 :: step.1 else step.1

/-- Python `str.strip(ch)` for a single-character argument. -/
def pyStripChar (s : List Char) (c : Char) : List Char :=
  ((s.dropWhile (· = c)).reverse.dropWhile (· = c)).reverse

/-- Python `str.removesuffix(",")`. -/
def removeSuffixComma (s : List Char) : List Char :=
  if s.getLast? = some ',' then s.dropLast else s

/-- `base_word`: `[A-Z][\w.\-&'/]*,?` (case-sensitive). -/
def baseWordRE : REx :=
  seqR [upperCls,
    .star (.cls (fun c => isWordChar c || c = '.' || c = '-' || c = '&' || c = '\'' || c = '/')),
    opt (chr ',')]

/-- `connectors` -/
def connectorsRE : REx :=
  altList [litS "of", litS "the", litS "and", litS "for", litS "in", litS "on",
    litS "at", litS "et", seqR [litS "al", opt (chr '.')], litS "ex",
    seqR [litS "rel", opt (chr '.')], litS "&"]

/-- `name_pattern` -/
def namePatternRE : REx :=
  seqR [baseWordRE, .star (seqR [wsPlus, .alt baseWordRE connectorsRE])]

/-- `(?=[\s,;:.)]|$)` -/
def nameTailLookRE : REx :=
  .look (.alt (.cls (fun c => pyIsSpace c || c = ',' || c = ';' || c = ':' || c = '.' || c = ')'))
    .endS)

/-- `(In\s+re\s+name_pattern)(?=...)` -/
def inReNameRE : REx :=
  seqR [.grp "g1" (seqR [litS "In", wsPlus, litS "re", wsPlus, namePatternRE]),
    nameTailLookRE]

/-- `(name_pattern\s+v\.\s+name_pattern)(?=...)` -/
def vNameRE : REx :=
  seqR [.grp "g1" (seqR [namePatternRE, wsPlus, litS "v.", wsPlus, namePatternRE]),
    nameTailLookRE]

def noiseSingle : List String :=
  ["see", "cf.", "cf", "compare", "but", "accord", "contra", "e.g.", "e.g"]

def noisePairs : List (String × String) :=
  [("see", "also"), ("see", "e.g."), ("but", "see"), ("but", "cf."), ("but", "compare")]

/-- One token as the noise loop sees it:
`tokens[i].lower().strip(",").strip(";").strip(":")`. -/
def noiseNormalize (t : List Char) : String :=
  String.mk (pyStripChar (pyStripChar (pyStripChar (pyLower t) ',') ';') ':')

/-- The `while idx < len(tokens)` noise-skipping loop of
`extract_candidate`; returns the final `idx`. -/
def noiseSkip (tokens : List (List Char)) (idx : Nat) (fuel : Nat) : Nat :=
  match fuel with
  | 0 => idx
  | fuel + 1 =>
    match tokens.get? idx with
    | none => idx
    | some t =>
      let current := noiseNormalize t
      let nextTok := (tokens.get? (idx + 1)).map noiseNormalize
      if (match nextTok with
          | some n => noisePairs.contains (current, n)
          | none => false) then
        noiseSkip tokens (idx + 2) fuel
      else if noiseSingle.contains current then noiseSkip tokens (idx + 1) fuel
      else idx

/-- Python `str.partition(sep)` restricted to the two sides. -/
def pyPartition (s sep : List Char) : List Char × List Char :=
  match pyFindFrom s sep 0 with
  | some i => (s.take i, s.drop (i + sep.length))
  | none => (s, [])

/-- `extract_candidate` inside `resolve_case_name`. -/
def extractCandidate (segment : List Char) : Option String :=
  let window := lastN segment 300
  let ms :=
    ((finditer (plainMatcher inReNameRE) window).map
      (fun m => (m.2.1, bindLookup m.2.2 "g1", true)))
    ++ ((finditer (plainMatcher vNameRE) window).map
      (fun m => (m.2.1, bindLookup m.2.2 "g1", false)))
  if ms = [] then none
  else
    let sorted := pySort (fun a b => b.1 ≤ a.1) ms
    sorted.findSome? (fun m =>
      let (_, g1, isInRe) := m
      match cleanStr g1 with
      | none => none
      | some candidate =>
        if isInRe then some (String.mk (removeSuffixComma (pyRStrip candidate.toList)))
        else if !pyContains candidate.toList " v. ".toList then none
        else
          let tokens := pySplitWs candidate.toList
          let idx := noiseSkip tokens 0 (tokens.length + 1)
          if tokens.length ≤ idx then none
          else
            let strippedTokens := tokens.drop idx
            match cleanStr (some (String.mk (List.intercalate [' '] strippedTokens))) with
            | none => none
            | some cc =>
              if !pyContains cc.toList " v. ".toList then none
              else
                let (left, right) := pyPartition cc.toList " v. ".toList
                if left = [] || right = [] then none
                else if !(left.any (fun ch => isAsciiAlpha ch && ch.isUpper)) then none
                else if !(right.any (fun ch => isAsciiAlpha ch && ch.isUpper)) then none
                else some (String.mk (removeSuffixComma (pyRStrip cc.toList))))

/-- `add_context` state: `(contexts, seen_contexts)`. -/
def addContext (st : List String × List String) (seg : List Char) (front : Bool) :
    List String × List String :=
  let seg := String.mk (pyStrip seg)
  if seg = "" || st.2.contains seg then st
  else if front then (seg :: st.1, st.2 ++ [seg])
  else (st.1 ++ [seg], st.2 ++ [seg])

/-- The context list built by `resolve_case_name`. -/
def buildContexts (trimmed : List Char) : List String :=
  let st : List String × List String := ([], [])
  let st :=
    match pyRFind trimmed [','] with
    | some commaIdx =>
      let caseSegment := pyRStrip (trimmed.take commaIdx)
      if caseSegment ≠ [] then
        let st := addContext st caseSegment false
        match pyRFind caseSegment [';'] with
        | some sw => addContext st (caseSegment.drop (sw + 1)) true
        | none => st
      else st
    | none => st
  let st :=
    match pyRFind trimmed [';'] with
    | some si => addContext st (trimmed.drop (si + 1)) true
    | none => st
  let st :=
    match pyRFind trimmed ['.'] with
    | some pi => addContext st (trimmed.drop (pi + 1)) false
    | none => st
  (addContext st (lastN trimmed 300) false).1

/-- `resolve_case_name`.  (The `obj is None and isinstance(case_name,
FullCaseCitation)` aliasing branch cannot arise in the typed model, where
`case_name` is always a string option.) -/
def resolveCaseName (caseName : Option String) (obj : Option Citation) : Option String :=
  let fallback := cleanStr caseName
  match obj with
  | none => fallback
  | some c =>
    if c.kind ≠ .fullCase then fallback
    else
      match getSpan c with
      | none => fallback
      | some (start, stop) =>
        if start = 0 || stop = 0 then fallback
        else
          match c.docText with
          | none => fallback
          | some txt =>
            if txt = "" then fallback
            else
              let preceding := (txt.toList).take start
              if preceding = [] then fallback
              else
                let trimmed := pyRStrip preceding
                if trimmed = [] then fallback
                else
                  let fallbackLen := ((fallback.getD "").toList).length
                  match (buildContexts trimmed).findSome? (fun ctx =>
                    match extractCandidate ctx.toList with
                    | none => none
                    | some cand0 =>
                      let cand := removeSuffixComma (pyRStrip cand0.toList)
                      if cand = [] then none
                      else if fallbackLen < cand.length then some (String.mk cand)
                      else none) with
                  | some r => some r
                  | none => fallback

/-- `verifiers.case_verifier.get_case_name`. -/
def getCaseName (obj : Option Citation) : Option String :=
  match obj with
  | none => none
  | some c =>
    let caseName : Option String :=
      if c.hasMetadata then
        let plaintiff := cleanStr (pyOrO c.plaintiff c.petitioner)
        let defendant := cleanStr (pyOrO c.defendant c.respondent)
        match plaintiff, defendant with
        | some p, some d => cleanStr (some s!"{p} v. {d}")
        | none, some d => some s!"In re {d}"
        | _, _ => none
      else none
    resolveCaseName caseName (some c)

/-! ## svc/citations_compiler.py — the compiler -/

inductive CiteObj where
  | tok (c : Citation)
  | sec (s : SecondaryCitation)
deriving DecidableEq, Repr

structure Occurrence where
  citationCategory : String
  matchedText : Option String
  span : Option (Nat × Nat)
  index : Option Nat
  pinCite : Option String
  citationObj : CiteObj
  stringGroupId : Option String
  positionInString : Option Nat
deriving DecidableEq, Repr

structure Entry where
  etype : String
  resource : ResourceDict
  status : String
  substatus : Option String
  verificationDetails : Option JVal
  normalizedCitation : String
  fullCitationObj : Option CiteObj
  occurrences : List Occurrence
deriving Repr

abbrev CitationDb := PyDict String Entry
abbrev Resolutions := PyDict Resource (List Citation)

/-- The external eyecite library at its interface: `clean_text`,
`get_citations`, and `resolve_citations` (the latter already driven by
the `_bind_full_citation` hook the compiler supplies, so its output keys
are `ResourceKey`s or raw strings).  `.error` models a raised
exception. -/
structure TokenizerOracle where
  cleanText : String → String
  getCitations : String → Except Unit (List Citation)
  resolveCitations : List Citation → Except Unit Resolutions

/-- The verification layer behind its shared
`verify(full_citation, normalized_key, resource_fields, fallback) →
(status, substatus, details)` contract; `.error` models a raised
exception. -/
structure VerifierOracles where
  verifyCase : Option Citation → String → ResourceDict → Option String → Except Unit VResult
  verifyFederal : Option Citation → String → ResourceDict → Option String → Except Unit VResult
  verifyStateSync : Option Citation → String → ResourceDict → Option String → Except Unit VResult
  verifyJournal : Option Citation → String → ResourceDict → Except Unit VResult
  verifySecondary : SecondaryCitation → String → ResourceDict → Except Unit VResult

/-- The `(resource_key, status, substatus, details)` tuple a state-law
background task returns. -/
abbrev StateResult := String × String × Option String × Option JVal

/-- `_verify_state_async`: runs the state-law verifier and catches any
exception, turning it into `error`/`state_law_async_failed`. -/
def verifyStateAsync (V : VerifierOracles) (resourceKey : String)
    (primaryFull : Option Citation) (normalizedKey : String)
    (resourceDict : ResourceDict) (fallback : Option String) : StateResult :=
  match V.verifyStateSync primaryFull normalizedKey resourceDict fallback with
  | .ok (s, sub, det) => (resourceKey, s, sub, det)
  | .error _ => (resourceKey, "error", some "state_law_async_failed", none)

/-- `_process_citation_segment`; returns the segment's resolutions, its
segment metadata, and the updated `adjusted_spans` dict. -/
def processCitationSegment (T : TokenizerOracle) (segment : CitationSegment)
    (adjusted : PyDict Nat (Nat × Nat)) :
    Resolutions × PyDict Nat CitationSegment × PyDict Nat (Nat × Nat) :=
  let cleaned := T.cleanText (String.mk segment.text)
  match T.getCitations cleaned with
  | .error _ => ([], [], adjusted)
  | .ok citations =>
    let resolutions :=
      match T.resolveCitations citations with
      | .ok r => r
      | .error _ => citations.enum.map (fun ic => (Resource.rstr s!"raw:{ic.1}", [ic.2]))
    let step := resolutions.foldl
      (fun (acc : PyDict Nat CitationSegment × PyDict Nat (Nat × Nat)) kv =>
        kv.2.foldl (fun acc cite =>
          let (meta, adj) := acc
          let adj :=
            match getSpan cite, getIndex cite with
            | some (s0, e0), some i =>
              dSet adj i (segment.originalSpan.1 + s0, segment.originalSpan.1 + e0)
            | _, _ => adj
          let meta :=
            match getIndex cite with
            | some i => dSet meta i segment
            | none => meta
          (meta, adj)) acc) ([], adjusted)
    (resolutions, step.1, step.2)

/-- `_get_adjusted_span`. -/
def getAdjustedSpan (cite : Citation) (adjusted : PyDict Nat (Nat × Nat)) :
    Option (Nat × Nat) :=
  match getIndex cite with
  | some i =>
    match dGet adjusted i with
    | some sp => some sp
    | none => getSpan cite
  | none => getSpan cite

/-- `_merge_resolutions` (list-append per key, never overwrite). -/
def mergeResolutions (target source : Resolutions) : Resolutions :=
  source.foldl (fun t kv =>
    match dGet t kv.1 with
    | some ex => dSet t kv.1 (ex ++ kv.2)
    | none => dSet t kv.1 kv.2) target

/-- `_make_short_lookup_key`. -/
def makeShortLookupKey (c : Citation) : Option String :=
  match c.kind with
  | .fullCase =>
    let name := pyOr (getCaseName (some c)) ""
    match normalizeCaseNameForCompare (some name) with
    | some n =>
      if pyContains n.toList ['v'] then
        some (String.mk (pyStrip (n.toList.takeWhile (· ≠ 'v'))))
      else some n
    | none => none
  | .shortCase =>
    if c.hasMetadata then
      let plaintiff := cleanStr (pyOrO c.plaintiff c.antecedentGuess)
      if pyTruthy plaintiff then normalizeCaseNameForCompare plaintiff else none
    else none
  | .idCite | .supra => some "__ID_OR_SUPRA__"
  | .fullLaw =>
    let reporter := cleanStr (attrGet c "reporter")
    let sectionV := cleanStr (attrGet c "section")
    match reporter, sectionV with
    | some r, some s => if r ≠ "" && s ≠ "" then some s!"{r}::{s}" else none
    | _, _ => none
  | _ => none

/-- Python `list.remove` followed by `except ValueError: pass`. -/
def removeFirst [DecidableEq α] : List α → α → List α
  | [], _ => []
  | x :: xs, a => if x = a then xs else x :: removeFirst xs a

/-- One member of a string group in `_resolve_string_local_shorts`. -/
structure GroupItem where
  resourceKey : Resource
  cite : Citation
  segment : CitationSegment
deriving DecidableEq, Repr

/-- Grouping citations by `string_group_id` (first phase of
`_resolve_string_local_shorts`). -/
def buildStringGroups (resolutions : Resolutions)
    (segMeta : PyDict Nat CitationSegment) : PyDict String (List GroupItem) :=
  resolutions.foldl (fun groups kv =>
    kv.2.foldl (fun groups cite =>
      match getIndex cite with
      | none => groups
      | some idx =>
        match dGet segMeta idx with
        | none => groups
        | some segment =>
          match segment.stringGroupId with
          | none => groups
          | some gid =>
            dSet groups gid ((dGet groups gid).getD [] ++ [⟨kv.1, cite, segment⟩])) groups) []

/-- Processing of one string group in `_resolve_string_local_shorts`:
register full citations as local antecedents for later positions, then
move short/id/supra citations whose lookup key has a local antecedent. -/
def processGroup (resolutions : Resolutions) (groupItems : List GroupItem) :
    Resolutions :=
  let sortedItems := pySort
    (fun a b => a.segment.positionInString.getD 0 ≤ b.segment.positionInString.getD 0)
    groupItems
  let localFulls := sortedItems.enum.foldl
    (fun (lf : PyDict Nat (PyDict String GroupItem)) ii =>
      let (i, item) := ii
      if isFullCitation item.cite then
        (List.range' (i + 1) (sortedItems.length - (i + 1))).foldl (fun lf j =>
          let inner := (dGet lf j).getD []
          match truthyOpt (makeShortLookupKey item.cite) with
          | some key => dSet lf j (dSet inner key item)
          | none => dSet lf j inner) lf
      else lf) []
  sortedItems.enum.foldl (fun (res : Resolutions) ii =>
    let (i, item) := ii
    let cite := item.cite
    if cite.kind = .shortCase || cite.kind = .idCite || cite.kind = .supra then
      match truthyOpt (makeShortLookupKey cite) with
      | none => res
      | some key =>
        match dGet localFulls i with
        | none => res
        | some inner =>
          match dGet inner key with
          | none => res
          | some antecedent =>
            if antecedent.resourceKey ≠ item.resourceKey then
              let res :=
                match dGet res item.resourceKey with
                | some lst => dSet res item.resourceKey (removeFirst lst cite)
                | none => res
              dSet res antecedent.resourceKey
                ((dGet res antecedent.resourceKey).getD [] ++ [cite])
            else res
    else res) resolutions

/-- `_resolve_string_local_shorts`. -/
def resolveStringLocalShorts (resolutions : Resolutions)
    (segMeta : PyDict Nat CitationSegment) : Resolutions :=
  (buildStringGroups resolutions segMeta).foldl
    (fun res g => processGroup res g.2) resolutions

/-- The occurrence dict built for one citation in step 6 of
`compile_citations`.  Note the Python guard
`all_segment_metadata.get(cite_idx) if cite_idx else None`, under which
both `None` and index `0` skip the metadata lookup. -/
def mkOccurrence (cite : Citation) (segMeta : PyDict Nat CitationSegment)
    (adjusted : PyDict Nat (Nat × Nat)) : Occurrence :=
  let citeIdx := getIndex cite
  let segment : Option CitationSegment :=
    match citeIdx with
    | some i => if i = 0 then none else dGet segMeta i
    | none => none
  { citationCategory := citationCategoryOf cite
    matchedText := getCitationText cite
    span := getAdjustedSpan cite adjusted
    index := citeIdx
    pinCite := getPinCite cite
    citationObj := CiteObj.tok cite
    stringGroupId := segment.bind (·.stringGroupId)
    positionInString := segment.bind (·.positionInString) }

/-- The lookup/update key of `_add_secondary_to_db`: a resolved short
form is first tried under its antecedent's key. -/
def secResourceKey (cite : SecondaryCitation) (isFull : Bool) : String :=
  if pyTruthy cite.antecedentKey && !isFull then cite.antecedentKey.getD ""
  else secToResourceKey cite

/-- The occurrence dict built in `_add_secondary_to_db`. -/
def secOccurrence (cite : SecondaryCitation) : Occurrence :=
  { citationCategory := cite.citationCategory
    matchedText := some cite.matchedText
    span := some cite.span
    index := none
    pinCite := cite.pinCite
    citationObj := .sec cite
    stringGroupId := none
    positionInString := none }

/-- The `resource` dict built in `_add_secondary_to_db`. -/
def secEntryResourceDict (cite : SecondaryCitation) : ResourceDict :=
  { kind := "secondary"
    sourceType := some cite.sourceType
    idTuple := [pyOr cite.volume "", pyOr cite.title "",
                pyOr cite.sectionF (pyOr cite.page ""), pyOr cite.year ""] }

/-- `_add_secondary_to_db`. -/
def addSecondaryToDb (V : VerifierOracles) (cite : SecondaryCitation)
    (db : CitationDb) (isFull : Bool) : Except Unit CitationDb :=
  match dGet db (secResourceKey cite isFull) with
  | some entry =>
    .ok (dSet db (secResourceKey cite isFull)
      { entry with occurrences := entry.occurrences ++ [secOccurrence cite] })
  | none => do
    let (status, substatus, details) ←
      if isFull then
        V.verifySecondary cite (secToNormalizedCitation cite) (secEntryResourceDict cite)
      else pure (("warning", some "short_form_unresolved",
        some (JVal.obj [("note", JVal.jstr "Short form citation without resolved antecedent")])) : VResult)
    .ok (dSet db (if !isFull then secToResourceKey cite else secResourceKey cite isFull)
      { etype := "secondary"
        resource := secEntryResourceDict cite
        status := status
        substatus := substatus
        verificationDetails := details
        normalizedCitation := secToNormalizedCitation cite
        fullCitationObj := some (.sec cite)
        occurrences := [secOccurrence cite] })

/-- The resolved-short-citation loop of `_process_secondary_citations`:
Id. forms referring to non-secondary citations are skipped, everything
else is added to the database. -/
def processResolvedShorts (V : VerifierOracles) (shorts : List SecondaryCitation)
    (db : CitationDb) : Except Unit CitationDb :=
  shorts.foldlM (fun db c =>
    if c.sourceType = "non_secondary" then pure db
    else addSecondaryToDb V c db false) db

/-- The span/`SpanInfo` accumulation over the database at the start of
`_process_secondary_citations`. -/
def dbSpansInfo (db : CitationDb) : List (Nat × Nat) × List SpanInfo :=
  db.foldl
    (fun (acc : List (Nat × Nat) × List SpanInfo) kv =>
      kv.2.occurrences.foldl (fun acc occ =>
        match occ.span with
        | some (s0, s1) => (acc.1 ++ [(s0, s1)], acc.2 ++ [⟨s0, s1, kv.2.etype, none⟩])
        | none => acc) acc) ([], [])

/-- The sorted merged span timeline (`all_spans`) of
`_process_secondary_citations`: the sorted database `SpanInfo`s merged
with the full secondary citations just detected. -/
def secAllSpans (db : CitationDb) (fulls : List SecondaryCitation) : List SpanInfo :=
  pySort (fun a b => a.start ≤ b.start)
    (pySort (fun a b => a.start ≤ b.start) (dbSpansInfo db).2 ++ fulls.map (fun c =>
      ({ start := c.span.1, stop := c.span.2, ctype := "secondary",
         obj := some c } : SpanInfo)))

/-- `_process_secondary_citations`. -/
def processSecondaryCitations (V : VerifierOracles) (text : List Char)
    (db : CitationDb) : Except Unit CitationDb :=
  match detectSecondaryCitations text (dbSpansInfo db).1 with
  | (fulls, shorts) =>
    if fulls = [] && shorts = [] then .ok db
    else do
      let dbF ← fulls.foldlM (fun db c => addSecondaryToDb V c db true) db
      processResolvedShorts V
        (resolveShortCitations fulls shorts (secAllSpans db fulls)) dbF

/-- The jurisdiction classification applied to the bucket's primary
full citation in the `law` branch of the step-6 loop. -/
def jurisdictionOf (primaryFull : Option Citation) : Option String :=
  match primaryFull with
  | some pf =>
    if pf.kind = .fullLaw then some (classifyFullLawJurisdiction pf) else none
  | none => none

/-- The verifier dispatch of the step-6 loop: pick and run the provider
for the bucket's entry type, producing the `(status, substatus,
details)` triple and the (possibly extended) state-task list. -/
def bucketVerify (V : VerifierOracles) (entryType : String)
    (primaryFull : Option Citation) (normalizedKey : String)
    (resourceDict : ResourceDict) (fallbackValue : Option String)
    (resourceKey : String) (stateResults : List StateResult) :
    Except Unit (VResult × List StateResult) :=
  if entryType = "case" then do
    let r ← V.verifyCase primaryFull normalizedKey resourceDict fallbackValue
    pure (r, stateResults)
  else if entryType = "law" then
    if jurisdictionOf primaryFull = some "federal" then do
      let r ← V.verifyFederal primaryFull normalizedKey resourceDict fallbackValue
      pure (r, stateResults)
    else if jurisdictionOf primaryFull = some "state" then
      pure ((("pending", some "state_law_verification_pending", none) : VResult),
        stateResults ++ [verifyStateAsync V resourceKey primaryFull normalizedKey
          resourceDict fallbackValue])
    else
      pure ((("error", some "unsupported_jurisdiction",
        some (JVal.obj [("jurisdiction",
          JVal.jstr ((jurisdictionOf primaryFull).getD "unknown"))])) : VResult),
        stateResults)
  else if entryType = "journal" then do
    let r ← V.verifyJournal primaryFull normalizedKey resourceDict
    pure (r, stateResults)
  else
    pure ((("error", some s!"{entryType}_verification_unsupported", none) : VResult),
      stateResults)

/-- The body of the step-6 loop of `compile_citations`: verify one
resolution bucket and add its entry to the database. -/
def compileBucketStep (V : VerifierOracles)
    (segMeta : PyDict Nat CitationSegment) (adjusted : PyDict Nat (Nat × Nat)) :
    CitationDb × List StateResult → Resource × List Citation →
    Except Unit (CitationDb × List StateResult) :=
  (fun (acc : CitationDb × List StateResult) kv => do
    let (db, stateResults) := acc
    match kv.2 with
    | [] => pure acc
    | c0 :: _ =>
      let resource := kv.1
      let resolvedCites := kv.2
      let resourceKey := resourceIdentifier resource
      let (resourceDict, resourceKind) :=
        match resource with
        | .rkey k => (({ kind := k.kind, idTuple := k.idTuple } : ResourceDict), k.kind)
        | .rstr s => (({ kind := "str", idTuple := [s] } : ResourceDict), "str")
      let primaryFull := resolvedCites.find? isFullCitation
      let representative := primaryFull.getD c0
      let normalizedKey := pyOr (some (normalizedKeyOf representative)) resourceKey
      let entryType :=
        match primaryFull with
        | some pf => getCitationType pf
        | none => resourceKind
      let fallbackValue := getCitationTextOpt primaryFull
      let (sst, stateResults) ←
        bucketVerify V entryType primaryFull normalizedKey resourceDict fallbackValue
          resourceKey stateResults
      let (status, substatus, verificationDetails) := sst
      let entry : Entry :=
        { etype := entryType
          resource := resourceDict
          status := status
          substatus := substatus
          verificationDetails := verificationDetails
          normalizedCitation := normalizedKey
          fullCitationObj := primaryFull.map CiteObj.tok
          occurrences := resolvedCites.map (fun c => mkOccurrence c segMeta adjusted) }
      pure (dSet db resourceKey entry, stateResults))

/-- Step 6 of `compile_citations`: build the citation database and the
list of state-law background-task results (in task-creation order; a
task's body never raises, so its result is available at the join). -/
def compileBuckets (V : VerifierOracles) (resolutions : Resolutions)
    (segMeta : PyDict Nat CitationSegment) (adjusted : PyDict Nat (Nat × Nat)) :
    Except Unit (CitationDb × List StateResult) :=
  resolutions.foldlM (compileBucketStep V segMeta adjusted) ([], [])

/-- The merge-back step after `asyncio.gather`. -/
def patchState (db : CitationDb) (r : StateResult) : CitationDb :=
  let (key, status, substatus, details) := r
  match dGet db key with
  | none => db
  | some entry =>
    dSet db key { entry with status := status, substatus := substatus,
                             verificationDetails := details }

/-- `compile_citations`. -/
def compileCitations (T : TokenizerOracle) (V : VerifierOracles)
    (text : List Char) : Except Unit CitationDb := do
  let spans := detectStringCitations text
  let segStep := spans.foldl
    (fun (acc : List CitationSegment × Nat) sp =>
      let (allSegments, counter) := acc
      let (start, stop, isString) := sp
      if isString then
        let stringText := pySlice text start stop
        let gid := s!"string_group_{counter}"
        match splitStringCitation stringText start gid with
        | .ok segs => (allSegments ++ segs, counter + 1)
        | .error _ => (allSegments, counter + 1)
      else (allSegments, counter)) ([], 0)
  let allSegments := segStep.1
  let step3 := allSegments.foldl
    (fun (acc : Resolutions × PyDict Nat CitationSegment × PyDict Nat (Nat × Nat)) segment =>
      let (allRes, allMeta, adjusted) := acc
      let (segRes, segMeta, adjusted) := processCitationSegment T segment adjusted
      (mergeResolutions allRes segRes,
       segMeta.foldl (fun m kv => dSet m kv.1 kv.2) allMeta,
       adjusted))
    ([], [], [])
  let (allResolutions0, allMeta, adjusted) := step3
  let allResolutionsOpt : Option Resolutions ←
    if allSegments = [] then do
      let cleanedText := T.cleanText (String.mk text)
      let citations ← T.getCitations cleanedText
      if citations = [] then
        pure none
      else
        match T.resolveCitations citations with
        | .ok r => pure (some r)
        | .error _ =>
          pure (some (citations.enum.map (fun ic => (Resource.rstr s!"raw:{ic.1}", [ic.2]))))
    else pure (some allResolutions0)
  match allResolutionsOpt with
  | none => pure []
  | some allResolutions =>
    if allResolutions.all (fun kv => kv.2 = []) then pure []
    else do
      let corrected := resolveStringLocalShorts allResolutions allMeta
      let (db, stateResults) ← compileBuckets V corrected allMeta adjusted
      let db := stateResults.foldl patchState db
      processSecondaryCitations V text db

/-! ## verifiers/case_verifier.py -/

/-- Python truthiness of a JSON value. -/
def jvalPyTruthy : JVal → Bool
  | .null => false
  | .jstr s => s ≠ ""
  | .jnum n => n ≠ 0
  | .jrat q => q ≠ 0
  | .jbool b => b
  | .arr xs => !xs.isEmpty
  | .obj fs => !fs.isEmpty

/-- `str(v)` for a JSON value (interface-level rendering; containers are
never rendered on the modelled paths). -/
def jvalToPyStr : JVal → String
  | .null => "None"
  | .jstr s => s
  | .jnum n => toString n
  | .jrat _ => "<float>"
  | .jbool b => if b then "True" else "False"
  | .arr _ => "[...]"
  | .obj _ => "\x7b...\x7d"

def jGet (j : JVal) (k : String) : Option JVal :=
  match j with
  | .obj fs => dGet fs k
  | _ => none

/-- `payload.get(k, None) is not None`. -/
def jGetNotNone (j : JVal) (k : String) : Bool :=
  match jGet j k with
  | some .null => false
  | some _ => true
  | none => false

/-- A string field of a payload dict passed through `clean_str`. -/
def jCleanStr (v : Option JVal) : Option String :=
  match v with
  | some (.jstr s) => cleanStr (some s)
  | some .null => none
  | none => none
  | some v => cleanStr (some (jvalToPyStr v))

/-- JSON wrapped for `None` option: `null` for `None`. -/
def optJ (v : Option String) : JVal :=
  match v with
  | some s => .jstr s
  | none => .null

/-- Result of an `httpx` request: raised `httpx.HTTPError`, some other
raised exception (which the caller does not catch), or a response. -/
inductive HttpOutcome (β : Type) where
  | raiseHttp
  | raiseOther
  | resp (r : β)

/-- A CourtListener lookup response: status code and JSON body
(`.error` for a non-JSON body). -/
structure CLResp where
  statusCode : Nat
  body : Except Unit JVal

/-- External services used by the case verifier: the CourtListener
citation-lookup POST (keyed by volume/reporter/page) and rapidfuzz's
`partial_ratio ≥ 75` comparison. -/
structure CaseOracle where
  post : Option String → Option String → Option String → HttpOutcome CLResp
  fuzzyPartialGe75 : String → String → Bool

/-- `(1[6-9]\d{2}|20\d{2}|2100)` -/
def yearSearchRE : REx :=
  altList [seqR [chr '1', .cls (fun c => '6' ≤ c && c ≤ '9'), digitCls, digitCls],
           seqR [litS "20", digitCls, digitCls],
           litS "2100"]

/-- `_extract_year_from_value`; raises (`.error`) on a value that is
neither `None`, an int, nor a string. -/
def extractYearFromValue (v : Option JVal) : Except Unit (Option String) :=
  match v with
  | none => .ok none
  | some .null => .ok none
  | some (.jnum n) =>
    .ok (if 1000 ≤ n && n ≤ 9999 then some (toString n) else none)
  | some (.jstr s) =>
    if pyIsDigitStr s.toList && s.toList.length = 4 then .ok (some s)
    else
      .ok ((finditer (plainMatcher yearSearchRE) s.toList).head?.map
        (fun m => String.mk (pySlice s.toList m.1 m.2.1)))
  | some _ => .error ()

/-- `_extract_lookup_case_name`. -/
def extractLookupCaseName (payload : JVal) : Option String :=
  match jGet payload "clusters" with
  | some (.arr (cluster :: _)) =>
    (match cluster with
     | .obj _ =>
       (match jCleanStr (jGet cluster "case_name") with
        | some cn => some cn
        | none =>
          if jGetNotNone cluster "case_name_short" then
            jCleanStr (jGet cluster "case_name_short")
          else if jGetNotNone cluster "case_name_full" then
            jCleanStr (jGet cluster "case_name_full")
          else none)
     | _ => none)
  | _ => none

/-- `_extract_lookup_case_year`. -/
def extractLookupCaseYear (payload : JVal) : Except Unit (Option String) :=
  match jGet payload "clusters" with
  | some (.arr (cluster :: _)) =>
    (match cluster with
     | .obj _ => extractYearFromValue (jGet cluster "date_filed")
     | _ => .ok none)
  | _ => .ok none

/-- `_lookup_case_citation`; a non-`httpx.HTTPError` exception from the
POST propagates as `.error`. -/
def lookupCaseCitation (O : CaseOracle) (volume reporter page : Option String) :
    Except Unit (String × Option String × JVal) :=
  if !pyTruthy volume || !pyTruthy reporter || !pyTruthy page then
    .ok ("error", some "missing_lookup_fields", .obj [])
  else
    match O.post volume reporter page with
    | .raiseHttp => .ok ("error", some "lookup_failed", .obj [])
    | .raiseOther => .error ()
    | .resp r =>
      if r.statusCode = 401 then .ok ("error", some "lookup_auth_failed", .obj [])
      else if r.statusCode = 403 then .ok ("error", some "lookup_forbidden", .obj [])
      else if r.statusCode = 400 then .ok ("error", some "lookup_bad_request", .obj [])
      else if 500 ≤ r.statusCode then .ok ("error", some "lookup_service_error", .obj [])
      else if r.statusCode ≠ 200 then
        .ok ("error", some "lookup_unexpected_status", .obj [])
      else
        match r.body with
        | .error _ => .ok ("error", some "lookup_invalid_payload", .obj [])
        | .ok payload =>
          match payload with
          | .obj _ =>
            (match jGet payload "results" with
             | some (.arr results) =>
               (match results.head? with
                | none => .ok ("no match", none, payload)
                | some first => .ok ("ok", none, first))
             | _ =>
               if jvalPyTruthy payload then .ok ("ok", none, payload)
               else .ok ("no match", none, .obj []))
          | .arr items =>
            (match items.head? with
             | none => .ok ("no match", none, .obj [])
             | some first => .ok ("ok", none, first))
          | _ => .ok ("error", some "lookup_unrecognized_payload", .obj [])

/-- `(?P<volume>\d+)\s+(?P<reporter>[\w\.'-]+(?:\s[\w\.'-]+)*)\s+(?P<page>\d+)` -/
def caseFieldsRE : REx :=
  let repCls := REx.cls (fun c => isWordChar c || c = '.' || c = '\'' || c = '-')
  seqR [.grp "volume" (plus digitCls), wsPlus,
    .grp "reporter" (seqR [plus repCls, .star (seqR [wsCls, plus repCls])]), wsPlus,
    .grp "page" (plus digitCls)]

/-- `_prepare_case_lookup_fields`. -/
def prepareCaseLookupFields (primaryFull : Option Citation)
    (resourceDict : Option ResourceDict) (normalizedKey : Option String) :
    Option String × Option String × Option String :=
  let volume := primaryFull.bind (fun pf => cleanStr (groupsGet pf "volume"))
  let reporter := primaryFull.bind (fun pf => cleanStr (groupsGet pf "reporter"))
  let page := primaryFull.bind (fun pf => cleanStr (groupsGet pf "page"))
  let (volume, page) :=
    if (!pyTruthy volume || !pyTruthy reporter || !pyTruthy page)
        && (primaryFull.map isFullCitation).getD false then
      (pyOrO volume (primaryFull.bind (fun pf => cleanStr (attrGet pf "volume"))),
       pyOrO page (primaryFull.bind (fun pf => cleanStr (attrGet pf "page"))))
    else (volume, page)
  let idTuple := (resourceDict.map (·.idTuple)).getD []
  let (volume, reporter) :=
    if 3 ≤ idTuple.length then
      (pyOrO volume (cleanStr (idTuple.get? 2)),
       pyOrO reporter (cleanStr (idTuple.get? 1)))
    else (volume, reporter)
  let page :=
    if 4 ≤ idTuple.length then pyOrO page (cleanStr (idTuple.get? 3)) else page
  if (!pyTruthy volume || !pyTruthy reporter || !pyTruthy page)
      && pyTruthy normalizedKey then
    match (finditer (plainMatcher caseFieldsRE) ((normalizedKey.getD "").toList)).head? with
    | some m =>
      (pyOrO volume (cleanStr (bindLookup m.2.2 "volume")),
       pyOrO reporter (cleanStr (bindLookup m.2.2 "reporter")),
       pyOrO page (cleanStr (bindLookup m.2.2 "page")))
    | none => (volume, reporter, page)
  else (volume, reporter, page)

/-- `verify_case_citation`; `.error` models an uncaught exception
(non-`httpx.HTTPError` from the lookup, or `ValueError` from the `int()`
year comparison). -/
def verifyCaseCitation (O : CaseOracle) (primaryFull : Option Citation)
    (normalizedKey : Option String) (resourceDict : Option ResourceDict)
    (fallbackCitation : Option String) : Except Unit VResult := do
  let citationText := pyOrO (cleanStr normalizedKey) (cleanStr fallbackCitation)
  let (volume, reporter, page) :=
    prepareCaseLookupFields primaryFull resourceDict citationText
  let (lookupStatus, lookupSubstatus, lookupPayload) ←
    lookupCaseCitation O volume reporter page
  if lookupStatus ≠ "ok" then
    if lookupStatus = "no match" then
      pure (("no match", none, none) : VResult)
    else
      let details : Option JVal :=
        if lookupSubstatus = some "missing_lookup_fields" then
          some (.obj [("source", .jstr "courtlistener"),
            ("lookup_request", .obj [("volume", optJ volume),
              ("reporter", optJ reporter), ("page", optJ page)])])
        else none
      pure ((lookupStatus, lookupSubstatus, details) : VResult)
  else if !jvalPyTruthy lookupPayload then
    pure (("no match", none, none) : VResult)
  else do
    let expectedName0 := getCaseName primaryFull
    let expectedName : Option String :=
      match expectedName0, primaryFull with
      | none, some pf =>
        if pf.hasMetadata then
          match cleanStr pf.resolvedCaseName with
          | some n => some n
          | none => cleanStr pf.resolvedCaseNameShort
        else none
      | _, _ => expectedName0
    let expectedYear0 : Option String :=
      match primaryFull with
      | some pf =>
        if pyTruthy pf.year then pf.year
        else if pf.hasMetadata then pf.metaYear
        else pf.year
      | none => none
    let expectedYear ←
      if !pyTruthy expectedYear0 then
        let idTuple := (resourceDict.map (·.idTuple)).getD []
        if 4 ≤ idTuple.length then
          extractYearFromValue ((idTuple.getLast?).map .jstr)
        else pure expectedYear0
      else pure expectedYear0
    let actualName := cleanStr (extractLookupCaseName lookupPayload)
    let actualYear ← do
      let y ← extractLookupCaseYear lookupPayload
      extractYearFromValue (y.map .jstr)
    let expectedNorm := normalizeCaseNameForCompare expectedName
    let actualNorm := normalizeCaseNameForCompare actualName
    let nameMismatch : Bool :=
      match expectedNorm, actualNorm with
      | some e, some a => e ≠ a && !O.fuzzyPartialGe75 e a
      | none, none => false
      | _, _ => true
    let yearMismatch : Except Unit Bool :=
      match expectedYear, actualYear with
      | some ey, some ay => do
        let e ← pyInt ((cleanStr (some ey)).getD ey).toList
        let a ← pyInt ((cleanStr (some ay)).getD ay).toList
        pure (e ≠ a)
      | none, some _ => .ok true
      | some _, none => .ok true
      | none, none => .ok false
    let ym ← yearMismatch
    let mismatches : List String :=
      (if nameMismatch then ["case_name"] else []) ++ (if ym then ["year"] else [])
    if mismatches.length > 0 then
      let substatus :=
        "Mismatch at " ++
          (if mismatches.length = 2 then " (1) case name, (2) year"
           else mismatches.headD "")
      let details : JVal := .obj
        [("source", .jstr "courtlistener"),
         ("mismatched_fields", .arr (mismatches.map .jstr)),
         ("extracted", .obj [("case_name", optJ expectedName), ("year", optJ expectedYear)]),
         ("court_listener", .obj [("case_name", optJ actualName), ("year", optJ actualYear)]),
         ("lookup_request", .obj [("volume", optJ volume),
           ("reporter", optJ reporter), ("page", optJ page)])]
      pure (("warning", some substatus, some details) : VResult)
    else
      pure (("verified", none, none) : VResult)

/-! ## verifiers/federal_law_verifier.py — verification -/

/-- A GovInfo link-service response. -/
structure FedResp where
  statusCode : Nat
  /-- `response.headers.get("content-type")` -/
  contentType : Option String
  /-- `response.content` as characters -/
  body : List Char

/-- External state of the federal verifier: the `GOVINFO_API_KEY`
environment variable and the GET on the built document link. -/
structure FederalOracle where
  envApiKey : Option String
  get : String → HttpOutcome FedResp

/-- `_get_law_group` of the federal verifier. -/
def fedGetLawGroup (cite : Option Citation) (resourceDict : Option ResourceDict)
    (key : String) : Option String :=
  let fromGroups : Option String :=
    match cite with
    | some c =>
      if isFullCitation c then
        match dGet c.groups key with
        | some v => truthyOpt (cleanStr v)
        | none => none
      else none
    | none => none
  match fromGroups with
  | some v => some v
  | none =>
    let direct : Option String :=
      match cite with
      | some c => if isFullCitation c then cleanStr (attrGet c key) else none
      | none => none
    match direct with
    | some v => some v
    | none =>
      let idTuple := (resourceDict.map (·.idTuple)).getD []
      let idx : Option Nat :=
        if key = "title" || key = "volume" || key = "chapter" then some 0
        else if key = "code" || key = "reporter" then some 1
        else if key = "section" || key = "page" then some 2
        else if key = "year" then some 3
        else none
      match idx with
      | some i =>
        if i < idTuple.length then truthyOpt (cleanStr (idTuple.get? i)) else none
      | none => none

/-- `^(\d+)(?:\.(\d+))?$` -/
def cfrPartRE : REx :=
  seqR [.grp "part" (plus digitCls),
    opt (seqR [chr '.', .grp "secnum" (plus digitCls)]), .endS]

/-- `_extract_cfr_part`. -/
def extractCfrPart (sectionV : Option String) : Option (String × Option String) :=
  match sectionV with
  | none => none
  | some s =>
    if s = "" then none
    else
      match reMatchHere cfrPartRE s.toList with
      | some (_, bs) =>
        (bindLookup bs "part").map (fun p => (p, bindLookup bs "secnum"))
      | none => none

/-- The `(endpoint, error)` result of an endpoint builder (the `params`
component is `None` on every path of the source and is omitted). -/
abbrev BuildResult := Option String × Option (String × JVal)

/-- `_build_uscode_endpoint`. -/
def buildUscodeEndpoint (cite : Option Citation) (rd : Option ResourceDict) :
    BuildResult :=
  let title := fedGetLawGroup cite rd "title"
  let sectionV := sanitizeSection (fedGetLawGroup cite rd "section")
  if !pyTruthy title || !pyTruthy sectionV then
    (none, some ("insufficient_citation_data",
      .obj [("required_fields", .arr [.jstr "title", .jstr "section"]),
            ("source", .jstr "govinfo")]))
  else
    (some s!"uscode/{optFmt title}/{optFmt sectionV}", none)

/-- `_build_cfr_endpoint`. -/
def buildCfrEndpoint (cite : Option Citation) (rd : Option ResourceDict) :
    BuildResult :=
  let title := pyOrO (fedGetLawGroup cite rd "title")
    (pyOrO (fedGetLawGroup cite rd "volume") (fedGetLawGroup cite rd "chapter"))
  let sectionV := sanitizeSection
    (pyOrO (fedGetLawGroup cite rd "section") (fedGetLawGroup cite rd "page"))
  let cfr := extractCfrPart sectionV
  let part := cfr.map (·.1)
  let sectionNum := cfr.bind (·.2)
  if !pyTruthy title || !pyTruthy sectionV || !pyTruthy part then
    (none, some ("insufficient_citation_data",
      .obj [("required_fields", .arr [.jstr "title", .jstr "section"]),
            ("source", .jstr "govinfo")]))
  else
    let endpoint := s!"cfr/{optFmt title}/{optFmt part}"
    let endpoint :=
      match sectionNum with
      | some n => endpoint ++ s!"?sectionnum={n}"
      | none => endpoint
    (some endpoint, none)

/-- `_build_stat_endpoint`. -/
def buildStatEndpoint (cite : Option Citation) (rd : Option ResourceDict) :
    BuildResult :=
  let volume := pyOrO (fedGetLawGroup cite rd "volume") (fedGetLawGroup cite rd "title")
  let page := sanitizeSection
    (pyOrO (fedGetLawGroup cite rd "page") (fedGetLawGroup cite rd "section"))
  if !pyTruthy volume || !pyTruthy page then
    (none, some ("insufficient_citation_data",
      .obj [("required_fields", .arr [.jstr "volume", .jstr "page"]),
            ("source", .jstr "govinfo")]))
  else (some s!"statute/{optFmt volume}/{optFmt page}", none)

/-- `_build_fr_endpoint`. -/
def buildFrEndpoint (cite : Option Citation) (rd : Option ResourceDict) :
    BuildResult :=
  let volume := pyOrO (fedGetLawGroup cite rd "volume") (fedGetLawGroup cite rd "title")
  let page := sanitizeSection
    (pyOrO (fedGetLawGroup cite rd "page") (fedGetLawGroup cite rd "section"))
  if !pyTruthy volume || !pyTruthy page then
    (none, some ("insufficient_citation_data",
      .obj [("required_fields", .arr [.jstr "volume", .jstr "page"]),
            ("source", .jstr "govinfo")]))
  else (some s!"fr/{optFmt volume}/{optFmt page}", none)

/-- `_PUB_LAW_RE`: `pub\.?\s*l\.?\s*(?:no\.?\s*)?(?P<congress>\d+)[-–](?P<lawnum>\d+)` (`re.I`). -/
def pubLawRE : REx :=
  seqR [litCIS "pub", opt (chr '.'), wsStar, chrCI 'l', opt (chr '.'), wsStar,
    opt (seqR [litCIS "no", opt (chr '.'), wsStar]),
    .grp "congress" (plus digitCls),
    .cls (fun c => c = '-' || c = '–'),
    .grp "lawnum" (plus digitCls)]

/-- `_build_plaw_endpoint`.  Note the `congress < 104` early-data branch
returns the literal endpoint string `"error"` together with an error
tuple, exactly as the source does. -/
def buildPlawEndpoint (cite : Option Citation) (rd : Option ResourceDict)
    (citationText : Option String) : BuildResult :=
  let congress := fedGetLawGroup cite rd "congress"
  let lawnum := fedGetLawGroup cite rd "lawnum"
  let (congress, lawnum) :=
    if (!pyTruthy congress || !pyTruthy lawnum) && pyTruthy citationText then
      match (finditer (plainMatcher pubLawRE) ((citationText.getD "").toList)).head? with
      | some m =>
        (pyOrO congress (bindLookup m.2.2 "congress"),
         pyOrO lawnum (bindLookup m.2.2 "lawnum"))
      | none => (congress, lawnum)
    else (congress, lawnum)
  if !pyTruthy congress || !pyTruthy lawnum then
    (none, some ("insufficient_citation_data",
      .obj [("required_fields", .arr [.jstr "congress", .jstr "lawnum"]),
            ("source", .jstr "govinfo")]))
  else
    let congressS := congress.getD ""
    if pyIsDigitStr congressS.toList &&
        (pyInt congressS.toList).toOption.getD 0 < 104 then
      (some "error", some ("citation predates earliest available data",
        .obj [("congress", optJ congress), ("source", .jstr "govinfo")]))
    else
      (some s!"plaw/{congressS}/public/{optFmt lawnum}", none)

/-- `_build_govinfo_request` (reporter dispatch through
`GOVINFO_REPORTER_MAP`/`_REPORTER_BUILDERS`). -/
def buildGovinfoRequest (cite : Option Citation) (rd : Option ResourceDict)
    (citationText : Option String) : BuildResult :=
  match fedGetLawGroup cite rd "reporter" with
  | none =>
    (some "error", some ("missing_reporter", .obj [("source", .jstr "govinfo")]))
  | some reporter0 =>
    if reporter0 = "" then
      (some "error", some ("missing_reporter", .obj [("source", .jstr "govinfo")]))
    else
      let reporter := String.mk (pyStrip reporter0.toList)
      if reporter = "U.S.C." then buildUscodeEndpoint cite rd
      else if reporter = "C.F.R." then buildCfrEndpoint cite rd
      else if reporter = "Stat." then buildStatEndpoint cite rd
      else if reporter = "Fed. Reg." then buildFrEndpoint cite rd
      else if reporter = "Pub. L." || reporter = "Pub. L. No." then
        buildPlawEndpoint cite rd citationText
      else
        (some "error", some ("unsupported_reporter",
          .obj [("reporter", .jstr reporter), ("source", .jstr "govinfo")]))

/-- `details.setdefault(k, v)` on a JSON object. -/
def jSetdefault (j : JVal) (k : String) (v : JVal) : JVal :=
  match j with
  | .obj fs => if dMem fs k then j else .obj (fs ++ [(k, v)])
  | _ => j

/-- The `details` dict built for a GovInfo response. -/
def fedRespDetails (endpoint : String) (r : FedResp) : JVal :=
  .obj [("source", .jstr "govinfo"), ("endpoint", .jstr endpoint),
        ("params", .null), ("status_code", .jnum r.statusCode)]

/-- The status-code/content ladder on a GovInfo response. -/
def fedRespResult (endpoint : String) (r : FedResp) : VResult :=
  if r.statusCode = 400 then ("no_match", some "no_federal_law", some (fedRespDetails endpoint r))
  else if r.statusCode = 401 then ("error", some "lookup_auth_failed", some (fedRespDetails endpoint r))
  else if r.statusCode = 403 then ("error", some "lookup_forbidden", some (fedRespDetails endpoint r))
  else if r.statusCode = 429 then ("error", some "lookup_rate_limited", some (fedRespDetails endpoint r))
  else if 500 ≤ r.statusCode then ("error", some "lookup_service_error", some (fedRespDetails endpoint r))
  else if r.statusCode ≠ 200 then ("no match", none, some (fedRespDetails endpoint r))
  else if !pyContains (pyLower ((r.contentType.getD "").toList)) "pdf".toList
      || !pyStartsWith r.body "%PDF".toList then
    ("no match", none, some (jSetdefault (fedRespDetails endpoint r) "content_type" (optJ r.contentType)))
  else if r.body = [] then
    ("no match", none, some (jSetdefault (fedRespDetails endpoint r) "content_length" (.jnum 0)))
  else ("verified", none, none)

/-- The `httpx.get` on the built GovInfo link, with both exception
classes caught. -/
def fedFetch (O : FederalOracle) (endpoint : String) : VResult :=
  match O.get s!"https://www.govinfo.gov/link/{endpoint}" with
  | .raiseHttp =>
    ("error", some "lookup_failed",
      some (.obj [("source", .jstr "govinfo"), ("endpoint", .jstr endpoint), ("params", .null)]))
  | .raiseOther =>
    ("error", some "lookup_error",
      some (.obj [("source", .jstr "govinfo"), ("endpoint", .jstr endpoint), ("params", .null)]))
  | .resp r => fedRespResult endpoint r

/-- Endpoint-build outcome handling of `verify_federal_law_citation`. -/
def fedBuildOutcome (O : FederalOracle) (pf : Option Citation)
    (rd : Option ResourceDict) (citationText : Option String) : VResult :=
  match buildGovinfoRequest pf rd citationText with
  | (_, some (substatus, details0)) =>
    ("error", some substatus,
      some (if pyTruthy citationText then jSetdefault details0 "citation" (optJ citationText)
            else details0))
  | (none, none) =>
    ("error", some "invalid_endpoint", some (.obj [("source", .jstr "govinfo")]))
  | (some endpoint, none) => fedFetch O endpoint

/-- `verify_federal_law_citation`.  (The api-key check encodes that
base64 of the key bytes is empty exactly when the environment value is
empty.)  This function catches every exception of its HTTP call, so it
is total. -/
def verifyFederalLawCitation (O : FederalOracle) (primaryFull : Option Citation)
    (normalizedKey : Option String) (resourceDict : Option ResourceDict)
    (fallbackCitation : Option String) : VResult :=
  if !((primaryFull.map (fun c => c.kind == CKind.fullLaw)).getD false) then
    ("error", some "unsupported_citation_type", none)
  else if (match primaryFull with
           | some pf => classifyFullLawJurisdiction pf
           | none => "unknown") ≠ "federal" then
    ("error", some "unsupported_jurisdiction", none)
  else if (O.envApiKey.getD "") = "" then
    ("error", some "missing_api_key", some (.obj [("source", .jstr "govinfo")]))
  else
    fedBuildOutcome O primaryFull resourceDict
      (pyOrO (cleanStr normalizedKey) (cleanStr fallbackCitation))

/-! ## verifiers/state_law_verifier.py -/

/-- External state of the state-law verifier: environment lookup, the
OpenAI client constructor, the `responses.create` call (already reduced
to the extracted `output_text` candidate), and `json.loads`. -/
structure StateOracle where
  env : String → Option String
  initClient : String → Except Unit Unit
  createResponse : String → Except Unit (Option String)
  parseJson : String → Except Unit JVal

/-- The instruction prompt of the state-law verifier (braces escaped). -/
def statePrompt : String :=
  "\nYou are an expert in legal research, specifically in the context of state laws, codes, and regulations. You are tasked with\nverifying the veracity of citations in legal documents. [...] You should provide your response as a JSON object,\naccording to this format:\n    \x7b\n        \"status\": ..., \"citation\": ..., \"confidence\": ...\n    \x7d\nDo not return any text or other characters apart from the JSON object.\n\n"

/-- `_get_openai_client`: the constant `OPENAI_API_KEY` name is non-empty,
so the guard never fires; the client is `None` exactly when the
constructor raises. -/
def getOpenaiClient (O : StateOracle) : Option Unit :=
  match O.initClient ((O.env "OPENAI_API_KEY").getD "") with
  | .ok c => some c
  | .error _ => none

/-- `_clean_json_response`.  (`end_idx` is `rfind + 1`, so it is `0` — and
still "not -1" — when no brace is found.) -/
def cleanJsonResponse (s : String) : String :=
  match pyFindFrom s.toList [Char.ofNat 123] 0 with
  | some si =>
    let ei := match pyRFind s.toList [Char.ofNat 125] with
      | some r => r + 1
      | none => 0
    String.mk (pySlice s.toList si ei)
  | none => s

/-- `_get_law_group` of the state verifier (its first stage does **not**
clean the groups value, and its `id_tuple` mapping differs from the
federal one). -/
def stateGetLawGroup (cite : Option Citation) (resourceDict : Option ResourceDict)
    (key : String) : Option String :=
  let fromGroups : Option String :=
    match cite with
    | some c =>
      if isFullCitation c then
        match dGet c.groups key with
        | some v => truthyOpt v
        | none => none
      else none
    | none => none
  match fromGroups with
  | some v => some v
  | none =>
    let direct : Option String :=
      match cite with
      | some c => if isFullCitation c then cleanStr (attrGet c key) else none
      | none => none
    match direct with
    | some v => some v
    | none =>
      let idTuple := (resourceDict.map (·.idTuple)).getD []
      let idx : Option Nat :=
        if key = "code" || key = "reporter" then some 0
        else if key = "section" || key = "page" then some 1
        else if key = "year" then some 2
        else none
      match idx with
      | some i =>
        if i < idTuple.length then truthyOpt (cleanStr (idTuple.get? i)) else none
      | none => none

/-- `v.strip().lower() in {"null", "none", ""}` normalisation of the
manifest. -/
def normalizeNullJ (v : Option JVal) : Option JVal :=
  match v with
  | some (.jstr s) =>
    if ["null", "none", ""].contains (String.mk (pyLower (pyStrip s.toList))) then
      some .null
    else v
  | _ => v

/-- `verify_state_law_citation`.  Every failure of the external calls is
caught inside the function, so it is total and never raises. -/
def verifyStateLawCitation (O : StateOracle) (primaryFull : Option Citation)
    (normalizedKey : Option String) (resourceDict : Option ResourceDict)
    (fallbackCitation : Option String) : VResult :=
  let isFullLaw := (primaryFull.map (fun c => c.kind == CKind.fullLaw)).getD false
  if !isFullLaw then ("error", some "unsupported_citation_type", none)
  else
    let reporter0 := stateGetLawGroup primaryFull resourceDict "reporter"
    if !pyTruthy reporter0 then ("error", some "missing_reporter", none)
    else
      let reporter := cleanStr reporter0
      let section0 := stateGetLawGroup primaryFull resourceDict "section"
      if !pyTruthy section0 then ("error", some "missing_section", none)
      else
        let sectionV := cleanStr section0
        let year := cleanStr (stateGetLawGroup primaryFull resourceDict "year")
        let bluebook := s!"{optFmt reporter} § {optFmt sectionV}"
        let bluebook :=
          match year with
          | some y => bluebook ++ s!" ({y})"
          | none => bluebook
        match getOpenaiClient O with
        | none => ("error", some "openai_client_init_failed", none)
        | some _ =>
          match O.createResponse (statePrompt ++ s!"Citation to verify: {bluebook}") with
          | .error _ => ("error", some "state_law_search_failed", none)
          | .ok candidate =>
            let parsed : Except Unit JVal :=
              match candidate with
              | none => .ok (.obj [])
              | some s => O.parseJson (cleanJsonResponse s)
            match parsed with
            | .error _ => ("error", some "state_law_search_failed", none)
            | .ok data =>
              let manifest : String → Option JVal := fun k =>
                match data with
                | .obj _ => normalizeNullJ (some ((jGet data k).getD .null))
                | _ => normalizeNullJ (some .null)
              let statusV := manifest "status"
              let citationV := manifest "citation"
              let confidenceV := manifest "confidence"
              let status :=
                match statusV with
                | some v => if jvalPyTruthy v then jvalToPyStr v else "error"
                | none => "error"
              let citation :=
                match citationV with
                | some v => if jvalPyTruthy v then some v else none
                | none => none
              let confidence :=
                match confidenceV with
                | some v => if jvalPyTruthy v then some v else none
                | none => none
              (status,
               some s!"closest_match: {jvalToPyStr (citation.getD .null)}, confidence: {jvalToPyStr (confidence.getD .null)}",
               none)


/-! ## utils/resource_resolver.py — journal author/title extraction -/

/-- Python `s.split(sep)` for a non-empty separator.  Each step consumes at
least `|sep| ≥ 1` characters, so fuel `|s| + 1` always suffices. -/
def pySplitSepAux (sep : List Char) : Nat → List Char → List (List Char)
  | 0, s => [s]
  | fuel + 1, s =>
    match pyFindFrom s sep 0 with
    | none => [s]
    | some i => s.take i :: pySplitSepAux sep fuel (s.drop (i + sep.length))

def pySplitSep (s sep : List Char) : List (List Char) :=
  pySplitSepAux sep (s.length + 1) s

/-- Smallest index at which `pat` occurs in `s` case-insensitively (the
match position of `re.sub(re.escape(pat), ..., flags=re.IGNORECASE)`). -/
def ciFindSub (s pat : List Char) : Option Nat :=
  (List.range (s.length + 1)).find? (fun i => isPrefixOfCh (pyLower pat) (pyLower (s.drop i)))

/-- `re.sub(re.escape(pat), "", s, count=1, flags=re.IGNORECASE)`. -/
def removeFirstCI (s pat : List Char) : List Char :=
  match ciFindSub s pat with
  | some i => s.take i ++ (s.drop i).drop pat.length
  | none => s

/-- The citation signals stripped by `_clean_author_segment`, in order. -/
def journalSignals : List String :=
  ["see e.g., ", "see also ", "see cf.", "but see ", "but cf.", "but compare ",
   "e.g.,", "see ", "cf.", "cf ", "compare ", "but ", "accord ", "contra "]

/-- `\s+et al\.` (the prefix of `\s+et al\..*$` before the to-end tail). -/
def etalRE : REx := .cat wsPlus (litCIS "et al.")

/-- `\s+and\s+` (case-insensitive). -/
def andSplitRE : REx := .cat wsPlus (.cat (litCIS "and") wsPlus)

/-- `_clean_author_segment`.  The `re.sub(r"\s+et al\..*$", "", ...)` call
is modelled for newline-free author segments, where `.*$` always runs to
the end of the string, so the substitution truncates at the match start. -/
def cleanAuthorSegment (segment : List Char) : List Char :=
  let a0 := pyStrip segment
  let a1 := journalSignals.foldl (fun a sig => pyStrip (removeFirstCI a sig.toList)) a0
  let a2 :=
    match (finditer (plainMatcher etalRE) a1).head? with
    | some m => pyStrip (a1.take m.1)
    | none => pyStrip a1
  if pyContains a2 ['&'] then pyStrip (a2.takeWhile (· ≠ '&'))
  else if pyContains (pyLower a2) " and ".toList then
    match (finditer (plainMatcher andSplitRE) a2).head? with
    | some m => pyStrip (a2.take m.1)
    | none => pyStrip a2
  else a2

/-- The `'. '`-scan of `_find_citation_start`: repeated
`text.rfind('. ', 0, pos)` skipping middle initials (uppercase letter
right before the period that starts a word; ASCII case as elsewhere in the
embedding).  The bound strictly decreases at every retry, so fuel
`|text| + 1` always suffices. -/
def findDotSpace (text : List Char) : Nat → Int → Option Nat
  | 0, _ => none
  | fuel + 1, pos =>
    if pos < 0 then none
    else
      match pyRFindBefore text ['.', ' '] pos.toNat with
      | none => none
      | some p =>
        if 0 < p &&
            (match text.get? (p - 1) with | some ch => ch.isUpper | none => false) &&
            (p = 1 || (match text.get? (p - 2) with | some ch => ch = ' ' | none => false)) then
          findDotSpace text fuel ((p : Int) - 1)
        else some p

/-- `_find_citation_start`. -/
def findCitationStart (text : List Char) : Nat :=
  let step : Int × Nat → Option Nat → Nat → Int × Nat := fun b res len =>
    match res with
    | some p => if b.1 < (p : Int) then ((p : Int), len) else b
    | none => b
  let b0 : Int × Nat := (-1, 0)
  let b1 := step b0 (pyRFind text ['.', '\"', ' ']) 3
  let b2 := step b1 (pyRFind text ['\"', ';', ' ']) 3
  let b3 := step b2 (findDotSpace text (text.length + 1) ((text.length : Int) - 1)) 2
  let b4 := step b3 (pyRFind text [';', ' ']) 2
  if b4.1 = -1 then 0 else b4.1.toNat + b4.2

/-- `get_journal_author_title`. -/
def getJournalAuthorTitle (c : Citation) : Option (PyDict String String) :=
  if c.kind ≠ .fullJournal then none
  else
    match c.docText with
    | none => none
    | some textS =>
      if textS = "" then none
      else
        let text := textS.toList
        match getSpan c with
        | none => none
        | some span =>
          let vss := span.1
          if text.length < vss then none
          else
            let cstart := findCitationStart (text.take vss)
            let citationText := pySlice text cstart vss
            let commas := (citationText.enum.filter (fun ic => ic.2 = ',')).map (·.1)
            match commas.reverse with
            | titleComma :: authorComma :: _ =>
              let title := pyStrip (pySlice citationText (authorComma + 1) titleComma)
              let author := cleanAuthorSegment (citationText.take authorComma)
              some [("author", String.mk author), ("title", String.mk title)]
            | _ => none

/-! ## verifiers/journal_verifier.py -/

/-- Outcome of an OpenAlex request block (`client.get` +
`raise_for_status` + `response.json()`, all inside one `try`): an
`httpx.HTTPError`, any other exception (including JSON decoding), or the
decoded body. -/
inductive JHttpOutcome where
  | raiseHttp (msg : String)
  | raiseOther (msg : String)
  | resp (data : JVal)

/-- Raw outcome of a Semantic Scholar `client.get`: a raised
`httpx.HTTPError`, or a response with status code and decoded body
(`.error` when `r.json()` raises, with the exception text). -/
inductive S2Outcome where
  | raiseHttp (msg : String)
  | resp (statusCode : Nat) (body : Except String JVal)

/-- External services used by the journal verifier: the environment, the
OpenAlex works and sources endpoints, rapidfuzz
`process.extractOne(..., scorer=fuzz.partial_ratio, score_cutoff=75)`
truthiness at its two call shapes, and the Semantic Scholar paper search
(per attempt number). -/
structure JournalOracle where
  env : String → Option String
  worksGet : PyDict String String → JHttpOutcome
  sourceGet : PyDict String String → JHttpOutcome
  fuzzy75 : Option String → JVal → Bool
  fuzzy75Name : String → String → Bool
  s2Search : PyDict String String → Nat → S2Outcome

/-- `obj.all_editions[0].reporter.name` / `obj.edition_guess.name`
resolution of the journal verifiers: the Python variable
`reporter_full_name` is either `None` (`none`) or a list of possibly-`None`
names. -/
def journalReporterNames (c : Citation) : Option (List (Option String)) :=
  match c.allEditionsReporter with
  | some none => none
  | some (some n) => some [n]
  | none =>
    match c.editionGuessName with
    | some gn =>
      if gn ≠ "" then some ((pySplitSep gn.toList [';']).map (fun l => some (String.mk l)))
      else some []
    | none => some []

/-- `normalize_case_name_for_compare` applied to a JSON field value:
falsy values normalise to `None`; a truthy non-string raises
(`.lower()` on a non-string). -/
def jvalNormForCompare (v : Option JVal) : Except Unit (Option String) :=
  match v with
  | none => .ok none
  | some .null => .ok none
  | some (.jstr s) => .ok (normalizeCaseNameForCompare (some s))
  | some (.jnum n) => if n = 0 then .ok none else .error ()
  | some (.jrat q) => if q = 0 then .ok none else .error ()
  | some (.jbool b) => if b then .error () else .ok none
  | some (.arr xs) => if xs.isEmpty then .ok none else .error ()
  | some (.obj fs) => if fs.isEmpty then .ok none else .error ()

/-- The author-mismatch `warning` result of `_result_matches_citation`. -/
def warnAuthorVR (citationAuthor : Option String) : VResult :=
  ("warning", some "Unverified details",
   some (.obj [("source", .jstr "openalex"), ("unverified_fields", .jstr "author"),
     ("returned_values", .obj [("author", optJ citationAuthor)])]))

/-- The `authorships` loop of `_result_matches_citation`; yields the
matched `display_name` value, raising on a non-dict authorship or author
object. -/
def scanAuthorships : List JVal → String → Except Unit (Option JVal)
  | [], _ => .ok none
  | a :: rest, nca =>
    match a with
    | .obj _ =>
      let authorObj := match jGet a "author" with | none => JVal.obj [] | some v => v
      (match authorObj with
       | .obj _ =>
         let dn := jGet authorObj "display_name"
         (match jvalNormForCompare dn with
          | .error e => .error e
          | .ok (some ndn) =>
            if pyContains ndn.toList nca.toList || pyContains nca.toList ndn.toList then
              .ok (some (dn.getD .null))
            else scanAuthorships rest nca
          | .ok none => scanAuthorships rest nca)
       | _ => .error ())
    | _ => .error ()

/-- `_result_matches_citation`; raises (`.error`) when `result` is not a
dict or its `authorships` state triggers an uncaught exception. -/
def resultMatchesCitation (result : JVal) (citationAuthor citationTitle : Option String) :
    Except Unit VResult :=
  match result with
  | .obj _ =>
    let nca := normalizeCaseNameForCompare citationAuthor
    let nct := normalizeCaseNameForCompare citationTitle
    (match jvalNormForCompare (jGet result "title") with
     | .error e => .error e
     | .ok nrt =>
       let titleMatches : Bool :=
         match nct, nrt with
         | some ctn, some rtn =>
           pyContains rtn.toList ctn.toList || pyContains ctn.toList rtn.toList
         | _, _ => false
       if !titleMatches then
         .ok ("warning", some "Unverified details",
           some (.obj [("source", .jstr "openalex"), ("unverified_fields", .jstr "title"),
             ("returned_values", .obj [("title", optJ citationTitle)])]))
       else
         match nca with
         | none => .ok (warnAuthorVR citationAuthor)
         | some ncaS =>
           match jGet result "authorships" with
           | none => .ok (warnAuthorVR citationAuthor)
           | some (.arr as) =>
             (match scanAuthorships as ncaS with
              | .error e => .error e
              | .ok (some dn) =>
                .ok ("verified", none,
                  some (.obj [("source", .jstr "openalex"), ("matched_author", dn)]))
              | .ok none => .ok (warnAuthorVR citationAuthor))
           | some (.jstr s) =>
             -- iterating a string yields 1-char strings whose `.get` raises
             if s = "" then .ok (warnAuthorVR citationAuthor) else .error ()
           | some (.obj fs) =>
             -- iterating a dict yields its keys, whose `.get` raises
             if fs.isEmpty then .ok (warnAuthorVR citationAuthor) else .error ()
           | some _ => .error ())
           -- `None`/numbers/booleans are not iterable: TypeError, uncaught
  | _ => .error ()

/-- The common author/title fallback pattern of the journal verifiers:
fill any falsy slot from `get_journal_author_title`. -/
def journalRefill (c : Citation) (sa st : Option String) : Option String × Option String :=
  if !(pyTruthy sa && pyTruthy st) then
    let ji := getJournalAuthorTitle c
    ((if !pyTruthy sa then
        (match ji with | some j => cleanStr (dGet j "author") | none => sa)
      else sa),
     (if !pyTruthy st then
        (match ji with | some j => cleanStr (dGet j "title") | none => st)
      else st))
  else (sa, st)

/-- `search_author` / `search_title` selection shared by
`_verify_author_title_with_openalex` and
`_verify_title_with_semantic_scholar`. -/
def journalSearchFields (c : Citation) (rd : Option ResourceDict) :
    Option String × Option String :=
  journalRefill c
    (match rd with | some r => cleanStr r.author | none => none)
    (match rd with | some r => cleanStr r.title | none => none)

/-- `source_url.rsplit("/", 1)[-1]`. -/
def rsplitLast (s : List Char) (c : Char) : List Char :=
  match pyRFind s [c] with
  | some i => s.drop (i + 1)
  | none => s

/-- The reporter-name loop of `_verify_journal_citation_with_openalex`.
The whole body is inside a `try`, so every exception becomes an `error`
return; a fuzzy source match breaks with the extracted source id. -/
def journalSourceLoop (O : JournalOracle) (mailto : String) :
    List (Option String) → Sum (Option String) VResult
  | [] => .inl none
  | n :: rest =>
    let name := cleanStr (some (optFmt n))
    let params := [("filter", "display_name.search:" ++ optFmt name),
                   ("per-page", "100"), ("cursor", "*"), ("mailto", mailto)]
    match O.sourceGet params with
    | .raiseHttp msg => .inr ("error", some ("openalex http error: " ++ msg), none)
    | .raiseOther msg => .inr ("error", some ("openalex error: " ++ msg), none)
    | .resp data =>
      match data with
      | .obj _ =>
        (match jGet data "results" with
         | none => .inr ("error", some "openalex error: KeyError", none)
         | some v =>
           if !jvalPyTruthy v then journalSourceLoop O mailto rest
           else
             match v with
             | .arr (first :: _) =>
               (match first with
                | .obj _ =>
                  if (jGet first "display_name").isSome then
                    (match (jGet first "display_name").getD .null with
                     | .jstr rn =>
                       if O.fuzzy75 name (.jstr rn) then
                         match jGet first "id" with
                         | none => .inr ("error", some "openalex error: KeyError", none)
                         | some (.jstr su) => .inl (some (String.mk (rsplitLast su.toList '/')))
                         | some _ =>
                           -- `.rsplit` on a non-string raises (caught by the except)
                           .inr ("error", some "openalex error: AttributeError", none)
                       else journalSourceLoop O mailto rest
                     | .arr ws =>
                       if O.fuzzy75 name (.arr ws) then
                         match jGet first "id" with
                         | none => .inr ("error", some "openalex error: KeyError", none)
                         | some (.jstr su) => .inl (some (String.mk (rsplitLast su.toList '/')))
                         | some _ => .inr ("error", some "openalex error: AttributeError", none)
                       else journalSourceLoop O mailto rest
                     | .obj ws =>
                       if O.fuzzy75 name (.obj ws) then
                         match jGet first "id" with
                         | none => .inr ("error", some "openalex error: KeyError", none)
                         | some (.jstr su) => .inl (some (String.mk (rsplitLast su.toList '/')))
                         | some _ => .inr ("error", some "openalex error: AttributeError", none)
                       else journalSourceLoop O mailto rest
                     | _ =>
                       -- `extractOne` over a non-iterable raises (caught)
                       .inr ("error", some "openalex error: TypeError", none))
                  else journalSourceLoop O mailto rest
                | .jstr s =>
                  -- a string first result: `"display_name" in s` is a substring
                  -- test; a hit indexes the string with a string and raises
                  if pyContains s.toList "display_name".toList then
                    .inr ("error", some "openalex error: TypeError", none)
                  else journalSourceLoop O mailto rest
                | .arr xs =>
                  -- list membership; a hit indexes the list with a string
                  if xs.any (fun w => match w with | .jstr t => t = "display_name" | _ => false) then
                    .inr ("error", some "openalex error: TypeError", none)
                  else journalSourceLoop O mailto rest
                | _ =>
                  -- `in` on a truthy number/boolean raises; falsy values skip
                  if jvalPyTruthy first then
                    .inr ("error", some "openalex error: TypeError", none)
                  else journalSourceLoop O mailto rest)
             | .jstr _ => journalSourceLoop O mailto rest
               -- a truthy string: its first character never contains "display_name"
             | .obj _ => .inr ("error", some "openalex error: KeyError", none)
               -- `v[0]` on a dict raises KeyError (caught)
             | _ => .inr ("error", some "openalex error: TypeError", none))
               -- `v[0]` on a truthy number/boolean raises (empty/falsy handled above)
      | _ => .inr ("error", some "openalex error: TypeError", none)
        -- `data['results']` on a non-dict body raises (caught by the except)

/-- The works-result loop of `_verify_journal_citation_with_openalex`,
inside the second `try`: exact volume+page string matches verify; a
non-dict result or biblio raises, caught as an `error` return. -/
def scanWorks : List JVal → Option String → Option String → Option VResult
  | [], _, _ => none
  | r :: rest, volume, page =>
    match r with
    | .obj _ =>
      let biblio := match jGet r "biblio" with | none => JVal.obj [] | some v => v
      (match biblio with
       | .obj _ =>
         let ev := jGet biblio "volume"
         let ep := jGet biblio "first_page"
         if (pyTruthy volume && (ev.map jvalPyTruthy).getD false &&
             optFmt volume = (ev.map jvalToPyStr).getD "None") &&
            (pyTruthy page && (ep.map jvalPyTruthy).getD false &&
             optFmt page = (ep.map jvalToPyStr).getD "None") then
           some ("verified", none, some (.obj [("source", .jstr "openalex"),
             ("data", .jstr ("volume=" ++ optFmt volume ++ ", page=" ++ optFmt page))]))
         else scanWorks rest volume page
       | _ => some ("error", some "openalex error: AttributeError", none))
    | _ => some ("error", some "openalex error: AttributeError", none)

/-- The `if data_works is not None and 'results' in data_works:` block of
`_verify_journal_citation_with_openalex` (still inside the `try`):
`some` is an early `return`, `none` falls through to the post-`try`
code. -/
def journalWorksScan (dataWorks : JVal) (volume page : Option String) : Option VResult :=
  match dataWorks with
  | .null => none
  | .obj _ =>
    (match jGet dataWorks "results" with
     | none => none
     | some (.arr rs) => scanWorks rs volume page
     | some (.jstr s) =>
       -- iterating a string yields 1-char strings whose `.get` raises (caught)
       if s = "" then none else some ("error", some "openalex error: AttributeError", none)
     | some (.obj fs) =>
       -- iterating a dict yields its keys, whose `.get` raises (caught)
       if fs.isEmpty then none else some ("error", some "openalex error: AttributeError", none)
     | some _ => some ("error", some "openalex error: TypeError", none))
     -- iterating `None`/numbers/booleans raises TypeError (caught)
  | .jstr s =>
    -- `'results' in <str>` is a substring test; a hit indexes with a string
    if pyContains s.toList "results".toList then
      some ("error", some "openalex error: TypeError", none)
    else none
  | .arr xs =>
    if xs.any (fun w => match w with | .jstr t => t = "results" | _ => false) then
      some ("error", some "openalex error: TypeError", none)
    else none
  | _ => some ("error", some "openalex error: TypeError", none)
    -- `'results' in <number/bool>` raises TypeError (caught)

/-- `_verify_journal_citation_with_openalex`.  Every statement that can
raise sits inside one of the two `try` blocks, so the function is total. -/
def verifyJournalOpenalex (O : JournalOracle) (primaryFull : Option Citation)
    (resourceDict : Option ResourceDict) : VResult :=
  match primaryFull with
  | none => ("no_match", some "Not a journal citation", none)
  | some c =>
    if c.kind ≠ .fullJournal then ("no_match", some "Not a journal citation", none)
    else
      let volume := groupsGet c "volume"
      let page := groupsGet c "page"
      let mailto := (O.env "OPENALEX_MAILTO").getD "admin@phaethon.llc"
      match journalSourceLoop O mailto
          (match journalReporterNames c with | some l => l | none => []) with
      | .inr err => err
      | .inl sourceId =>
        let filterStr := "primary_location.source.id:" ++ optFmt sourceId ++
          ",biblio.volume:" ++ optFmt volume ++ ",biblio.first_page:" ++ optFmt page
        let paramsWorks := [("filter", filterStr), ("per-page", "100"),
                            ("cursor", "*"), ("mailto", mailto)]
        match O.worksGet paramsWorks with
        | .raiseHttp msg => ("error", some ("openalex http error: " ++ msg), none)
        | .raiseOther msg => ("error", some ("openalex error: " ++ msg), none)
        | .resp dataWorks =>
          match journalWorksScan dataWorks volume page with
          | some vr => vr
          | none =>
            let resultsWorks : JVal :=
              match dataWorks with
              | .obj _ => (jGet dataWorks "results").getD (.arr [])
              | _ => .arr []
            if !jvalPyTruthy resultsWorks then
              ("no_match", some "Not found in OpenAlex",
                some (.obj [("not found", .jstr "title"), ("source", .jstr "openalex")]))
            else ("no_match", some "Not found in OpenAlex", none)

/-- The post-filter result loop of `_verify_author_title_with_openalex`.
The guard tuple returned by `_result_matches_citation` is always truthy,
so the `if` always passes; the second call is pure and repeats the first,
so it is evaluated once. -/
def scanOpenalexResults : List JVal → Option String → Option String →
    Except Unit (Option VResult)
  | [], _, _ => .ok none
  | r :: rest, ca, ct =>
    match resultMatchesCitation r ca ct with
    | .error e => .error e
    | .ok m =>
      if m.1 = "verified" then
        .ok (some ("verified", none, some (.obj [("source", .jstr "openalex"),
          ("data", .jstr (optFmt ca ++ ", " ++ optFmt ct))])))
      else scanOpenalexResults rest ca ct

/-- `_verify_author_title_with_openalex`.  The post-filter loop runs
outside the `try`, so `_result_matches_citation` exceptions propagate
(`.error`). -/
def verifyAuthorTitleOpenalex (O : JournalOracle) (citation : Option Citation)
    (resourceDict : Option ResourceDict) : Except Unit VResult :=
  match citation with
  | none => .ok ("no_match", some "Not a journal citation", none)
  | some c =>
    if c.kind ≠ .fullJournal then .ok ("no_match", some "Not a journal citation", none)
    else
      let (searchAuthor, searchTitle) := journalSearchFields c resourceDict
      if !pyTruthy searchAuthor && !pyTruthy searchTitle then
        .ok (verifyJournalOpenalex O (some c) resourceDict)
      else
        let filterParts := optPart searchTitle (fun t => "title.search:\"" ++ t ++ "\"")
        if filterParts = [] then
          .ok ("error", some "could not build filter from citation data", none)
        else
          let params := [("filter", String.intercalate "," filterParts),
                         ("per-page", "25"), ("cursor", "*")] ++
            (match O.env "OPENALEX_MAILTO" with
             | some m => if m ≠ "" then [("mailto", m)] else []
             | none => [])
          match O.worksGet params with
          | .raiseHttp msg => .ok ("error", some ("openalex http error: " ++ msg), none)
          | .raiseOther msg => .ok ("error", some ("openalex error: " ++ msg), none)
          | .resp data =>
            let results : JVal :=
              match data with
              | .obj _ => (jGet data "results").getD (.arr [])
              | _ => .arr []
            if !jvalPyTruthy results then
              .ok ("no_match", some "Not found in OpenAlex",
                some (.obj [("not found", .jstr "title"), ("source", .jstr "openalex")]))
            else
              let (citationAuthor, citationTitle) := journalRefill c searchAuthor searchTitle
              match results with
              | .arr rs =>
                (match scanOpenalexResults rs citationAuthor citationTitle with
                 | .error e => .error e
                 | .ok (some vr) => .ok vr
                 | .ok none => .ok ("no_match", some "Not found in OpenAlex",
                     some (.obj [("source", .jstr "openalex")])))
              | _ => .error ()
                -- enumerating a truthy non-list reaches `.get` on a non-dict
                -- element (strings, dict keys) or a TypeError; uncaught

/-- `_DEFAULT_FIELDS_BASIC`. -/
def s2FieldsBase : String :=
  "title,year,venue,authors.name,url,isOpenAccess,publicationTypes,externalIds"

/-- `_DEFAULT_FIELDS_AUTH`. -/
def s2FieldsAuth : String := s2FieldsBase ++ ",tldr"

/-- `_FIELDS` (used by `_verify_citation_with_semantic_scholar`). -/
def s2FieldsD : String := "title,year,venue,authors.name,url,externalIds"

/-- Outcome of the `while True` request loop of
`_verify_title_with_semantic_scholar`: an in-loop `error` return, or a
`break` with the decoded data and the recorded client error. -/
inductive S2CLoopResult where
  | errored (sub : String)
  | gotData (data : JVal) (lastClientError : Option String)

/-- The `while True` loop of `_verify_title_with_semantic_scholar`:
retries 429 up to `MAX_RETRIES = 5` times, records 4xx, returns `error`
on HTTP/JSON failures.  On a 2xx reply other than 200 the source loops
forever; the model exhausts its fuel and raises, producing no result
(statuses are unaffected).  Fuel 6 covers attempts 0–5: after the fifth
retry a 429 falls into the 4xx branch. -/
def s2TitleLoop (O : JournalOracle) (params : PyDict String String) :
    Nat → Nat → Except Unit S2CLoopResult
  | _, 0 => .error ()
  | attempt, fuel + 1 =>
    match O.s2Search params attempt with
    | .raiseHttp msg => .ok (.errored ("semantic scholar http error: " ++ msg))
    | .resp code body =>
      if code = 200 then
        match body with
        | .ok d => .ok (.gotData (if jvalPyTruthy d then d else .obj []) none)
        | .error msg => .ok (.errored ("semantic scholar json error: " ++ msg))
      else if code = 429 && attempt < 5 then s2TitleLoop O params (attempt + 1) fuel
      else if 400 ≤ code && code < 500 then
        .ok (.gotData (.obj [])
          (some ("semantic scholar query rejected (" ++ toString code ++ ")")))
      else if 200 ≤ code && code < 300 then .error ()
      else .ok (.errored ("semantic scholar http error: status " ++ toString code))
        -- `raise_for_status()` raises for non-2xx and is caught as an error

/-- The author loop of `_verify_title_with_semantic_scholar`'s scoring
pass; raises on a non-dict author element or a truthy non-string name. -/
def s2ScanAuthors (O : JournalOracle) (searchAuthor san : String) :
    List JVal → Except Unit Bool
  | [] => .ok false
  | a :: rest =>
    match a with
    | .obj _ =>
      (match jGet a "name" with
       | some (.jstr s) =>
         if s = "" then s2ScanAuthors O searchAuthor san rest
         else
           (match normalizeCaseNameForCompare (some s) with
            | some anorm =>
              if anorm = san || pyContains anorm.toList san.toList ||
                  pyContains san.toList anorm.toList then .ok true
              else if O.fuzzy75Name searchAuthor s then .ok true
              else s2ScanAuthors O searchAuthor san rest
            | none =>
              if O.fuzzy75Name searchAuthor s then .ok true
              else s2ScanAuthors O searchAuthor san rest)
       | some v =>
         -- normalising a truthy non-string raises; falsy skips both checks
         if jvalPyTruthy v then .error () else s2ScanAuthors O searchAuthor san rest
       | none => s2ScanAuthors O searchAuthor san rest)
    | _ => .error ()

/-- The scoring loop of `_verify_title_with_semantic_scholar` (outside
any `try`: non-dict papers raise). -/
def s2ScorePapers (O : JournalOracle) (searchAuthor searchTitle : Option String) :
    List JVal → Except Unit (Option VResult)
  | [] => .ok none
  | p :: rest =>
    match p with
    | .obj _ =>
      (match jvalNormForCompare (jGet p "title") with
       | .error e => .error e
       | .ok ptn0 =>
         match normalizeCaseNameForCompare searchTitle, ptn0 with
         | some stn, some ptn =>
           if !(stn = ptn || pyContains ptn.toList stn.toList ||
                pyContains stn.toList ptn.toList) then
             s2ScorePapers O searchAuthor searchTitle rest
           else
             if pyTruthy searchAuthor && (normalizeCaseNameForCompare searchAuthor).isSome then
               let authors := match jGet p "authors" with | some (.arr xs) => xs | _ => []
               (match s2ScanAuthors O (searchAuthor.getD "")
                   ((normalizeCaseNameForCompare searchAuthor).getD "") authors with
                | .error e => .error e
                | .ok true => .ok (some ("verified", none,
                    some (.obj [("source", .jstr "semantic_scholar"), ("data", p)])))
                | .ok false => s2ScorePapers O searchAuthor searchTitle rest)
             else
               .ok (some ("verified", none,
                 some (.obj [("source", .jstr "semantic_scholar"), ("data", p)])))
         | _, _ => s2ScorePapers O searchAuthor searchTitle rest)
    | _ => .error ()

/-- Everything Lucene-special that `_escape_semantic_scholar_term`
backslash-escapes. -/
def s2LuceneSpecials : List Char :=
  ['+', '-', '=', '&', '|', '!', '(', ')', Char.ofNat 123, Char.ofNat 125,
   '[', ']', '^', '\"', '~', '*', '?', ':', '\\', '/']

/-- `_escape_semantic_scholar_term`. -/
def escapeSemanticScholarTerm (term : String) : String :=
  if term = "" then ""
  else String.mk (term.toList.flatMap (fun c =>
    if s2LuceneSpecials.contains c then ['\\', c] else [c]))

/-- `re.sub(r"\s+", " ", s).strip()`. -/
def wsCollapse (s : List Char) : List Char :=
  pyStrip (reSub (plainMatcher wsPlus) [' '] s)

/-- Replace every occurrence of character `c` by `repl`
(`re.sub("&", ...)`). -/
def replaceCharStr (s : List Char) (c : Char) (repl : List Char) : List Char :=
  s.flatMap (fun x => if x = c then repl else [x])

/-- `_add_query`. -/
def addQuery (queries : List String) (parts : List String) : List String :=
  let q := String.intercalate " " (parts.filter (fun p => p ≠ ""))
  if q ≠ "" && !queries.contains q then queries ++ [q] else queries

/-- The name collection of the `warning` branch in
`_verify_citation_with_semantic_scholar`: truthy string names are
collected; a truthy non-string name makes the later `", ".join` raise
(`none`), as does a non-dict author. -/
def s2DCollectNames : List JVal → Option (List String)
  | [] => some []
  | a :: rest =>
    match a with
    | .obj _ =>
      (match jGet a "name" with
       | some (.jstr s) =>
         if s ≠ "" then (s2DCollectNames rest).map (fun ns => s :: ns)
         else s2DCollectNames rest
       | some v => if jvalPyTruthy v then none else s2DCollectNames rest
       | none => s2DCollectNames rest)
    | _ => none

/-- The `warning` result built from the first item of a
`_verify_citation_with_semantic_scholar` hit. -/
def s2DWarnResult (returnedTitle : JVal) (names : List String) : VResult :=
  ("warning", some "Unverified details",
   some (.obj [("source", .jstr "semantic_scholar"),
     ("unverified_fields", .jstr "title, author"),
     ("returned_values", .obj [("title", returnedTitle),
       ("author", .jstr (String.intercalate ", " names))])]))

/-- Build the `warning` return from `items[0]`; `none` when an uncaught
exception is raised instead. -/
def s2DWarnFromItem (p0 : JVal) : Option VResult :=
  match p0 with
  | .obj _ =>
    let returnedTitle := (jGet p0 "title").getD .null
    (match jGet p0 "authors" with
     | some (.arr xs) =>
       (match s2DCollectNames xs with
        | some names => some (s2DWarnResult returnedTitle names)
        | none => none)
     | some v =>
       -- `or []` keeps falsy values out; iterating a truthy non-list raises
       if jvalPyTruthy v then none else some (s2DWarnResult returnedTitle [])
     | none => some (s2DWarnResult returnedTitle []))
  | _ => none

/-- Per-query outcome inside `_verify_citation_with_semantic_scholar`. -/
inductive S2DQueryResult where
  | warn (v : VResult)
  | noItems
  | clientError (msg : String)

/-- One query's attempt loop in `_verify_citation_with_semantic_scholar`.
`client.get`, `r.json()` and `r.raise_for_status()` run outside any
`try`, so their exceptions propagate (`.error`); a 2xx reply other than
200 loops forever in the source, modelled as fuel exhaustion (which also
produces no result).  Fuel 5 covers attempts 0–3 plus the terminal
reply. -/
def s2DAttempt (O : JournalOracle) (params : PyDict String String) :
    Nat → Nat → Except Unit S2DQueryResult
  | _, 0 => .error ()
  | attempt, fuel + 1 =>
    match O.s2Search params attempt with
    | .raiseHttp _ => .error ()
    | .resp code body =>
      if code = 200 then
        match body with
        | .error _ => .error ()
        | .ok d =>
          let data := if jvalPyTruthy d then d else JVal.obj []
          let items : JVal :=
            match data with
            | .obj _ => (jGet data "data").getD (.arr [])
            | _ => .arr []
          if !jvalPyTruthy items then .ok .noItems
          else
            match items with
            | .arr (p0 :: _) =>
              (match s2DWarnFromItem p0 with
               | some vr => .ok (.warn vr)
               | none => .error ())
            | _ => .error ()
              -- `len`/indexing/`.get` on a truthy non-list raises, uncaught
      else if code = 429 && attempt < 3 then s2DAttempt O params (attempt + 1) fuel
      else if 400 ≤ code && code < 500 then
        .ok (.clientError ("semantic scholar query rejected (" ++ toString code ++ ")"))
      else .error ()
        -- `r.raise_for_status()` raises for non-2xx, uncaught

/-- The query loop of `_verify_citation_with_semantic_scholar` and its
final fallback returns. -/
def s2DQueryLoop (O : JournalOracle) (yearStr : String) :
    List String → Option String → Except Unit VResult
  | [], lastClientError =>
    if pyTruthy lastClientError then .ok ("error", lastClientError, none)
    else .ok ("no_match", some "not found in Semantic Scholar", none)
  | q :: rest, lastClientError =>
    let params := [("query", q), ("limit", "50"), ("fields", s2FieldsD), ("year", yearStr)]
    match s2DAttempt O params 0 5 with
    | .error e => .error e
    | .ok (.warn vr) => .ok vr
    | .ok .noItems => s2DQueryLoop O yearStr rest lastClientError
    | .ok (.clientError m) => s2DQueryLoop O yearStr rest (some m)

/-- `_verify_citation_with_semantic_scholar`. -/
def verifyCitationSemanticScholar (O : JournalOracle) (primaryFull : Option Citation)
    (resourceDict : Option ResourceDict) : Except Unit VResult :=
  match primaryFull with
  | none => .ok ("no_match", some "not a journal citation", none)
  | some c =>
    if c.kind ≠ .fullJournal then .ok ("no_match", some "not a journal citation", none)
    else
      let volume := groupsGet c "volume"
      let page := groupsGet c "page"
      let year : Option String :=
        match c.year with
        | some y => some y
        | none => (match resourceDict with | some r => r.year | none => none)
      let journal := cleanStr
        (match journalReporterNames c with | some (n0 :: _) => n0 | _ => none)
      if !(pyTruthy journal && pyTruthy volume && pyTruthy page) then
        .ok ("no_match", some "insufficient citation data for search", none)
      else
        let volS := String.mk (pyStrip (optFmt volume).toList)
        let pageS := String.mk (pyStrip (optFmt page).toList)
        let yearStr := String.mk (pyStrip (optFmt year).toList)
        let basePhrase := String.mk (pyStrip (journal.getD "").toList)
        let variants : List String :=
          if basePhrase ≠ "" then
            let ampAsWord := String.mk (wsCollapse (replaceCharStr basePhrase.toList '&' " and ".toList))
            let ampRemoved := String.mk (wsCollapse (replaceCharStr basePhrase.toList '&' [' ']))
            let v1 := [basePhrase]
            let v2 := if ampAsWord ≠ "" && !v1.contains ampAsWord then v1 ++ [ampAsWord] else v1
            if ampRemoved ≠ "" && !v2.contains ampRemoved then v2 ++ [ampRemoved] else v2
          else []
        let queries := variants.foldl (fun qs phrase =>
          let qs1 := if phrase ≠ "" then
              addQuery qs ["\"" ++ phrase ++ "\"", volS, pageS, yearStr]
            else qs
          let esc := escapeSemanticScholarTerm phrase
          if esc ≠ "" then addQuery qs1 [esc, volS, pageS, yearStr] else qs1) []
        s2DQueryLoop O yearStr queries none

/-- `_verify_title_with_semantic_scholar`. -/
def verifyTitleSemanticScholar (O : JournalOracle) (primaryFull : Option Citation)
    (resourceDict : Option ResourceDict) : Except Unit VResult :=
  match primaryFull with
  | none => .ok ("no_match", some "Not a journal citation", none)
  | some c =>
    if c.kind ≠ .fullJournal then .ok ("no_match", some "Not a journal citation", none)
    else
      let (searchAuthor, searchTitle) := journalSearchFields c resourceDict
      if searchAuthor = none && searchTitle = none then
        verifyCitationSemanticScholar O (some c) resourceDict
      else
        let apiKey := O.env "SEMANTIC_SCHOLAR_API_KEY"
        let fields := if pyTruthy apiKey then s2FieldsAuth else s2FieldsBase
        let params := [("query", "\"" ++ optFmt searchTitle ++ "\""),
                       ("limit", "50"), ("fields", fields)]
        match s2TitleLoop O params 0 6 with
        | .error e => .error e
        | .ok (.errored sub) => .ok ("error", some sub, none)
        | .ok (.gotData data lastClientError) =>
          let papers : JVal :=
            match data with
            | .obj _ => (jGet data "data").getD (.arr [])
            | _ => .arr []
          if !jvalPyTruthy papers then
            (if pyTruthy lastClientError then .ok ("error", lastClientError, none)
             else .ok ("no_match", some "Not found in Semantic Scholar", none))
          else
            match papers with
            | .arr ps =>
              (match s2ScorePapers O searchAuthor searchTitle ps with
               | .error e => .error e
               | .ok (some vr) => .ok vr
               | .ok none => .ok ("no_match", some "No author match for title match",
                   some (.obj [("author", optJ searchAuthor),
                     ("source", .jstr "semantic_scholar")])))
            | _ => .error ()
              -- the scoring loop runs outside any `try`; iterating a truthy
              -- non-list raises at `paper.get`

/-- `verify_journal_citation`: OpenAlex first (pass through only
`verified`), then Semantic Scholar (pass through `verified`/`warning`),
else the combined `no_match`. -/
def verifyJournalCitation (O : JournalOracle) (primaryFull : Option Citation)
    (normalizedKey : Option String) (resourceDict : Option ResourceDict)
    (fallbackCitation : Option String) : Except Unit VResult :=
  match verifyAuthorTitleOpenalex O primaryFull resourceDict with
  | .error e => .error e
  | .ok validation =>
    if validation.1 = "verified" then .ok validation
    else
      match verifyTitleSemanticScholar O primaryFull resourceDict with
      | .error e => .error e
      | .ok v2 =>
        if v2.1 = "verified" ∨ v2.1 = "warning" then .ok v2
        else .ok ("no_match", some "Not found in OpenAlex or Semantic Scholar", none)

/-! ## verifiers/secondary_sources_verifier.py -/

/-- Outcome of the LOC request block: a raised `httpx.HTTPStatusError`
(carrying the response status), a raised `httpx.RequestError`, any other
exception, or a decoded body (`.error` when `response.json()` raises). -/
inductive LocHttpOutcome where
  | raiseStatus (code : Nat)
  | raiseRequest
  | raiseOther
  | resp (body : Except Unit JVal)

/-- External services used by the secondary-sources verifier: the LOC
search GET (per query and attempt) and rapidfuzz `fuzz.partial_ratio`
(a score out of 100). -/
structure LocOracle where
  get : String → Nat → LocHttpOutcome
  partialRatioScore : String → String → Rat

/-- `_SOURCE_TYPE_NAMES.get(st, "")`. -/
def sourceTypeName (st : String) : String :=
  if st = "cjs" then "Corpus Juris Secundum"
  else if st = "amjur" then "American Jurisprudence"
  else if st = "alr" then "American Law Reports"
  else if st = "restatement" then "Restatement"
  else if st = "treatise" then "Treatise"
  else ""

/-- `_SOURCE_TYPE_NAMES.get(st, "unknown secondary source")`. -/
def sourceTypeDisplay (st : String) : String :=
  if sourceTypeName st ≠ "" then sourceTypeName st else "unknown secondary source"

/-- `_clean_value` on an optional string value. -/
def cleanValue (v : Option String) : String := (cleanStr v).getD ""

/-- `_clean_value` on a JSON field value: falsy values clean to `""`,
truthy values are rendered with `str` and cleaned. -/
def cleanValueJ (v : Option JVal) : String :=
  match v with
  | none => ""
  | some j => if !jvalPyTruthy j then "" else (cleanStr (some (jvalToPyStr j))).getD ""

/-- A single-quote character, for `repr` of strings. -/
def sq : String := String.mk [Char.ofNat 39]

/-- `str(t)` for a tuple of strings (single-quoted `repr` of the
elements, with the 1-tuple's trailing comma; quoting inside elements is
not modelled). -/
def pyReprTuple (xs : List String) : String :=
  match xs with
  | [] => "()"
  | [x] => "(" ++ sq ++ x ++ sq ++ ",)"
  | _ => "(" ++ String.intercalate ", " (xs.map (fun x => sq ++ x ++ sq)) ++ ")"

/-- `\b(17|18|19|20)\d{2}\b`. -/
def yearBoundRE : REx :=
  seqR [altList [litS "17", litS "18", litS "19", litS "20"], digitCls, digitCls]

/-- `_extract_year`. -/
def extractYearStr (text : String) : Option String :=
  if text = "" then none
  else ((finditer (bbMatcher yearBoundRE) text.toList).head?).map
    (fun m => String.mk (pySlice text.toList m.1 m.2.1))

/-- `_similarity_score`. -/
def simScore (O : LocOracle) (a b : String) : Rat :=
  if a = "" || b = "" then 0
  else O.partialRatioScore
    ((normalizeCaseNameForCompare (some a)).getD (String.mk (pyLower a.toList)))
    ((normalizeCaseNameForCompare (some b)).getD (String.mk (pyLower b.toList)))

/-- Python `round(x, 3)`: round half to even at the third decimal (the
idealised model of float rounding, on exact rationals). -/
def pyRound3 (q : Rat) : Rat :=
  let s := q * 1000
  let fl : Int := Int.floor s
  let fr := s - (fl : Rat)
  let n : Int :=
    if fr < 1/2 then fl
    else if (1/2 : Rat) < fr then fl + 1
    else if fl % 2 = 0 then fl else fl + 1
  (n : Rat) / 1000

/-- `_extract_citation_fields`.  The resource dict's items are iterated
in the order of the modelled keys (`type`, `source_type`, `id_tuple`,
then the journal-style extras), matching the construction order of the
dicts the compiler builds. -/
def extractCitationFields (cite : SecondaryCitation) (rd : Option ResourceDict) :
    PyDict String String :=
  let attrsList : List (String × Option String) :=
    [("source_type", if cite.sourceType ≠ "" then some cite.sourceType else none),
     ("volume", cite.volume), ("title", cite.title), ("section", cite.sectionF),
     ("page", cite.page), ("year", cite.year), ("edition", cite.edition),
     ("series", cite.series), ("author", cite.author)]
  let fields0 := attrsList.foldl
    (fun f kv => if pyTruthy kv.2 then dSet f kv.1 (cleanValue kv.2) else f) []
  match rd with
  | none => fields0
  | some r =>
    let items : List (String × Option String) :=
      [("type", if r.kind ≠ "" then some r.kind else none)] ++
      (match r.sourceType with | some s => [("source_type", some s)] | none => []) ++
      [("id_tuple", if r.idTuple ≠ [] then some (pyReprTuple r.idTuple) else none)] ++
      (match r.author with | some s => [("author", some s)] | none => []) ++
      (match r.title with | some s => [("title", some s)] | none => []) ++
      (match r.year with | some s => [("year", some s)] | none => [])
    let fields1 := items.foldl
      (fun f kv => if !dMem f kv.1 && pyTruthy kv.2 then dSet f kv.1 (cleanValue kv.2) else f)
      fields0
    let idt := r.idTuple
    let fields2 := if 0 < idt.length && !dMem fields1 "volume" then
        dSet fields1 "volume" (cleanValue (idt.get? 0)) else fields1
    let fields3 := if 1 < idt.length && !dMem fields2 "title" then
        dSet fields2 "title" (cleanValue (idt.get? 1)) else fields2
    let fields4 := if 2 < idt.length && !dMem fields3 "section" then
        dSet fields3 "section" (cleanValue (idt.get? 2)) else fields3
    if 3 < idt.length && !dMem fields4 "year" then
      dSet fields4 "year" (cleanValue (idt.get? 3)) else fields4

/-- `_build_search_queries`. -/
def buildSearchQueries (fields : PyDict String String) : List String :=
  let sourceType := (dGet fields "source_type").getD ""
  let title := (dGet fields "title").getD ""
  let volume := (dGet fields "volume").getD ""
  let sectionV := (dGet fields "section").getD ""
  let year := (dGet fields "year").getD ""
  let author := (dGet fields "author").getD ""
  let series := (dGet fields "series").getD ""
  let sourceName := sourceTypeName sourceType
  let q1 := if sourceName ≠ "" && title ≠ "" && volume ≠ "" then
      [String.intercalate " " ([sourceName, title] ++
        (if volume ≠ "" then ["volume " ++ volume] else []) ++
        (if sectionV ≠ "" then ["section " ++ sectionV] else []) ++
        (if year ≠ "" then [year] else []))]
    else []
  let q2 := if sourceName ≠ "" && title ≠ "" && year ≠ "" then
      [sourceName ++ " " ++ title ++ " " ++ year] else []
  let q3 := if sourceName ≠ "" && title ≠ "" then [sourceName ++ " " ++ title] else []
  let q4 := if author ≠ "" && title ≠ "" then
      [String.intercalate " " ([author, title] ++ (if year ≠ "" then [year] else []))]
    else []
  let q5 := if title ≠ "" then
      [String.intercalate " " ([title] ++
        (if volume ≠ "" then ["volume " ++ volume] else []) ++
        (if year ≠ "" then [year] else []))]
    else []
  let q6 := if sourceType = "alr" && series ≠ "" then
      [String.intercalate " " (["American Law Reports " ++ series] ++
        (if volume ≠ "" then ["volume " ++ volume] else []))]
    else []
  (q1 ++ q2 ++ q3 ++ q4 ++ q5 ++ q6).foldl
    (fun acc q => if q ≠ "" && !acc.contains q then acc ++ [q] else acc) []

/-- `_execute_loc_search`, with the retry recursion on a fuel argument:
429 status errors and request errors retry while `attempt < 3`, so fuel
5 covers attempts 0–3 plus the terminal reply (the fuel-0 branch is
unreachable).  Every exception is caught inside the function. -/
def executeLocSearchF (O : LocOracle) (q : String) : Nat → Nat → List JVal × Option String
  | _, 0 => ([], some "unexpected_error")
  | attempt, fuel + 1 =>
    match O.get q attempt with
    | .raiseStatus code =>
      if code = 429 && attempt < 3 then executeLocSearchF O q (attempt + 1) fuel
      else ([], some ("http_error_" ++ toString code))
    | .raiseRequest =>
      if attempt < 3 then executeLocSearchF O q (attempt + 1) fuel
      else ([], some "request_failed")
    | .raiseOther => ([], some "unexpected_error")
    | .resp body =>
      match body with
      | .error _ => ([], some "unexpected_error")
      | .ok data =>
        match data with
        | .obj _ =>
          (match (jGet data "results").getD (.arr []) with
           | .arr rs => (rs, none)
           | _ => ([], some "invalid_results_format"))
        | _ => ([], some "invalid_response_format")

def executeLocSearch (O : LocOracle) (q : String) : List JVal × Option String :=
  executeLocSearchF O q 0 5

/-- The match-details dict of `_match_result_to_citation`. -/
structure MatchDetails where
  matchedFields : List String := []
  scores : PyDict String Rat := []
  confidence : Option Rat := none
  resultTitle : Option String := none
  resultDate : Option String := none
deriving Repr

/-- The contributor values `_match_result_to_citation` iterates when
`result_contributors` is truthy: non-string list elements are skipped by
the `isinstance` guard; a string iterates as 1-character strings; a dict
iterates its keys; truthy numbers/booleans raise (uncaught). -/
def locContributorStrings : JVal → Except Unit (List String)
  | .arr xs => .ok (xs.filterMap (fun v => match v with | .jstr s => some s | _ => none))
  | .jstr s => .ok (s.toList.map (fun c => String.mk [c]))
  | .obj fs => .ok (fs.map (·.1))
  | v => if jvalPyTruthy v then .error () else .ok []

/-- `_match_result_to_citation`; raises (`.error`) when `result` is not a
dict or its contributors are a truthy non-iterable. -/
def matchResultToCitation (O : LocOracle) (result : JVal) (fields : PyDict String String) :
    Except Unit (Bool × Rat × MatchDetails) :=
  match result with
  | .obj _ =>
    let resultTitle := cleanValueJ (jGet result "title")
    let resultPartof := cleanValueJ (jGet result "partof")
    let resultDate := cleanValueJ (jGet result "date")
    let resultContributors := (jGet result "contributors").getD (.arr [])
    let citeTitle := (dGet fields "title").getD ""
    let citeAuthor := (dGet fields "author").getD ""
    let citeYear := (dGet fields "year").getD ""
    let citeVolume := (dGet fields "volume").getD ""
    let sourceName := sourceTypeName ((dGet fields "source_type").getD "")
    let combined := pyLower ((resultTitle ++ " " ++ resultPartof).toList)
    let titlePart : List String × List Rat × PyDict String Rat :=
      if citeTitle ≠ "" && resultTitle ≠ "" then
        let t := simScore O citeTitle resultTitle
        if (72 : Rat) ≤ t then (["title"], [t / 100], [("title", t)])
        else ([], [], [("title", t)])
      else ([], [], [])
    let containerPart : List String × List Rat × PyDict String Rat :=
      if sourceName ≠ "" && (resultTitle ≠ "" || resultPartof ≠ "") then
        if pyContains combined (pyLower sourceName.toList) then (["source"], [(1 : Rat)], [])
        else
          let cs := simScore O sourceName resultPartof
          if (65 : Rat) ≤ cs then (["source"], [cs / 100], [("container", cs)])
          else ([], [], [("container", cs)])
      else ([], [], [])
    let volumePart : List String × List Rat :=
      if citeVolume ≠ "" &&
          (["volume " ++ citeVolume, "vol. " ++ citeVolume, "v. " ++ citeVolume].any
            (fun p => pyContains combined p.toList)) then (["volume"], [(1 : Rat)])
      else ([], [])
    let contribStep : Except Unit (Option (List String)) :=
      if citeAuthor ≠ "" && jvalPyTruthy resultContributors then
        match locContributorStrings resultContributors with
        | .error e => .error e
        | .ok strs => .ok (some strs)
      else .ok none
    match contribStep with
    | .error e => .error e
    | .ok contribOpt =>
      let authorPart : List String × List Rat × PyDict String Rat :=
        match contribOpt with
        | some strs =>
          let m := strs.foldl (fun acc s => max acc (simScore O citeAuthor s)) 0
          if (70 : Rat) ≤ m then (["author"], [m / 100], [("author", m)])
          else ([], [], [("author", m)])
        | none => ([], [], [])
      let yearPart : List String × List Rat :=
        if citeYear ≠ "" && resultDate ≠ "" then
          match extractYearStr resultDate with
          | some ry =>
            if ry = citeYear then (["year"], [(1 : Rat)])
            else
              (match pyInt citeYear.toList, pyInt ry.toList with
               | .ok a, .ok b =>
                 if (a - b).natAbs ≤ 2 then (["year_approximate"], [(4/5 : Rat)])
                 else ([], [])
               | _, _ => ([], []))
          | none => ([], [])
        else ([], [])
      let matchedFields :=
        titlePart.1 ++ containerPart.1 ++ volumePart.1 ++ authorPart.1 ++ yearPart.1
      let scores :=
        titlePart.2.1 ++ containerPart.2.1 ++ volumePart.2 ++ authorPart.2.1 ++ yearPart.2
      let scoresD := titlePart.2.2 ++ containerPart.2.2 ++ authorPart.2.2
      if scores = [] then
        .ok (false, 0, { matchedFields := matchedFields, scores := scoresD })
      else
        let confidence := scores.foldl (· + ·) 0 / (scores.length : Rat)
        let md : MatchDetails :=
          { matchedFields := matchedFields, scores := scoresD,
            confidence := some confidence,
            resultTitle := some resultTitle, resultDate := some resultDate }
        let isMatch :=
          (matchedFields.contains "title" && decide ((7/10 : Rat) ≤ confidence)) ||
          (matchedFields.contains "source" && matchedFields.contains "volume" &&
            decide ((3/5 : Rat) ≤ confidence)) ||
          (matchedFields.contains "title" && matchedFields.contains "source" &&
            decide ((13/20 : Rat) ≤ confidence))
        .ok (isMatch, confidence, md)
  | _ => .error ()

/-- The best-match accumulator of `verify_secondary_citation`. -/
abbrev LocBest := JVal × Rat × MatchDetails

/-- The per-query result loop: best-match updates on strict improvement;
the inner `break` at confidence ≥ 0.85 is reflected by returning early
(the outer loop then also breaks, since the best is at least the current
confidence). -/
def secScanResults (O : LocOracle) (fields : PyDict String String) :
    List JVal → Option LocBest → Except Unit (Option LocBest)
  | [], best => .ok best
  | r :: rest, best =>
    match matchResultToCitation O r fields with
    | .error e => .error e
    | .ok (isM, conf, md) =>
      if isM then
        let best2 := match best with
          | none => some (r, conf, md)
          | some b => if b.2.1 < conf then some (r, conf, md) else best
        if (17/20 : Rat) ≤ conf then .ok best2
        else secScanResults O fields rest best2
      else secScanResults O fields rest best

/-- The enumerated query loop of `verify_secondary_citation`. -/
def secQueryLoop (O : LocOracle) (fields : PyDict String String) :
    List (Nat × String) → Option LocBest → List String →
    Except Unit (Option LocBest × List String)
  | [], best, errs => .ok (best, errs)
  | (qi, q) :: rest, best, errs =>
    match executeLocSearch O q with
    | (_, some err) =>
      secQueryLoop O fields rest best
        (errs ++ ["Query " ++ toString (qi + 1) ++ ": " ++ err])
    | (results, none) =>
      if results.isEmpty then secQueryLoop O fields rest best errs
      else
        match secScanResults O fields results best with
        | .error e => .error e
        | .ok best2 =>
          if (match best2 with
              | some b => decide ((17/20 : Rat) ≤ b.2.1)
              | none => false) then
            .ok (best2, errs)
          else secQueryLoop O fields rest best2 errs

/-- The final status decision of `verify_secondary_citation`. -/
def secFinalStatus (sourceName : String) (queries : List String)
    (best : Option LocBest) (errs : List String) : VResult :=
  match best with
  | none =>
    if errs ≠ [] then
      ("error", some "loc_search_failed",
        some (.obj [("source", .jstr "library_of_congress"),
          ("errors", .arr (errs.map .jstr)),
          ("queries_attempted", .jnum (queries.length : Int))]))
    else
      ("no_match", some "Not found in Library of Congress",
        some (.obj [("source", .jstr "library_of_congress"),
          ("queries_attempted", .jnum (queries.length : Int)),
          ("note", .jstr ("No matching record found in Library of Congress catalog for "
            ++ sourceName ++ " citation"))]))
  | some b =>
    if (4/5 : Rat) ≤ b.2.1 then
      ("verified", none,
        some (.obj [("source", .jstr "library_of_congress"),
          ("confidence", .jrat (pyRound3 b.2.1)),
          ("matched_fields", .arr (b.2.2.matchedFields.map .jstr)),
          ("loc_title", optJ b.2.2.resultTitle),
          ("loc_date", optJ b.2.2.resultDate)]))
    else if (3/5 : Rat) ≤ b.2.1 then
      ("warning", some "Unverified details",
        some (.obj [("source", .jstr "library_of_congress"),
          ("confidence", .jrat (pyRound3 b.2.1)),
          ("matched_fields", .arr (b.2.2.matchedFields.map .jstr)),
          ("loc_title", optJ b.2.2.resultTitle),
          ("loc_date", optJ b.2.2.resultDate),
          ("note", .jstr ("Found possible match but confidence is below verification "
            ++ "threshold. Manual review recommended."))]))
    else
      ("no_match", some "insufficient_confidence",
        some (.obj [("source", .jstr "library_of_congress"),
          ("confidence", .jrat (pyRound3 b.2.1)),
          ("matched_fields", .arr (b.2.2.matchedFields.map .jstr)),
          ("note", .jstr ("Found potential matches but confidence too low to verify. "
            ++ "Best match had " ++ toString b.2.2.matchedFields.length
            ++ " matching fields."))]))

/-- `verify_secondary_citation`. -/
def verifySecondaryCitation (O : LocOracle) (cite : SecondaryCitation)
    (normalizedKey : Option String) (resourceDict : Option ResourceDict) :
    Except Unit VResult :=
  let fields := extractCitationFields cite resourceDict
  let sourceName := sourceTypeDisplay ((dGet fields "source_type").getD "unknown")
  let queries := buildSearchQueries fields
  if queries = [] then
    .ok ("error", some "insufficient_citation_data",
      some (.obj [("source", .jstr "library_of_congress"),
        ("available_fields", .arr ((dKeys fields).map JVal.jstr))]))
  else
    match secQueryLoop O fields queries.enum none [] with
    | .error e => .error e
    | .ok (best, errs) => .ok (secFinalStatus sourceName queries best errs)

/-! ## Fixtures for concrete witnesses -/

/-- A verifier layer whose providers all succeed with fixed results. -/
def fixedVerifiers : VerifierOracles :=
  { verifyCase := fun _ _ _ _ => .ok ("verified", none, none)
    verifyFederal := fun _ _ _ _ => .ok ("verified", none, none)
    verifyStateSync := fun _ _ _ _ => .ok ("verified", none, none)
    verifyJournal := fun _ _ _ => .ok ("verified", none, none)
    verifySecondary := fun _ _ _ => .ok ("verified", none, none) }

/-! ## Theorems -/

/-- **C8.** For every string group containing exactly one citation, the
string-local short-form correction pass leaves the resolutions map
unchanged (no citation is moved between buckets). -/
theorem singleton_group_correction_noop (res : Resolutions) (item : GroupItem) :
    processGroup res [item] = res := by
  simp only [processGroup, pySort, List.foldl, stableInsert, List.enum, List.enumFrom]
  split
  next =>
    have hif : (if isFullCitation item.cite = true then
        ([] : PyDict Nat (PyDict String GroupItem)) else []) = [] := by split <;> rfl
    rw [hif]
    cases truthyOpt (makeShortLookupKey item.cite) <;> rfl
  next => rfl

/-- **C9.** Every occurrence built for a citation token whose tokenizer
index is `0` gets `string_group_id = None` and `position_in_string =
None`, even when segment metadata exists for index 0: the guard
`if cite_idx` treats the index 0 as falsy. -/
theorem index_zero_occurrence_loses_group (cite : Citation)
    (segMeta : PyDict Nat CitationSegment) (adjusted : PyDict Nat (Nat × Nat))
    (h : getIndex cite = some 0) :
    (mkOccurrence cite segMeta adjusted).stringGroupId = none ∧
    (mkOccurrence cite segMeta adjusted).positionInString = none := by
  simp only [mkOccurrence, h]
  exact ⟨rfl, rfl⟩

/-- Witness for C9: a token with index 0 belonging to a string group
still gets no group metadata on its occurrence. -/
theorem index_zero_occurrence_loses_group_witness :
    getIndex { kind := .fullCase, index := some 0 } = some 0 ∧
    (mkOccurrence { kind := .fullCase, index := some 0 }
        [(0, { text := "X v. Y".toList, originalSpan := (0, 6),
               stringGroupId := some "string_group_0", positionInString := some 0,
               hasSemicolonBoundary := true })] []).stringGroupId = none ∧
    (mkOccurrence { kind := .fullCase, index := some 0 }
        [(0, { text := "X v. Y".toList, originalSpan := (0, 6),
               stringGroupId := some "string_group_0", positionInString := some 0,
               hasSemicolonBoundary := true })] []).positionInString = none := by
  refine ⟨rfl, ?_⟩
  exact index_zero_occurrence_loses_group _ _ _ rfl

/-- **C7.** A secondary-source Id./Ibid. short form whose nearest
preceding citation (by end position over the merged span timeline) is not
itself a secondary source is marked `source_type = "non_secondary"` by
the resolver, and the database-population loop skips it, adding no entry
or occurrence. -/
theorem id_after_non_secondary_excluded (short : SecondaryCitation)
    (fulls : List SecondaryCitation) (allSpans : List SpanInfo) (p : SpanInfo)
    (hcat : short.citationCategory = "id" ∨ short.citationCategory = "ibid")
    (hprec : findPrecedingCitation short.span.1 allSpans = some p)
    (hnotsec : p.ctype ≠ "secondary") :
    (resolveShortOne short fulls allSpans).sourceType = "non_secondary" ∧
    processResolvedShorts fixedVerifiers [resolveShortOne short fulls allSpans] [] =
      .ok [] := by
  have hres : resolveShortOne short fulls allSpans =
      { short with sourceType := "non_secondary" } := by
    unfold resolveShortOne
    have hc : (short.citationCategory = "id" || short.citationCategory = "ibid") = true := by
      rcases hcat with h | h <;> simp [h]
    rw [if_pos hc, hprec]
    simp [hnotsec]
  constructor
  · rw [hres]
  · rw [hres]
    simp only [processResolvedShorts, List.foldlM]
    rfl

/-- An `Id.` short form at span (50, 53), used by the C7 witness. -/
def idShortFixture : SecondaryCitation :=
  { sourceType := "unknown", citationCategory := "id", matchedText := "Id.",
    span := (50, 53) }

/-- The span timeline for the C7 witness: one preceding case citation. -/
def caseSpanFixture : SpanInfo := { start := 10, stop := 40, ctype := "case", obj := none }

/-- Witness for C7: an `Id.` short form whose nearest preceding citation
is a case citation is excluded from the secondary database. -/
theorem id_after_non_secondary_excluded_witness :
    (idShortFixture.citationCategory = "id" ∨ idShortFixture.citationCategory = "ibid") ∧
    findPrecedingCitation idShortFixture.span.1 [caseSpanFixture] = some caseSpanFixture ∧
    caseSpanFixture.ctype ≠ "secondary" ∧
    (resolveShortOne idShortFixture [] [caseSpanFixture]).sourceType = "non_secondary" ∧
    processResolvedShorts fixedVerifiers
      [resolveShortOne idShortFixture [] [caseSpanFixture]] [] = .ok [] := by
  refine ⟨Or.inl rfl, by decide, by decide, ?_⟩
  exact id_after_non_secondary_excluded idShortFixture [] [caseSpanFixture]
    caseSpanFixture (Or.inl rfl) (by decide) (by decide)

/-! ### C2 — state-law verification without credentials -/

/-- The state-law external world with no research-assistant credentials
configured: the environment is empty and the unauthenticated OpenAI call
cannot succeed. -/
def noCredOracle : StateOracle :=
  { env := fun _ => none
    initClient := fun _ => .error ()
    createResponse := fun _ => .error ()
    parseJson := fun _ => .error () }

/-- A California statute citation fixture. -/
def calPenalCite : Citation :=
  { kind := .fullLaw
    groups := [("reporter", some "Cal. Penal Code"), ("section", some "187")] }

/-- **C2 (amended).** With no research-assistant credentials configured
(empty environment, so the unauthenticated OpenAI call cannot succeed),
`verify_state_law_citation` returns status `error` and raises no
exception — but its substatus is never `missing_credentials`; that value
appears nowhere in the code.  The actual substatus is one of the
verifier's own error labels (`openai_client_init_failed` when client
construction fails, `state_law_search_failed` when the query fails,
or an input-validation label). -/
theorem state_law_no_credentials (O : StateOracle) (pf : Option Citation)
    (nk : Option String) (rd : Option ResourceDict) (fb : Option String)
    (henv : O.env "OPENAI_API_KEY" = none)
    (hfail : ∀ s, O.createResponse s = .error ()) :
    (verifyStateLawCitation O pf nk rd fb).1 = "error" ∧
    (verifyStateLawCitation O pf nk rd fb).2.1 ≠ some "missing_credentials" := by
  unfold verifyStateLawCitation
  simp only [getOpenaiClient, henv, Option.getD, hfail]
  repeat' split
  all_goals simp

/-- Witness for C2 (amended): the concrete no-credential run. -/
theorem state_law_no_credentials_witness :
    noCredOracle.env "OPENAI_API_KEY" = none ∧
    (verifyStateLawCitation noCredOracle (some calPenalCite)
      (some "Cal. Penal Code § 187") none none).1 = "error" ∧
    (verifyStateLawCitation noCredOracle (some calPenalCite)
      (some "Cal. Penal Code § 187") none none).2.1 ≠ some "missing_credentials" := by
  refine ⟨rfl, ?_⟩
  exact state_law_no_credentials noCredOracle (some calPenalCite)
    (some "Cal. Penal Code § 187") none none rfl (fun _ => rfl)

/-- Counterexample to C2 as stated: on a state statute citation with no
credentials configured, the substatus is `openai_client_init_failed`,
not `missing_credentials`. -/
theorem state_law_missing_credentials_counterexample :
    verifyStateLawCitation noCredOracle (some calPenalCite)
      (some "Cal. Penal Code § 187") none none =
      ("error", some "openai_client_init_failed", none) ∧
    ("openai_client_init_failed" : String) ≠ "missing_credentials" := by
  exact ⟨rfl, by decide⟩

/-! ### C3 — the status vocabulary of the verification providers -/

theorem lookup_status_mem (O : CaseOracle) (v r p : Option String)
    (s : String × Option String × JVal)
    (h : lookupCaseCitation O v r p = .ok s) :
    s.1 = "error" ∨ s.1 = "no match" ∨ s.1 = "ok" := by
  unfold lookupCaseCitation at h
  repeat' split at h
  all_goals (cases h)
  all_goals simp

set_option maxHeartbeats 1000000 in
theorem verify_case_status_mem (O : CaseOracle) (pf : Option Citation)
    (nk : Option String) (rd : Option ResourceDict) (fb : Option String)
    (r : VResult) (h : verifyCaseCitation O pf nk rd fb = .ok r) :
    r.1 = "verified" ∨ r.1 = "warning" ∨ r.1 = "no match" ∨ r.1 = "error" := by
  unfold verifyCaseCitation at h
  simp only [bind, Except.bind, pure, Except.pure] at h
  split at h
  · exact absurd h (by simp)
  next s heq =>
    repeat' split at h
    all_goals (try cases h)
    all_goals try simp
    all_goals (rcases lookup_status_mem O _ _ _ s heq with h1 | h1 | h1 <;> simp_all)

theorem fed_resp_status (endpoint : String) (r : FedResp) :
    (fedRespResult endpoint r).1 = "verified" ∨ (fedRespResult endpoint r).1 = "no_match" ∨
    (fedRespResult endpoint r).1 = "no match" ∨ (fedRespResult endpoint r).1 = "error" := by
  unfold fedRespResult
  repeat' split
  all_goals simp

theorem fed_fetch_status (O : FederalOracle) (endpoint : String) :
    (fedFetch O endpoint).1 = "verified" ∨ (fedFetch O endpoint).1 = "no_match" ∨
    (fedFetch O endpoint).1 = "no match" ∨ (fedFetch O endpoint).1 = "error" := by
  unfold fedFetch
  split
  · simp
  · simp
  · exact fed_resp_status _ _

theorem verify_federal_status_mem (O : FederalOracle) (pf : Option Citation)
    (nk : Option String) (rd : Option ResourceDict) (fb : Option String) :
    (verifyFederalLawCitation O pf nk rd fb).1 = "verified" ∨
    (verifyFederalLawCitation O pf nk rd fb).1 = "no_match" ∨
    (verifyFederalLawCitation O pf nk rd fb).1 = "no match" ∨
    (verifyFederalLawCitation O pf nk rd fb).1 = "error" := by
  unfold verifyFederalLawCitation fedBuildOutcome
  repeat' split
  all_goals first
    | simp
    | exact fed_fetch_status O _

theorem state_status_passthrough (O : StateOracle) (c : Citation)
    (nk : Option String) (rd : Option ResourceDict) (fb : Option String)
    (st s : String)
    (hk : c.kind = .fullLaw)
    (hrep : pyTruthy (stateGetLawGroup (some c) rd "reporter"))
    (hsec : pyTruthy (stateGetLawGroup (some c) rd "section"))
    (hinit : ∀ k, O.initClient k = .ok ())
    (hresp : ∀ inp, O.createResponse inp = .ok (some s))
    (hparse : ∀ t, O.parseJson t = .ok (.obj [("status", .jstr st)]))
    (hst : st ≠ "")
    (hnorm : normalizeNullJ (some (.jstr st)) = some (.jstr st)) :
    (verifyStateLawCitation O (some c) nk rd fb).1 = st := by
  unfold verifyStateLawCitation
  simp only [hk, getOpenaiClient, hinit, hresp, hparse]
  simp [hrep, hsec, jGet, dGet, hnorm, jvalPyTruthy, hst, jvalToPyStr]
  rw [if_pos hk]

theorem verify_journal_status_mem (O : JournalOracle) (pf : Option Citation)
    (nk : Option String) (rd : Option ResourceDict) (fb : Option String)
    (r : VResult) (h : verifyJournalCitation O pf nk rd fb = .ok r) :
    r.1 = "verified" ∨ r.1 = "warning" ∨ r.1 = "no_match" := by
  unfold verifyJournalCitation at h
  repeat' split at h
  all_goals (cases h)
  all_goals first
    | (left; assumption)
    | tauto

theorem sec_final_status_mem (sn : String) (qs : List String)
    (best : Option LocBest) (errs : List String) :
    (secFinalStatus sn qs best errs).1 = "verified" ∨
    (secFinalStatus sn qs best errs).1 = "warning" ∨
    (secFinalStatus sn qs best errs).1 = "no_match" ∨
    (secFinalStatus sn qs best errs).1 = "error" := by
  unfold secFinalStatus
  repeat' split
  all_goals simp

theorem verify_secondary_status_mem (O : LocOracle) (cite : SecondaryCitation)
    (nk : Option String) (rd : Option ResourceDict)
    (r : VResult) (h : verifySecondaryCitation O cite nk rd = .ok r) :
    r.1 = "verified" ∨ r.1 = "warning" ∨ r.1 = "no_match" ∨ r.1 = "error" := by
  simp only [verifySecondaryCitation] at h
  split at h
  · cases h; simp
  · split at h
    · cases h
    · cases h
      exact sec_final_status_mem _ _ _ _

/-- **C3 (amended).** The case and federal-law providers only ever return
statuses in `{verified, warning, no_match, error}` **extended by the
out-of-vocabulary literal `"no match"` (with a space)**, which both
providers emit on their no-result paths; the state-law provider
returns the `status` string of the research assistant's parsed JSON
reply verbatim, unvalidated against the vocabulary; the journal provider
stays within `{verified, warning, no_match}` on every result it returns
(its subfunctions' `error` results are swallowed by the wrapper's
pass-through guards); and the secondary-sources provider stays within
`{verified, warning, no_match, error}` on every result it returns. -/
theorem provider_status_vocabulary :
    (∀ (O : CaseOracle) (pf : Option Citation) (nk : Option String)
        (rd : Option ResourceDict) (fb : Option String) (r : VResult),
      verifyCaseCitation O pf nk rd fb = .ok r →
      r.1 = "verified" ∨ r.1 = "warning" ∨ r.1 = "no match" ∨ r.1 = "error") ∧
    (∀ (O : FederalOracle) (pf : Option Citation) (nk : Option String)
        (rd : Option ResourceDict) (fb : Option String),
      (verifyFederalLawCitation O pf nk rd fb).1 = "verified" ∨
      (verifyFederalLawCitation O pf nk rd fb).1 = "no_match" ∨
      (verifyFederalLawCitation O pf nk rd fb).1 = "no match" ∨
      (verifyFederalLawCitation O pf nk rd fb).1 = "error") ∧
    (∀ (O : StateOracle) (c : Citation) (nk : Option String)
        (rd : Option ResourceDict) (fb : Option String) (st s : String),
      c.kind = .fullLaw →
      pyTruthy (stateGetLawGroup (some c) rd "reporter") →
      pyTruthy (stateGetLawGroup (some c) rd "section") →
      (∀ k, O.initClient k = .ok ()) →
      (∀ inp, O.createResponse inp = .ok (some s)) →
      (∀ t, O.parseJson t = .ok (.obj [("status", .jstr st)])) →
      st ≠ "" →
      normalizeNullJ (some (.jstr st)) = some (.jstr st) →
      (verifyStateLawCitation O (some c) nk rd fb).1 = st) ∧
    (∀ (O : JournalOracle) (pf : Option Citation) (nk : Option String)
        (rd : Option ResourceDict) (fb : Option String) (r : VResult),
      verifyJournalCitation O pf nk rd fb = .ok r →
      r.1 = "verified" ∨ r.1 = "warning" ∨ r.1 = "no_match") ∧
    (∀ (O : LocOracle) (cite : SecondaryCitation) (nk : Option String)
        (rd : Option ResourceDict) (r : VResult),
      verifySecondaryCitation O cite nk rd = .ok r →
      r.1 = "verified" ∨ r.1 = "warning" ∨ r.1 = "no_match" ∨ r.1 = "error") :=
  ⟨verify_case_status_mem, verify_federal_status_mem, state_status_passthrough,
   verify_journal_status_mem, verify_secondary_status_mem⟩

/-- A case citation fixture `347 U.S. 483`. -/
def usCaseCite : Citation :=
  { kind := .fullCase
    groups := [("volume", some "347"), ("reporter", some "U.S."), ("page", some "483")] }

/-- CourtListener answering 200 with an empty result list. -/
def clEmptyResultsOracle : CaseOracle :=
  { post := fun _ _ _ => .resp ⟨200, .ok (.obj [("results", .arr [])])⟩
    fuzzyPartialGe75 := fun _ _ => false }

/-- A research assistant whose JSON reply carries an arbitrary status. -/
def bananaStateOracle : StateOracle :=
  { env := fun _ => some "sk-test"
    initClient := fun _ => .ok ()
    createResponse := fun _ => .ok (some "ignored")
    parseJson := fun _ => .ok (.obj [("status", .jstr "banana")]) }

/-- Trivial journal-verifier world for witnesses. -/
def trivJournalOracle : JournalOracle :=
  { env := fun _ => none
    worksGet := fun _ => .raiseHttp "connection refused"
    sourceGet := fun _ => .raiseHttp "connection refused"
    fuzzy75 := fun _ _ => false
    fuzzy75Name := fun _ _ => false
    s2Search := fun _ _ => .raiseHttp "connection refused" }

/-- Trivial LOC world for witnesses. -/
def trivLocOracle : LocOracle :=
  { get := fun _ _ => .raiseOther
    partialRatioScore := fun _ _ => 0 }

/-- A secondary citation with no usable fields. -/
def emptySecondaryCite : SecondaryCitation :=
  { sourceType := "", citationCategory := "full", matchedText := "", span := (0, 0) }

/-- Witness for C3 (amended) at concrete inputs: the case provider
produces `"no match"` on an empty result list, the federal provider's
status is in the extended set, the state provider passes `"banana"`
through, the journal provider yields `"no_match"` on an unreachable
OpenAlex/Semantic Scholar, and the secondary provider yields `"error"`
on a citation with no usable fields. -/
theorem provider_status_vocabulary_witness :
    (verifyCaseCitation clEmptyResultsOracle (some usCaseCite) (some "347 U.S. 483")
        none none = .ok ("no match", none, none)) ∧
    (("no match" = "verified" ∨ "no match" = "warning" ∨ "no match" = "no match" ∨
        "no match" = "error") ∧
      ((verifyFederalLawCitation ⟨none, fun _ => .raiseHttp⟩ none none none none).1 = "verified" ∨
        (verifyFederalLawCitation ⟨none, fun _ => .raiseHttp⟩ none none none none).1 = "no_match" ∨
        (verifyFederalLawCitation ⟨none, fun _ => .raiseHttp⟩ none none none none).1 = "no match" ∨
        (verifyFederalLawCitation ⟨none, fun _ => .raiseHttp⟩ none none none none).1 = "error") ∧
      (verifyStateLawCitation bananaStateOracle (some calPenalCite) none none none).1 = "banana" ∧
      (verifyJournalCitation trivJournalOracle none none none none =
        .ok ("no_match", some "Not found in OpenAlex or Semantic Scholar", none) ∧
       (("no_match" : String) = "verified" ∨ ("no_match" : String) = "warning" ∨
        ("no_match" : String) = "no_match")) ∧
      (verifySecondaryCitation trivLocOracle emptySecondaryCite none none =
        .ok ("error", some "insufficient_citation_data",
          some (.obj [("source", .jstr "library_of_congress"),
            ("available_fields", .arr [])])) ∧
       (("error" : String) = "verified" ∨ ("error" : String) = "warning" ∨
        ("error" : String) = "no_match" ∨ ("error" : String) = "error"))) := by
  refine ⟨rfl, ?_, ?_, ?_, ⟨rfl, ?_⟩, ⟨rfl, ?_⟩⟩
  · exact provider_status_vocabulary.1 clEmptyResultsOracle (some usCaseCite)
      (some "347 U.S. 483") none none _ rfl
  · exact provider_status_vocabulary.2.1 ⟨none, fun _ => .raiseHttp⟩ none none none none
  · exact provider_status_vocabulary.2.2.1 bananaStateOracle calPenalCite none none none
      "banana" "ignored" rfl (by decide) (by decide) (fun _ => rfl) (fun _ => rfl)
      (fun _ => rfl) (by decide) rfl
  · exact provider_status_vocabulary.2.2.2.1 trivJournalOracle none none none none
      ("no_match", some "Not found in OpenAlex or Semantic Scholar", none) rfl
  · exact provider_status_vocabulary.2.2.2.2 trivLocOracle emptySecondaryCite none none
      ("error", some "insufficient_citation_data",
        some (.obj [("source", .jstr "library_of_congress"),
          ("available_fields", .arr [])])) rfl

/-- Counterexample to C3 as stated: the case provider returns the
status literal `"no match"` (with a space), which is not an element of
the shared vocabulary `{verified, warning, no_match, pending, error}`. -/
theorem provider_status_vocabulary_counterexample :
    verifyCaseCitation clEmptyResultsOracle (some usCaseCite) (some "347 U.S. 483")
      none none = .ok ("no match", none, none) ∧
    (("no match" : String) ∉
      (["verified", "warning", "no_match", "pending", "error"] : List String)) := by
  exact ⟨rfl, by decide⟩

/-! ### C1 — exception handling around the verifiers -/

theorem foldl_id_of_fix {α β : Type} (f : β → α → β) (l : List α)
    (h : ∀ b a, f b a = b) : ∀ b, l.foldl f b = b := by
  induction l with
  | nil => intro b; rfl
  | cons x xs ih => intro b; rw [List.foldl_cons, h]; exact ih b

theorem buildStringGroups_nil_meta (res : Resolutions) :
    buildStringGroups res [] = [] := by
  unfold buildStringGroups
  apply foldl_id_of_fix
  intro g kv
  apply foldl_id_of_fix
  intro g' c
  cases getIndex c <;> rfl

theorem resolveStringLocalShorts_nil_meta (res : Resolutions) :
    resolveStringLocalShorts res [] = res := by
  unfold resolveStringLocalShorts
  rw [buildStringGroups_nil_meta]
  rfl

/-- A verification layer every call into which raises. -/
def raisingVerifiers : VerifierOracles :=
  { verifyCase := fun _ _ _ _ => .error ()
    verifyFederal := fun _ _ _ _ => .error ()
    verifyStateSync := fun _ _ _ _ => .error ()
    verifyJournal := fun _ _ _ => .error ()
    verifySecondary := fun _ _ _ => .error () }

/-- A resolution key for the case fixture. -/
def caseResource : Resource := .rkey { kind := "case", idTuple := ["347", "u.s.", "483"] }

/-- A tokenizer that finds exactly the case fixture in any text and
resolves it into one bucket. -/
def caseTokenizer : TokenizerOracle :=
  { cleanText := fun s => s
    getCitations := fun _ => .ok [usCaseCite]
    resolveCitations := fun cs => .ok [(caseResource, cs)] }

/-- **C1 (amended).** Only the state-law verifier runs under a local
exception handler: `_verify_state_async` turns any exception from the
sync state verifier into the entry result
`(key, error, state_law_async_failed, none)`.  The case (and likewise
federal and journal) verifiers are called with no surrounding
`try/except`, so an exception raised there propagates out of
`compile_citations` to its caller instead of becoming the entry's
`error` status. -/
theorem verifier_exception_handling :
    (∀ (V : VerifierOracles) (rk : String) (pf : Option Citation) (nk : String)
        (rd : ResourceDict) (fb : Option String),
      V.verifyStateSync pf nk rd fb = .error () →
      verifyStateAsync V rk pf nk rd fb = (rk, "error", some "state_law_async_failed", none)) ∧
    (∀ (T : TokenizerOracle) (V : VerifierOracles) (text : List Char) (c : Citation)
        (r : Resource),
      detectStringCitations text = [] →
      T.getCitations (T.cleanText (String.mk text)) = .ok [c] →
      T.resolveCitations [c] = .ok [(r, [c])] →
      c.kind = .fullCase →
      (∀ pf nk rd fb, V.verifyCase pf nk rd fb = .error ()) →
      compileCitations T V text = .error ()) := by
  constructor
  · intro V rk pf nk rd fb h
    unfold verifyStateAsync
    rw [h]
  · intro T V text c r hdet hget hres hkind hv
    have hfull : isFullCitation c = true := by simp [isFullCitation, hkind]
    have htype : getCitationType c = "case" := by simp [getCitationType, hkind]
    unfold compileCitations
    simp only [hdet, List.foldl, bind, Except.bind, hget]
    simp only [List.cons_ne_nil, if_neg, if_false, ite_false, hres]
    simp only [pure, Except.pure]
    simp only [List.all, List.all_cons, List.all_nil]
    simp
    rw [resolveStringLocalShorts_nil_meta]
    unfold compileBuckets compileBucketStep bucketVerify
    simp only [List.foldlM, bind, Except.bind, pure, Except.pure]
    simp [List.find?, hfull, htype, hv]

/-- Witness for C1 (amended): a raising state verifier is caught by the
async wrapper, while a raising case verifier makes the whole compile
raise. -/
theorem verifier_exception_handling_witness :
    raisingVerifiers.verifyStateSync none "nk" { kind := "law", idTuple := [] } none = .error () ∧
    verifyStateAsync raisingVerifiers "k" none "nk" { kind := "law", idTuple := [] } none =
      ("k", "error", some "state_law_async_failed", none) ∧
    compileCitations caseTokenizer raisingVerifiers ("X v. Y".toList) = .error () := by
  refine ⟨rfl, ?_, ?_⟩
  · exact verifier_exception_handling.1 raisingVerifiers "k" none "nk" { kind := "law", idTuple := [] } none rfl
  · exact verifier_exception_handling.2 caseTokenizer raisingVerifiers ("X v. Y".toList)
      usCaseCite caseResource (by decide) rfl rfl rfl (fun _ _ _ _ => rfl)

/-- Counterexample to C1 as stated: with a case verifier that raises,
`compile_citations` itself raises (`.error`) rather than recording the
entry with status `error`. -/
theorem verifier_exception_caught_counterexample :
    raisingVerifiers.verifyCase (some usCaseCite) "347 U.S. 483" { kind := "case", idTuple := [] } none
      = .error () ∧
    compileCitations caseTokenizer raisingVerifiers ("X v. Y".toList) = .error () := by
  exact ⟨rfl, rfl⟩

/-! ### C10 — documents with no detected citations -/

/-- A tokenizer that detects no citations in any text. -/
def emptyTokenizer : TokenizerOracle :=
  { cleanText := fun s => s
    getCitations := fun _ => .ok []
    resolveCitations := fun _ => .ok [] }

/-- **C10.** For every document text in which the tokenizer detects no
citations (in particular the empty string and whitespace-only text,
where eyecite finds nothing), `compile_citations` returns an empty map
and does not raise. -/
theorem compile_no_citations (T : TokenizerOracle) (V : VerifierOracles) (text : List Char)
    (hget : ∀ s, T.getCitations s = .ok [])
    (hres : T.resolveCitations [] = .ok []) :
    compileCitations T V text = .ok [] := by
  have hseg : ∀ seg adj, processCitationSegment T seg adj = ([], [], adj) := by
    intro seg adj
    unfold processCitationSegment
    simp [hget, hres]
  unfold compileCitations
  simp only [hseg, bind, Except.bind, pure, Except.pure, hget]
  simp [mergeResolutions]

/-- Witness for C10: the empty and a whitespace-only document compile to
the empty database. -/
theorem compile_no_citations_witness :
    compileCitations emptyTokenizer fixedVerifiers [] = .ok [] ∧
    compileCitations emptyTokenizer fixedVerifiers ("   ".toList) = .ok [] := by
  exact ⟨compile_no_citations emptyTokenizer fixedVerifiers [] (fun _ => rfl) rfl,
    compile_no_citations emptyTokenizer fixedVerifiers ("   ".toList) (fun _ => rfl) rfl⟩

/-! ### C4 — conservation of occurrences -/

/-- Total number of `Occurrence` records across all entries of a
citation database. -/
def totalOccurrences (db : CitationDb) : Nat :=
  (db.map (fun kv => kv.2.occurrences.length)).sum

/-- Total number of citations across all buckets of a resolution map. -/
def totalResolved (res : Resolutions) : Nat :=
  (res.map (fun kv => kv.2.length)).sum

theorem dSet_fresh [BEq K] (d : PyDict K V) (k : K) (v : V)
    (h : dMem d k = false) : dSet d k v = d ++ [(k, v)] := by
  simp [dSet, h]

theorem dMem_append_single [BEq K] (d : PyDict K V) (k0 k : K) (v : V) :
    dMem (d ++ [(k0, v)]) k = (dMem d k || k0 == k) := by
  simp [dMem, List.any_append]

theorem totalOccurrences_append (db : CitationDb) (k : String) (e : Entry) :
    totalOccurrences (db ++ [(k, e)]) = totalOccurrences db + e.occurrences.length := by
  simp [totalOccurrences]

/-- A successful bucket step adds exactly one entry, keyed by the
bucket's resource identifier, with one occurrence per resolved
citation. -/
theorem bucketStep_ok (V : VerifierOracles) (segMeta : PyDict Nat CitationSegment)
    (adjusted : PyDict Nat (Nat × Nat)) (acc : CitationDb × List StateResult)
    (kv : Resource × List Citation) (acc' : CitationDb × List StateResult)
    (hne : kv.2 ≠ [])
    (h : compileBucketStep V segMeta adjusted acc kv = .ok acc') :
    ∃ e : Entry, acc'.1 = dSet acc.1 (resourceIdentifier kv.1) e ∧
      e.occurrences.length = kv.2.length := by
  obtain ⟨db0, sr0⟩ := acc
  unfold compileBucketStep bucketVerify at h
  rcases hkv : kv.2 with _ | ⟨c0, rest⟩
  · exact absurd hkv hne
  rw [hkv] at h
  simp only [bind, Except.bind, pure, Except.pure] at h
  repeat' split at h
  all_goals (try cases h)
  all_goals (refine ⟨_, rfl, ?_⟩)
  all_goals simp [hkv]

theorem buckets_conserve_aux (V : VerifierOracles) (segMeta : PyDict Nat CitationSegment)
    (adjusted : PyDict Nat (Nat × Nat)) :
    ∀ (res : Resolutions) (acc out : CitationDb × List StateResult),
    (∀ kv ∈ res, kv.2 ≠ []) →
    (res.map (fun kv => resourceIdentifier kv.1)).Nodup →
    (∀ k ∈ res.map (fun kv => resourceIdentifier kv.1), dMem acc.1 k = false) →
    res.foldlM (compileBucketStep V segMeta adjusted) acc = .ok out →
    totalOccurrences out.1 = totalOccurrences acc.1 + totalResolved res := by
  intro res
  induction res with
  | nil =>
    intro acc out _ _ _ h
    cases h
    simp [totalResolved]
  | cons x xs ih =>
    intro acc out hne hnodup hfresh h
    rw [List.foldlM_cons] at h
    cases hstep : compileBucketStep V segMeta adjusted acc x with
    | error e => rw [hstep] at h; simp [bind, Except.bind] at h
    | ok acc' =>
      rw [hstep] at h
      simp only [bind, Except.bind] at h
      obtain ⟨e, he1, he2⟩ := bucketStep_ok V segMeta adjusted acc x acc'
        (hne x (by simp)) hstep
      have hx : dMem acc.1 (resourceIdentifier x.1) = false := hfresh _ (by simp)
      have hset : acc'.1 = acc.1 ++ [(resourceIdentifier x.1, e)] := by
        rw [he1, dSet_fresh _ _ _ hx]
      simp only [List.map_cons, List.nodup_cons] at hnodup
      obtain ⟨hnotin, htail⟩ := hnodup
      have hfresh' : ∀ k ∈ xs.map (fun kv => resourceIdentifier kv.1),
          dMem acc'.1 k = false := by
        intro k hk
        rw [hset, dMem_append_single]
        have h1 : dMem acc.1 k = false := hfresh k (by simp; right; simpa using hk)
        have h2 : resourceIdentifier x.1 ≠ k := by
          intro hEq
          exact hnotin (hEq ▸ hk)
        rw [h1]
        simp only [Bool.false_or]
        exact beq_eq_false_iff_ne.mpr h2
      have hrec := ih acc' out (fun kv hkv => hne kv (by simp [hkv])) htail hfresh' h
      rw [hrec, hset, totalOccurrences_append, he2]
      simp [totalResolved]
      omega

/-- **C4 (amended).** The bucket-compilation step conserves citation
occurrences only under two side conditions the code does not enforce:
every resolution bucket is non-empty, and the buckets' string
identifiers (`_resource_identifier`) are pairwise distinct.  Then the
database's total occurrence count equals the number of resolved
citations across the buckets.  The spec's stronger claim — total
occurrences = N tokenizer tokens — fails: eyecite's resolution step may
drop tokens (e.g. an unresolved `Id.`, yielding an empty database for a
one-token document), and colliding resource identifiers overwrite an
earlier entry, losing its occurrences. -/
theorem occurrence_conservation (V : VerifierOracles)
    (segMeta : PyDict Nat CitationSegment) (adjusted : PyDict Nat (Nat × Nat))
    (res : Resolutions) (n : Nat)
    (hne : ∀ kv ∈ res, kv.2 ≠ [])
    (hnodup : (res.map (fun kv => resourceIdentifier kv.1)).Nodup)
    (h : (compileBuckets V res segMeta adjusted).map (fun p => totalOccurrences p.1)
      = .ok n) :
    n = totalResolved res := by
  cases hcb : compileBuckets V res segMeta adjusted with
  | error e => rw [hcb] at h; simp [Except.map] at h
  | ok out =>
    rw [hcb] at h
    simp only [Except.map] at h
    cases h
    have := buckets_conserve_aux V segMeta adjusted res ([], []) out hne hnodup
      (fun _ _ => rfl) hcb
    simpa [totalOccurrences] using this

/-- A lone `Id.` token. -/
def idCitation : Citation := { kind := .idCite }

/-- A tokenizer that finds the lone `Id.` token but whose resolution
step drops it (eyecite's behaviour for an unresolvable short form). -/
def dropTokenizer : TokenizerOracle :=
  { cleanText := fun s => s
    getCitations := fun _ => .ok [idCitation]
    resolveCitations := fun _ => .ok [] }

/-- Two distinct resource keys whose string identifiers collide (the
empty components are filtered before the `::` join). -/
def collideR1 : Resource := .rkey { kind := "case", idTuple := ["", "347 u.s. 483"] }
def collideR2 : Resource := .rkey { kind := "case", idTuple := ["347 u.s. 483", ""] }

/-- A resolution map with two buckets whose identifiers collide. -/
def collideRes : Resolutions := [(collideR1, [usCaseCite]), (collideR2, [usCaseCite])]

/-- Witness for C4 (amended): one collision-free bucket with one
citation yields exactly one occurrence. -/
theorem occurrence_conservation_witness :
    ((compileBuckets fixedVerifiers [(caseResource, [usCaseCite])] [] []).map
        (fun p => totalOccurrences p.1) = .ok 1) ∧
    (1 : Nat) = totalResolved [(caseResource, [usCaseCite])] := by
  refine ⟨rfl, ?_⟩
  exact occurrence_conservation fixedVerifiers [] [] [(caseResource, [usCaseCite])] 1
    (by simp) (by simp) rfl

/-- Counterexample to C4 as stated: a one-token document (`Id. at 5`)
whose resolution drops the token compiles to an empty database
(0 occurrences ≠ 1 token); and two colliding buckets with two
citations compile to a single occurrence (1 ≠ 2). -/
theorem occurrence_conservation_counterexample :
    ((dropTokenizer.getCitations "Id. at 5").map List.length = .ok 1) ∧
    compileCitations dropTokenizer fixedVerifiers ("Id. at 5".toList) = .ok [] ∧
    totalOccurrences [] = 0 ∧
    (resourceIdentifier collideR1 = resourceIdentifier collideR2) ∧
    totalResolved collideRes = 2 ∧
    ((compileBuckets fixedVerifiers collideRes [] []).map
        (fun p => totalOccurrences p.1) = .ok 1) := by
  exact ⟨rfl, rfl, rfl, rfl, rfl, rfl⟩

/-! ### C6 — structural determinism independent of verification outcomes -/

/-- The verifier-independent part of a compiled entry: its type and the
spans of its occurrences. -/
def entryView (e : Entry) : String × List (Option (Nat × Nat)) :=
  (e.etype, e.occurrences.map (fun o => o.span))

/-- The verifier-independent (structural) view of a citation database:
keys in order, each with its entry type and occurrence spans. -/
def structuralView (db : CitationDb) : PyDict String (String × List (Option (Nat × Nat))) :=
  db.map (fun kv => (kv.1, entryView kv.2))

/-- The keys of a compiled database are pairwise distinct. -/
def NodupKeys (db : CitationDb) : Prop := (db.map (fun kv => kv.1)).Nodup

theorem view_keys (db : CitationDb) :
    (structuralView db).map (fun p => p.1) = db.map (fun kv => kv.1) := by
  simp [structuralView, List.map_map]

theorem dMem_view (db : CitationDb) (k : String) :
    dMem (structuralView db) k = dMem db k := by
  unfold dMem structuralView
  induction db with
  | nil => rfl
  | cons hd tl ih => simp only [List.map_cons, List.any_cons, ih]

theorem dGet_view (db : CitationDb) (k : String) :
    dGet (structuralView db) k = (dGet db k).map entryView := by
  unfold dGet structuralView
  induction db with
  | nil => rfl
  | cons hd tl ih =>
    by_cases hk : hd.1 == k
    · simp [List.find?, hk]
    · have hk2 : (hd.1 == k) = false := by simpa using hk
      simp only [List.map_cons, List.find?, hk2]
      exact ih

theorem view_append (db : CitationDb) (k : String) (e : Entry) :
    structuralView (db ++ [(k, e)]) = structuralView db ++ [(k, entryView e)] := by
  simp [structuralView]

theorem view_dSet (db : CitationDb) (k : String) (e : Entry) :
    structuralView (dSet db k e) = dSet (structuralView db) k (entryView e) := by
  unfold dSet
  rw [dMem_view]
  cases hm : dMem db k
  · simp only [Bool.false_eq_true, ite_false]
    exact view_append db k e
  · simp only [ite_true]
    unfold structuralView
    rw [List.map_map, List.map_map]
    apply List.map_congr_left
    intro p _
    by_cases hpk : p.1 == k
    · simp [Function.comp, hpk]
    · simp [Function.comp, hpk]

theorem dMem_false_not_mem_keys {V : Type} (d : PyDict String V) (k : String)
    (h : dMem d k = false) : k ∉ d.map (fun p => p.1) := by
  intro hk
  obtain ⟨p, hp, hpk⟩ := List.mem_map.mp hk
  unfold dMem at h
  rw [List.any_eq_false] at h
  exact absurd (by simp [hpk]) (h p hp)

theorem keys_dSet_mem (db : CitationDb) (k : String) (e : Entry)
    (hm : dMem db k = true) :
    (dSet db k e).map (fun kv => kv.1) = db.map (fun kv => kv.1) := by
  unfold dSet
  rw [hm]
  simp only [ite_true]
  rw [List.map_map]
  apply List.map_congr_left
  intro p _
  by_cases hpk : p.1 == k
  · simp [Function.comp, hpk]
    exact (eq_of_beq hpk).symm
  · simp [Function.comp, hpk]

theorem dSet_nodupKeys (db : CitationDb) (k : String) (e : Entry)
    (hn : NodupKeys db) : NodupKeys (dSet db k e) := by
  unfold NodupKeys
  cases hm : dMem db k
  · unfold dSet
    rw [hm]
    simp only [Bool.false_eq_true, ite_false, List.map_append]
    rw [List.nodup_append]
    refine ⟨hn, List.nodup_singleton _, ?_⟩
    intro a ha hb
    simp at hb
    exact dMem_false_not_mem_keys db k hm (hb ▸ ha)
  · rw [keys_dSet_mem db k e hm]
    exact hn

theorem dGet_some_dMem {V : Type} (d : PyDict String V) (k : String) (v : V)
    (h : dGet d k = some v) : dMem d k = true := by
  unfold dGet at h
  unfold dMem
  cases hf : d.find? (fun p => p.1 == k) with
  | none => rw [hf] at h; simp at h
  | some p =>
    rw [List.any_eq_true]
    refine ⟨p, List.mem_of_find?_eq_some hf, ?_⟩
    have hp2 := List.find?_some hf
    simpa using hp2

theorem dSet_self_of_nodup {V : Type} (d : PyDict String V) (k : String) (v : V)
    (hn : (d.map (fun p => p.1)).Nodup) (h : dGet d k = some v) : dSet d k v = d := by
  unfold dSet
  rw [dGet_some_dMem d k v h]
  simp only [ite_true]
  induction d with
  | nil => unfold dGet at h; simp [List.find?] at h
  | cons hd tl ih =>
    simp only [List.map_cons, List.nodup_cons] at hn
    obtain ⟨hnotin, htl⟩ := hn
    by_cases hk : hd.1 == k
    · have hdk : hd.1 = k := eq_of_beq hk
      have hv : v = hd.2 := by
        unfold dGet at h
        simp [List.find?, hk] at h
        exact h.symm
      simp only [List.map_cons, hk, ite_true]
      have htlid : tl.map (fun p => if p.1 == k then (k, v) else p) = tl := by
        conv_rhs => rw [← List.map_id tl]
        apply List.map_congr_left
        intro p hp
        have hne : p.1 ≠ k := fun hEq => hnotin (hdk ▸ hEq ▸ List.mem_map_of_mem _ hp)
        simp [beq_eq_false_iff_ne.mpr hne]
      rw [htlid, hv, ← hdk]
    · have hget : dGet tl k = some v := by
        unfold dGet at h ⊢
        simpa [List.find?, hk] using h
      simp only [List.map_cons, hk, Bool.false_eq_true, ite_false]
      rw [ih htl hget]

theorem view_nodupKeys (db : CitationDb) (hn : NodupKeys db) :
    ((structuralView db).map (fun p => p.1)).Nodup := by
  rw [view_keys]
  exact hn

theorem patchState_view (db : CitationDb) (r : StateResult) (hn : NodupKeys db) :
    structuralView (patchState db r) = structuralView db := by
  obtain ⟨key, status, substatus, details⟩ := r
  simp only [patchState]
  cases hg : dGet db key with
  | none => rfl
  | some e =>
    rw [view_dSet]
    have hval : entryView { e with status := status, substatus := substatus, verificationDetails := details } = entryView e := rfl
    rw [hval]
    apply dSet_self_of_nodup _ _ _ (view_nodupKeys db hn)
    rw [dGet_view, hg]
    rfl

theorem patchState_nodup (db : CitationDb) (r : StateResult) (hn : NodupKeys db) :
    NodupKeys (patchState db r) := by
  obtain ⟨key, status, substatus, details⟩ := r
  simp only [patchState]
  cases hg : dGet db key with
  | none => exact hn
  | some e => exact dSet_nodupKeys db key _ hn

theorem patch_fold_view (srs : List StateResult) :
    ∀ (db : CitationDb), NodupKeys db →
    structuralView (srs.foldl patchState db) = structuralView db := by
  induction srs with
  | nil => intro db _; rfl
  | cons r rs ih =>
    intro db hn
    rw [List.foldl_cons, ih _ (patchState_nodup db r hn), patchState_view db r hn]

theorem bucketVerify_ok (V : VerifierOracles)
    (hc : ∀ pf nk rd fb, ∃ r, V.verifyCase pf nk rd fb = .ok r)
    (hf : ∀ pf nk rd fb, ∃ r, V.verifyFederal pf nk rd fb = .ok r)
    (hj : ∀ pf nk rd, ∃ r, V.verifyJournal pf nk rd = .ok r)
    (et : String) (pf : Option Citation) (nk : String) (rd : ResourceDict)
    (fb : Option String) (rk : String) (st : List StateResult) :
    ∃ x, bucketVerify V et pf nk rd fb rk st = .ok x := by
  unfold bucketVerify
  by_cases h1 : et = "case"
  · simp only [if_pos h1]
    obtain ⟨r, hr⟩ := hc pf nk rd fb
    exact ⟨(r, st), by rw [hr]; rfl⟩
  simp only [if_neg h1]
  by_cases h2 : et = "law"
  · simp only [if_pos h2]
    by_cases h3 : jurisdictionOf pf = some "federal"
    · simp only [if_pos h3]
      obtain ⟨r, hr⟩ := hf pf nk rd fb
      exact ⟨(r, st), by rw [hr]; rfl⟩
    simp only [if_neg h3]
    by_cases h4 : jurisdictionOf pf = some "state"
    · simp only [if_pos h4]
      exact ⟨_, rfl⟩
    · simp only [if_neg h4]
      exact ⟨_, rfl⟩
  simp only [if_neg h2]
  by_cases h5 : et = "journal"
  · simp only [if_pos h5]
    obtain ⟨r, hr⟩ := hj pf nk rd
    exact ⟨(r, st), by rw [hr]; rfl⟩
  · simp only [if_neg h5]
    exact ⟨_, rfl⟩

theorem bucketStep_shape (V : VerifierOracles) (m : PyDict Nat CitationSegment)
    (a : PyDict Nat (Nat × Nat)) (acc : CitationDb × List StateResult)
    (kv : Resource × List Citation) (acc' : CitationDb × List StateResult)
    (h : compileBucketStep V m a acc kv = .ok acc') :
    acc'.1 = acc.1 ∨ ∃ e, acc'.1 = dSet acc.1 (resourceIdentifier kv.1) e := by
  obtain ⟨db0, sr0⟩ := acc
  unfold compileBucketStep bucketVerify at h
  rcases hkv : kv.2 with _ | ⟨c0, rest⟩
  · rw [hkv] at h
    cases h
    exact Or.inl rfl
  rw [hkv] at h
  simp only [bind, Except.bind, pure, Except.pure] at h
  repeat' split at h
  all_goals (try cases h)
  all_goals (try exact Or.inr ⟨_, rfl⟩)

theorem bucketStep_nodup (V : VerifierOracles) (m : PyDict Nat CitationSegment)
    (a : PyDict Nat (Nat × Nat)) (acc : CitationDb × List StateResult)
    (kv : Resource × List Citation) (acc' : CitationDb × List StateResult)
    (h : compileBucketStep V m a acc kv = .ok acc') (hn : NodupKeys acc.1) :
    NodupKeys acc'.1 := by
  rcases bucketStep_shape V m a acc kv acc' h with h1 | ⟨e, h2⟩
  · rw [h1]; exact hn
  · rw [h2]; exact dSet_nodupKeys _ _ _ hn

theorem buckets_fold_nodup (V : VerifierOracles) (m : PyDict Nat CitationSegment)
    (a : PyDict Nat (Nat × Nat)) :
    ∀ (res : Resolutions) (acc out : CitationDb × List StateResult),
    NodupKeys acc.1 → res.foldlM (compileBucketStep V m a) acc = .ok out →
    NodupKeys out.1 := by
  intro res
  induction res with
  | nil =>
    intro acc out hn h
    cases h
    exact hn
  | cons x xs ih =>
    intro acc out hn h
    rw [List.foldlM_cons] at h
    cases hstep : compileBucketStep V m a acc x with
    | error e => rw [hstep] at h; simp [bind, Except.bind] at h
    | ok acc' =>
      rw [hstep] at h
      simp only [bind, Except.bind] at h
      exact ih acc' out (bucketStep_nodup V m a acc x acc' hstep hn) h

theorem bind_ok_congr {A B C D : Type} (P : C → D → Prop)
    (E1 : Except Unit A) (E2 : Except Unit B)
    (k1 : A → Except Unit C) (k2 : B → Except Unit D)
    (h1 : ∃ x, E1 = .ok x) (h2 : ∃ y, E2 = .ok y)
    (hk : ∀ x y, ∃ b1 b2, k1 x = .ok b1 ∧ k2 y = .ok b2 ∧ P b1 b2) :
    ∃ b1 b2, (E1 >>= k1) = .ok b1 ∧ (E2 >>= k2) = .ok b2 ∧ P b1 b2 := by
  obtain ⟨x, hx⟩ := h1
  obtain ⟨y, hy⟩ := h2
  obtain ⟨b1, b2, hb1, hb2, hp⟩ := hk x y
  refine ⟨b1, b2, ?_, ?_, hp⟩
  · rw [hx]; simpa [bind, Except.bind] using hb1
  · rw [hy]; simpa [bind, Except.bind] using hb2

theorem bucketStep_congr (V1 V2 : VerifierOracles) (m : PyDict Nat CitationSegment)
    (a : PyDict Nat (Nat × Nat))
    (hc1 : ∀ pf nk rd fb, ∃ r, V1.verifyCase pf nk rd fb = .ok r)
    (hf1 : ∀ pf nk rd fb, ∃ r, V1.verifyFederal pf nk rd fb = .ok r)
    (hj1 : ∀ pf nk rd, ∃ r, V1.verifyJournal pf nk rd = .ok r)
    (hc2 : ∀ pf nk rd fb, ∃ r, V2.verifyCase pf nk rd fb = .ok r)
    (hf2 : ∀ pf nk rd fb, ∃ r, V2.verifyFederal pf nk rd fb = .ok r)
    (hj2 : ∀ pf nk rd, ∃ r, V2.verifyJournal pf nk rd = .ok r)
    (acc1 acc2 : CitationDb × List StateResult) (kv : Resource × List Citation)
    (he : structuralView acc1.1 = structuralView acc2.1) :
    ∃ a1 a2, compileBucketStep V1 m a acc1 kv = .ok a1 ∧
      compileBucketStep V2 m a acc2 kv = .ok a2 ∧
      structuralView a1.1 = structuralView a2.1 := by
  obtain ⟨db1, sr1⟩ := acc1
  obtain ⟨db2, sr2⟩ := acc2
  unfold compileBucketStep
  rcases hkv : kv.2 with _ | ⟨c0, rest⟩
  · exact ⟨_, _, rfl, rfl, he⟩
  apply bind_ok_congr
  · exact bucketVerify_ok V1 hc1 hf1 hj1 _ _ _ _ _ _ _
  · exact bucketVerify_ok V2 hc2 hf2 hj2 _ _ _ _ _ _ _
  · intro x y
    obtain ⟨sst1, st1⟩ := x
    obtain ⟨s1, ss1, vd1⟩ := sst1
    obtain ⟨sst2, st2⟩ := y
    obtain ⟨s2, ss2, vd2⟩ := sst2
    refine ⟨_, _, rfl, rfl, ?_⟩
    rw [view_dSet, view_dSet, he]
    rfl

theorem buckets_fold_congr (V1 V2 : VerifierOracles) (m : PyDict Nat CitationSegment)
    (a : PyDict Nat (Nat × Nat))
    (hc1 : ∀ pf nk rd fb, ∃ r, V1.verifyCase pf nk rd fb = .ok r)
    (hf1 : ∀ pf nk rd fb, ∃ r, V1.verifyFederal pf nk rd fb = .ok r)
    (hj1 : ∀ pf nk rd, ∃ r, V1.verifyJournal pf nk rd = .ok r)
    (hc2 : ∀ pf nk rd fb, ∃ r, V2.verifyCase pf nk rd fb = .ok r)
    (hf2 : ∀ pf nk rd fb, ∃ r, V2.verifyFederal pf nk rd fb = .ok r)
    (hj2 : ∀ pf nk rd, ∃ r, V2.verifyJournal pf nk rd = .ok r) :
    ∀ (res : Resolutions) (acc1 acc2 : CitationDb × List StateResult),
    structuralView acc1.1 = structuralView acc2.1 →
    ∃ out1 out2, res.foldlM (compileBucketStep V1 m a) acc1 = .ok out1 ∧
      res.foldlM (compileBucketStep V2 m a) acc2 = .ok out2 ∧
      structuralView out1.1 = structuralView out2.1 := by
  intro res
  induction res with
  | nil =>
    intro acc1 acc2 he
    exact ⟨acc1, acc2, rfl, rfl, he⟩
  | cons x xs ih =>
    intro acc1 acc2 he
    obtain ⟨a1, a2, h1, h2, he2⟩ :=
      bucketStep_congr V1 V2 m a hc1 hf1 hj1 hc2 hf2 hj2 acc1 acc2 x he
    obtain ⟨out1, out2, g1, g2, ge⟩ := ih a1 a2 he2
    refine ⟨out1, out2, ?_, ?_, ge⟩
    · rw [List.foldlM_cons, h1]; simpa [bind, Except.bind] using g1
    · rw [List.foldlM_cons, h2]; simpa [bind, Except.bind] using g2

theorem dbSpansInfo_congr (db1 db2 : CitationDb)
    (he : structuralView db1 = structuralView db2) :
    dbSpansInfo db1 = dbSpansInfo db2 := by
  have key : ∀ db : CitationDb, dbSpansInfo db = (structuralView db).foldl
      (fun acc kv => kv.2.2.foldl (fun acc sp =>
        match sp with
        | some (s0, s1) => (acc.1 ++ [(s0, s1)], acc.2 ++ [⟨s0, s1, kv.2.1, none⟩])
        | none => acc) acc) ([], []) := by
    intro db
    unfold dbSpansInfo structuralView
    rw [List.foldl_map]
    apply List.foldl_ext
    intro acc kv _
    simp only [entryView]
    rw [List.foldl_map]
  rw [key db1, key db2, he]

theorem secAllSpans_congr (db1 db2 : CitationDb) (fulls : List SecondaryCitation)
    (he : structuralView db1 = structuralView db2) :
    secAllSpans db1 fulls = secAllSpans db2 fulls := by
  unfold secAllSpans
  rw [dbSpansInfo_congr db1 db2 he]

theorem map_bind_congr {A B C : Type} (f : B → C) (E : Except Unit A)
    (k1 k2 : A → Except Unit B)
    (h : ∀ a, (k1 a).map f = (k2 a).map f) :
    ((E >>= k1).map f) = ((E >>= k2).map f) := by
  cases E with
  | error e => rfl
  | ok a => simpa [bind, Except.bind] using h a

theorem map_bind_of_ok {A A2 B C : Type} (f : C → B)
    (E1 : Except Unit A) (E2 : Except Unit A2)
    (k1 : A → Except Unit C) (k2 : A2 → Except Unit C)
    (x : A) (y : A2) (hx : E1 = .ok x) (hy : E2 = .ok y)
    (h : (k1 x).map f = (k2 y).map f) :
    ((E1 >>= k1).map f) = ((E2 >>= k2).map f) := by
  rw [hx, hy]
  simpa [bind, Except.bind] using h

theorem addSec_congr (V1 V2 : VerifierOracles)
    (hs1 : ∀ c n r, ∃ out, V1.verifySecondary c n r = .ok out)
    (hs2 : ∀ c n r, ∃ out, V2.verifySecondary c n r = .ok out)
    (cite : SecondaryCitation) (isFull : Bool) (db1 db2 : CitationDb)
    (he : structuralView db1 = structuralView db2) :
    ∃ d1 d2, addSecondaryToDb V1 cite db1 isFull = .ok d1 ∧
      addSecondaryToDb V2 cite db2 isFull = .ok d2 ∧
      structuralView d1 = structuralView d2 := by
  unfold addSecondaryToDb
  have hget : (dGet db1 (secResourceKey cite isFull)).map entryView
      = (dGet db2 (secResourceKey cite isFull)).map entryView := by
    rw [← dGet_view, ← dGet_view, he]
  cases hg1 : dGet db1 (secResourceKey cite isFull) with
  | some e1 =>
    cases hg2 : dGet db2 (secResourceKey cite isFull) with
    | none =>
      rw [hg1, hg2] at hget
      simp at hget
    | some e2 =>
      rw [hg1, hg2] at hget
      have hev : entryView e1 = entryView e2 := by simpa using hget
      refine ⟨_, _, rfl, rfl, ?_⟩
      rw [view_dSet, view_dSet, he]
      have hup : entryView { e1 with occurrences := e1.occurrences ++ [secOccurrence cite] }
          = entryView { e2 with occurrences := e2.occurrences ++ [secOccurrence cite] } := by
        have ha := congrArg Prod.fst hev
        have hb := congrArg Prod.snd hev
        simp only [entryView] at ha hb ⊢
        rw [List.map_append, List.map_append, ha, hb]
      rw [hup]
  | none =>
    cases hg2 : dGet db2 (secResourceKey cite isFull) with
    | some e2 =>
      rw [hg1, hg2] at hget
      simp at hget
    | none =>
      cases isFull with
      | false =>
        refine ⟨_, _, rfl, rfl, ?_⟩
        rw [view_dSet, view_dSet, he]
      | true =>
        apply bind_ok_congr
        · exact hs1 cite (secToNormalizedCitation cite) (secEntryResourceDict cite)
        · exact hs2 cite (secToNormalizedCitation cite) (secEntryResourceDict cite)
        · intro x y
          obtain ⟨s1, ss1, vd1⟩ := x
          obtain ⟨s2, ss2, vd2⟩ := y
          refine ⟨_, _, rfl, rfl, ?_⟩
          rw [view_dSet, view_dSet, he]
          rfl

theorem addSecFull_fold_congr (V1 V2 : VerifierOracles)
    (hs1 : ∀ c n r, ∃ out, V1.verifySecondary c n r = .ok out)
    (hs2 : ∀ c n r, ∃ out, V2.verifySecondary c n r = .ok out) :
    ∀ (lst : List SecondaryCitation) (db1 db2 : CitationDb),
    structuralView db1 = structuralView db2 →
    ∃ d1 d2, lst.foldlM (fun db c => addSecondaryToDb V1 c db true) db1 = .ok d1 ∧
      lst.foldlM (fun db c => addSecondaryToDb V2 c db true) db2 = .ok d2 ∧
      structuralView d1 = structuralView d2 := by
  intro lst
  induction lst with
  | nil =>
    intro db1 db2 he
    exact ⟨db1, db2, rfl, rfl, he⟩
  | cons c cs ih =>
    intro db1 db2 he
    obtain ⟨a1, a2, h1, h2, he2⟩ := addSec_congr V1 V2 hs1 hs2 c true db1 db2 he
    obtain ⟨d1, d2, g1, g2, ge⟩ := ih a1 a2 he2
    refine ⟨d1, d2, ?_, ?_, ge⟩
    · rw [List.foldlM_cons, h1]; simpa [bind, Except.bind] using g1
    · rw [List.foldlM_cons, h2]; simpa [bind, Except.bind] using g2

theorem procShorts_congr (V1 V2 : VerifierOracles)
    (hs1 : ∀ c n r, ∃ out, V1.verifySecondary c n r = .ok out)
    (hs2 : ∀ c n r, ∃ out, V2.verifySecondary c n r = .ok out) :
    ∀ (shorts : List SecondaryCitation) (db1 db2 : CitationDb),
    structuralView db1 = structuralView db2 →
    ∃ d1 d2, processResolvedShorts V1 shorts db1 = .ok d1 ∧
      processResolvedShorts V2 shorts db2 = .ok d2 ∧
      structuralView d1 = structuralView d2 := by
  intro shorts
  induction shorts with
  | nil =>
    intro db1 db2 he
    exact ⟨db1, db2, rfl, rfl, he⟩
  | cons c cs ih =>
    intro db1 db2 he
    by_cases hns : c.sourceType = "non_secondary"
    · obtain ⟨d1, d2, g1, g2, ge⟩ := ih db1 db2 he
      refine ⟨d1, d2, ?_, ?_, ge⟩
      · unfold processResolvedShorts at g1 ⊢
        rw [List.foldlM_cons]
        simpa [hns, bind, Except.bind, pure, Except.pure] using g1
      · unfold processResolvedShorts at g2 ⊢
        rw [List.foldlM_cons]
        simpa [hns, bind, Except.bind, pure, Except.pure] using g2
    · obtain ⟨a1, a2, h1, h2, he2⟩ := addSec_congr V1 V2 hs1 hs2 c false db1 db2 he
      obtain ⟨d1, d2, g1, g2, ge⟩ := ih a1 a2 he2
      refine ⟨d1, d2, ?_, ?_, ge⟩
      · unfold processResolvedShorts at g1 ⊢
        rw [List.foldlM_cons]
        simp only [hns, ite_false, if_neg]
        rw [h1]
        simpa [bind, Except.bind] using g1
      · unfold processResolvedShorts at g2 ⊢
        rw [List.foldlM_cons]
        simp only [hns, ite_false, if_neg]
        rw [h2]
        simpa [bind, Except.bind] using g2

theorem procSec_congr (V1 V2 : VerifierOracles)
    (hs1 : ∀ c n r, ∃ out, V1.verifySecondary c n r = .ok out)
    (hs2 : ∀ c n r, ∃ out, V2.verifySecondary c n r = .ok out)
    (text : List Char) (db1 db2 : CitationDb)
    (he : structuralView db1 = structuralView db2) :
    (processSecondaryCitations V1 text db1).map structuralView =
    (processSecondaryCitations V2 text db2).map structuralView := by
  unfold processSecondaryCitations
  rw [dbSpansInfo_congr db1 db2 he]
  have hsa : ∀ f, secAllSpans db1 f = secAllSpans db2 f :=
    fun f => secAllSpans_congr db1 db2 f he
  rcases hd : detectSecondaryCitations text (dbSpansInfo db2).1 with ⟨fulls, shorts⟩
  simp only [hsa]
  split
  · simp only [Except.map]
    rw [he]
  · obtain ⟨d1, d2, h1, h2, he2⟩ := addSecFull_fold_congr V1 V2 hs1 hs2 fulls db1 db2 he
    apply map_bind_of_ok structuralView _ _ _ _ d1 d2 h1 h2
    obtain ⟨r1, r2, g1, g2, ge⟩ := procShorts_congr V1 V2 hs1 hs2
      (resolveShortCitations fulls shorts (secAllSpans db2 fulls)) d1 d2 he2
    rw [g1, g2]
    simp only [Except.map]
    rw [ge]

theorem compileBuckets_congr (V1 V2 : VerifierOracles)
    (hc1 : ∀ pf nk rd fb, ∃ r, V1.verifyCase pf nk rd fb = .ok r)
    (hf1 : ∀ pf nk rd fb, ∃ r, V1.verifyFederal pf nk rd fb = .ok r)
    (hj1 : ∀ pf nk rd, ∃ r, V1.verifyJournal pf nk rd = .ok r)
    (hc2 : ∀ pf nk rd fb, ∃ r, V2.verifyCase pf nk rd fb = .ok r)
    (hf2 : ∀ pf nk rd fb, ∃ r, V2.verifyFederal pf nk rd fb = .ok r)
    (hj2 : ∀ pf nk rd, ∃ r, V2.verifyJournal pf nk rd = .ok r)
    (res : Resolutions) (m : PyDict Nat CitationSegment) (a : PyDict Nat (Nat × Nat)) :
    ∃ out1 out2, compileBuckets V1 res m a = .ok out1 ∧
      compileBuckets V2 res m a = .ok out2 ∧
      structuralView out1.1 = structuralView out2.1 ∧
      NodupKeys out1.1 ∧ NodupKeys out2.1 := by
  obtain ⟨out1, out2, h1, h2, he⟩ :=
    buckets_fold_congr V1 V2 m a hc1 hf1 hj1 hc2 hf2 hj2 res ([], []) ([], []) rfl
  refine ⟨out1, out2, h1, h2, he, ?_, ?_⟩
  · exact buckets_fold_nodup V1 m a res ([], []) out1 (by simp [NodupKeys]) h1
  · exact buckets_fold_nodup V2 m a res ([], []) out2 (by simp [NodupKeys]) h2

theorem compile_tail_congr (V1 V2 : VerifierOracles)
    (hc1 : ∀ pf nk rd fb, ∃ r, V1.verifyCase pf nk rd fb = .ok r)
    (hf1 : ∀ pf nk rd fb, ∃ r, V1.verifyFederal pf nk rd fb = .ok r)
    (hj1 : ∀ pf nk rd, ∃ r, V1.verifyJournal pf nk rd = .ok r)
    (hs1 : ∀ c n r, ∃ out, V1.verifySecondary c n r = .ok out)
    (hc2 : ∀ pf nk rd fb, ∃ r, V2.verifyCase pf nk rd fb = .ok r)
    (hf2 : ∀ pf nk rd fb, ∃ r, V2.verifyFederal pf nk rd fb = .ok r)
    (hj2 : ∀ pf nk rd, ∃ r, V2.verifyJournal pf nk rd = .ok r)
    (hs2 : ∀ c n r, ∃ out, V2.verifySecondary c n r = .ok out)
    (text : List Char) (res : Resolutions) (m : PyDict Nat CitationSegment)
    (a : PyDict Nat (Nat × Nat)) :
    Except.map structuralView (compileBuckets V1 res m a >>= fun p =>
      processSecondaryCitations V1 text (p.2.foldl patchState p.1)) =
    Except.map structuralView (compileBuckets V2 res m a >>= fun p =>
      processSecondaryCitations V2 text (p.2.foldl patchState p.1)) := by
  obtain ⟨out1, out2, h1, h2, he, hn1, hn2⟩ :=
    compileBuckets_congr V1 V2 hc1 hf1 hj1 hc2 hf2 hj2 res m a
  rw [h1, h2]
  simp only [bind, Except.bind]
  obtain ⟨db1, sr1⟩ := out1
  obtain ⟨db2, sr2⟩ := out2
  apply procSec_congr V1 V2 hs1 hs2
  rw [patch_fold_view sr1 db1 hn1, patch_fold_view sr2 db2 hn2]
  exact he

/-- **C6.** The structural content of the compiled database — its key
sequence, entry types, and occurrence spans (`structuralView`) — is a
function of the text and the tokenizer alone: two runs whose verifier
layers both succeed (possibly with entirely different verdicts) yield
the same structural view, so re-compiling the same text yields
identical ResourceKey sets and identical occurrence spans even if
verification outcomes change between runs. -/
theorem compile_structural_determinism (T : TokenizerOracle) (V1 V2 : VerifierOracles)
    (text : List Char)
    (hc1 : ∀ pf nk rd fb, ∃ r, V1.verifyCase pf nk rd fb = .ok r)
    (hf1 : ∀ pf nk rd fb, ∃ r, V1.verifyFederal pf nk rd fb = .ok r)
    (hj1 : ∀ pf nk rd, ∃ r, V1.verifyJournal pf nk rd = .ok r)
    (hs1 : ∀ c n r, ∃ out, V1.verifySecondary c n r = .ok out)
    (hc2 : ∀ pf nk rd fb, ∃ r, V2.verifyCase pf nk rd fb = .ok r)
    (hf2 : ∀ pf nk rd fb, ∃ r, V2.verifyFederal pf nk rd fb = .ok r)
    (hj2 : ∀ pf nk rd, ∃ r, V2.verifyJournal pf nk rd = .ok r)
    (hs2 : ∀ c n r, ∃ out, V2.verifySecondary c n r = .ok out) :
    Except.map structuralView (compileCitations T V1 text) =
    Except.map structuralView (compileCitations T V2 text) := by
  simp only [compileCitations]
  split
  · apply map_bind_congr
    intro cites
    simp only [bind, Except.bind, pure, Except.pure]
    split
    · rfl
    · split
      · split
        · rfl
        · exact compile_tail_congr V1 V2 hc1 hf1 hj1 hs1 hc2 hf2 hj2 hs2 text _ _ _
      · split
        · rfl
        · exact compile_tail_congr V1 V2 hc1 hf1 hj1 hs1 hc2 hf2 hj2 hs2 text _ _ _
  · simp only [bind, Except.bind, pure, Except.pure]
    split
    · rfl
    · exact compile_tail_congr V1 V2 hc1 hf1 hj1 hs1 hc2 hf2 hj2 hs2 text _ _ _

/-- A verification layer that always answers `no_match`. -/
def noMatchVerifiers : VerifierOracles :=
  { verifyCase := fun _ _ _ _ => .ok ("no_match", none, none)
    verifyFederal := fun _ _ _ _ => .ok ("no_match", none, none)
    verifyStateSync := fun _ _ _ _ => .ok ("no_match", none, none)
    verifyJournal := fun _ _ _ => .ok ("no_match", none, none)
    verifySecondary := fun _ _ _ => .ok ("no_match", none, none) }

/-- Witness for C6: the all-verified and all-no-match runs on a concrete
one-citation document have the same structural view. -/
theorem compile_structural_determinism_witness :
    Except.map structuralView
      (compileCitations caseTokenizer fixedVerifiers ("X v. Y".toList)) =
    Except.map structuralView
      (compileCitations caseTokenizer noMatchVerifiers ("X v. Y".toList)) := by
  exact compile_structural_determinism caseTokenizer fixedVerifiers noMatchVerifiers
    ("X v. Y".toList)
    (fun _ _ _ _ => ⟨_, rfl⟩) (fun _ _ _ _ => ⟨_, rfl⟩) (fun _ _ _ => ⟨_, rfl⟩)
    (fun _ _ _ => ⟨_, rfl⟩)
    (fun _ _ _ _ => ⟨_, rfl⟩) (fun _ _ _ _ => ⟨_, rfl⟩) (fun _ _ _ => ⟨_, rfl⟩)
    (fun _ _ _ => ⟨_, rfl⟩)

/-! ### C5 — the segmenter's span algebra -/

/-- The two-citation string citation used for the segmentation analysis. -/
def brownRoeText : List Char :=
  "Brown v. Board, 347 U.S. 483 (1954); Roe v. Wade, 410 U.S. 113 (1973)".toList

/-- Spec-modelled predicate (follows the specification's words, for
comparison with the splitter): the segments' spans, in position order,
chain with no gaps and no overlaps from `pos` to `stop`. -/
def spansChain : Nat → List CitationSegment → Nat → Bool
  | pos, [], stop => pos == stop
  | pos, s :: rest, stop => s.originalSpan.1 == pos && spansChain s.originalSpan.2 rest stop

/-- Spec-modelled predicate: the segments' spans partition the original
string-citation span `[offset, offset+len)` with no gaps or overlaps. -/
def specSpansPartition (segs : List CitationSegment) (offset len : Nat) : Bool :=
  spansChain offset segs (offset + len)

/-- The segments' spans are in increasing position order, pairwise
disjoint, and start no earlier than `lo`. -/
def spansOrderedFrom : Nat → List CitationSegment → Bool
  | _, [] => true
  | lo, s :: rest =>
    decide (lo ≤ s.originalSpan.1) && decide (s.originalSpan.1 ≤ s.originalSpan.2) &&
      spansOrderedFrom s.originalSpan.2 rest

/-- Like `spansOrderedFrom`, additionally bounding the chain's end. -/
def chainBound : Nat → List CitationSegment → Nat → Bool
  | lo, [], hi => decide (lo ≤ hi)
  | lo, s :: rest, hi =>
    decide (lo ≤ s.originalSpan.1) && decide (s.originalSpan.1 ≤ s.originalSpan.2) &&
      chainBound s.originalSpan.2 rest hi

theorem pyFindFrom_ge (s sub : List Char) (start i : Nat)
    (h : pyFindFrom s sub start = some i) : start ≤ i := by
  unfold pyFindFrom at h
  have := List.find?_some h
  simp at this
  exact this.1

theorem chainBound_mono (hi hi2 : Nat) (hle : hi ≤ hi2) :
    ∀ (segs : List CitationSegment) (lo : Nat),
    chainBound lo segs hi = true → chainBound lo segs hi2 = true := by
  intro segs
  induction segs with
  | nil =>
    intro lo h
    simp [chainBound] at h ⊢
    omega
  | cons s rest ih =>
    intro lo h
    simp only [chainBound, Bool.and_eq_true] at h ⊢
    exact ⟨h.1, ih _ h.2⟩

theorem chainBound_append (x : CitationSegment) (hi : Nat)
    (hx1 : hi ≤ x.originalSpan.1) (hx2 : x.originalSpan.1 ≤ x.originalSpan.2) :
    ∀ (segs : List CitationSegment) (lo : Nat),
    chainBound lo segs hi = true →
    chainBound lo (segs ++ [x]) x.originalSpan.2 = true := by
  intro segs
  induction segs with
  | nil =>
    intro lo h
    simp [chainBound] at h ⊢
    omega
  | cons s rest ih =>
    intro lo h
    simp only [chainBound, Bool.and_eq_true, List.cons_append] at h ⊢
    exact ⟨h.1, ih _ h.2⟩

theorem chainBound_ordered (segs : List CitationSegment) :
    ∀ (lo hi : Nat), chainBound lo segs hi = true → spansOrderedFrom lo segs = true := by
  induction segs with
  | nil => intro lo hi _; rfl
  | cons s rest ih =>
    intro lo hi h
    simp only [chainBound, spansOrderedFrom, Bool.and_eq_true] at h ⊢
    exact ⟨h.1, ih _ _ h.2⟩

theorem loop_chain (text : List Char) (offset : Nat) (gid : String) (lo : Nat) :
    ∀ (parts : List (Nat × List Char)) (segments : List CitationSegment) (cur : Nat),
    chainBound lo segments (offset + cur) = true →
    chainBound lo (splitSegmentsLoop text offset gid parts (segments, cur)).1
      (offset + (splitSegmentsLoop text offset gid parts (segments, cur)).2) = true := by
  intro parts
  induction parts with
  | nil =>
    intro segments cur h
    simpa [splitSegmentsLoop] using h
  | cons p rest ih =>
    intro segments cur h
    obtain ⟨i, part⟩ := p
    by_cases hstrip : pyStrip part = []
    · simp only [splitSegmentsLoop, hstrip, ite_true]
      apply ih
      exact chainBound_mono (offset + cur) (offset + (cur + part.length)) (by omega) segments lo h
    · simp only [splitSegmentsLoop, hstrip, ite_false, if_neg]
      apply ih
      have hge : cur ≤ (pyFindFrom text (pyStrip part) cur).getD cur := by
        cases hf : pyFindFrom text (pyStrip part) cur with
        | none => simp
        | some j => simpa using pyFindFrom_ge text (pyStrip part) cur j hf
      apply chainBound_append _ (offset + cur) (by simp; omega) (by simp) segments lo h

/-- Helper: a successful split yields ordered, pairwise-disjoint spans. -/
theorem split_spans_ordered_aux (text : List Char) (offset : Nat) (gid : String)
    (segs : List CitationSegment)
    (h : splitStringCitation text offset gid = .ok segs) :
    spansOrderedFrom offset segs = true := by
  simp only [splitStringCitation] at h
  split at h
  · cases h
  · split at h
    · cases h
      rfl
    · cases h
      apply chainBound_ordered _ offset
        (offset + ((splitSegmentsLoop text offset gid
          (smartSplitOnSemicolons text (splitterProtectedRanges text)).enum ([], 0)).2))
      apply loop_chain
      simp [chainBound]

/-- **C5 (amended).** For every string-citation text the segmenter
splits successfully, the returned segments' spans are in position
order, pairwise disjoint, and contained in `[offset, ...)` — but they
do **not** partition the original span: the separator text consumed at
each semicolon boundary (and any whitespace stripped at segment edges)
leaves gaps between consecutive spans. -/
theorem split_spans_ordered (text : List Char) (offset : Nat) (gid : String) (b : Bool)
    (h : (splitStringCitation text offset gid).map
      (fun segs => spansOrderedFrom offset segs) = .ok b) :
    b = true := by
  cases hs : splitStringCitation text offset gid with
  | error e => rw [hs] at h; simp [Except.map] at h
  | ok segs =>
    rw [hs] at h
    simp only [Except.map] at h
    cases h
    exact split_spans_ordered_aux text offset gid segs hs

/-- Witness for C5 (amended): the concrete two-citation string's
segments are ordered and disjoint. -/
theorem split_spans_ordered_witness :
    ((splitStringCitation brownRoeText 100 "g").map
      (fun segs => spansOrderedFrom 100 segs) = .ok true) ∧
    (true : Bool) = true := by
  refine ⟨rfl, ?_⟩
  exact split_spans_ordered brownRoeText 100 "g" true rfl

/-- Counterexample to C5 as stated: splitting
`Brown v. Board, 347 U.S. 483 (1954); Roe v. Wade, 410 U.S. 113 (1973)`
at offset 100 yields spans `(100,135)` and `(137,169)` — the two bytes
of the `"; "` separator belong to no segment, so the spans do not
partition `[100, 169)`. -/
theorem split_spans_partition_counterexample :
    (splitStringCitation brownRoeText 100 "g").map
      (fun segs => segs.map (fun s => s.originalSpan)) = .ok [(100, 135), (137, 169)] ∧
    brownRoeText.length = 69 ∧
    (splitStringCitation brownRoeText 100 "g").map
      (fun segs => specSpansPartition segs 100 brownRoeText.length) = .ok false := by
  exact ⟨rfl, rfl, rfl⟩

end CV
